import Mathlib

/-!
Verification development for the DarwinSQL repository.

The core of the repository is the migration harness `_apply_migration`
(tests/test_migrations.py): a text pipeline that rewrites a migration
file's SQL so every statement targets prefixed table names, strips
environment-specific lines and comments, splits the text into statements
and executes them in order, failing fast on the first error.  The two
cleanup scripts (scripts/cleanup_darwin2.py, scripts/cleanup_darwin_dev.py)
are modelled as state machines over an abstract database state.

Text is modelled as `List Char`; Python string methods are translated one
by one (`str.replace`, `str.split`, `str.strip`, `str.rstrip`,
`str.lower`, `str.upper`, `str.index`, the `in` containment test).
-/

/-- ASCII whitespace test, mirroring which characters Python's
`str.strip`/`str.rstrip` remove on the ASCII inputs this repository uses. -/
def isWs (c : Char) : Bool :=
  c = ' ' || c = '\t' || c = '\n' || c = '\r' || c = '\x0b' || c = '\x0c'

/-- The ASCII letter pairs used to translate `str.lower` / `str.upper`. -/
def letterPairs : List (Char × Char) :=
  [('A', 'a'), ('B', 'b'), ('C', 'c'), ('D', 'd'), ('E', 'e'), ('F', 'f'),
   ('G', 'g'), ('H', 'h'), ('I', 'i'), ('J', 'j'), ('K', 'k'), ('L', 'l'),
   ('M', 'm'), ('N', 'n'), ('O', 'o'), ('P', 'p'), ('Q', 'q'), ('R', 'r'),
   ('S', 's'), ('T', 't'), ('U', 'u'), ('V', 'v'), ('W', 'w'), ('X', 'x'),
   ('Y', 'y'), ('Z', 'z')]

/-- ASCII lowering of one character, mirroring `str.lower` on ASCII text. -/
def lowerC (c : Char) : Char :=
  match letterPairs.find? (fun p => p.1 = c) with
  | some p => p.2
  | none => c

/-- ASCII raising of one character, mirroring `str.upper` on ASCII text. -/
def upperC (c : Char) : Char :=
  match letterPairs.find? (fun p => p.2 = c) with
  | some p => p.1
  | none => c

/-- `str.lower` on a text. -/
def lowerS (s : List Char) : List Char := s.map lowerC

/-- `str.upper` on a text. -/
def upperS (s : List Char) : List Char := s.map upperC

/-- `str.lstrip` (no argument): drop leading ASCII whitespace. -/
def lstripL (s : List Char) : List Char := s.dropWhile isWs

/-- `str.rstrip` (no argument): drop trailing ASCII whitespace. -/
def rstripL : List Char → List Char
  | [] => []
  | c :: cs =>
    match rstripL cs with
    | [] => if isWs c then [] else [c]
    | r => c :: r

/-- `str.strip` (no argument): drop whitespace at both ends. -/
def trimL (s : List Char) : List Char := lstripL (rstripL s)

/-- Index of the first occurrence of `p` in `s` (`str.index` / the `in`
test), `none` when `p` does not occur. -/
def subIdx? (p : List Char) : List Char → Option Nat
  | [] => if p.isEmpty then some 0 else none
  | c :: cs => if p.isPrefixOf (c :: cs) then some 0 else (subIdx? p cs).map Nat.succ

/-- Python's `p in s` substring test. -/
def containsSub (p s : List Char) : Bool := (subIdx? p s).isSome

/-- Fuel-driven worker for `str.replace`: scan left to right, replacing
each non-overlapping occurrence of `q` by `r` and never rescanning the
replacement text.  The fuel is an upper bound on the scan length so the
definition is structural and reduces definitionally. -/
def replAux (q r : List Char) : Nat → List Char → List Char
  | _, [] => []
  | 0, s => s
  | fuel + 1, c :: cs =>
    if q.isPrefixOf (c :: cs) then r ++ replAux q r fuel ((c :: cs).drop q.length)
    else c :: replAux q r fuel cs

/-- Python's `s.replace(q, r)` for a non-empty pattern `q` (every pattern
used by the harness is non-empty). -/
def replaceL (q r s : List Char) : List Char :=
  if q.isEmpty then s else replAux q r s.length s

/-- Prepend `a` onto the first fragment of a fragment list. -/
def consHead (a : List Char) : List (List Char) → List (List Char)
  | [] => [a]
  | h :: t => (a ++ h) :: t

/-- Python's `s.split(sep)` for a one-character separator. -/
def splitOnC (sep : Char) : List Char → List (List Char)
  | [] => [[]]
  | c :: cs =>
    if c = sep then [] :: splitOnC sep cs
    else consHead [c] (splitOnC sep cs)

/-- Split a text into its lines (`s.split('\n')`). -/
def splitNL (s : List Char) : List (List Char) := splitOnC '\n' s

/-- Join fragments with a separator (`sep.join(fragments)`). -/
def joinWith (sep : List Char) (ls : List (List Char)) : List Char :=
  List.intercalate sep ls

/-! ## The migration rewriter (`_apply_migration`, tests/test_migrations.py)

The five pipeline stages, each translated from the corresponding block of
the source function. -/

/-- The darwin2-specific suffixed table names whose lines are dropped. -/
def suffixedNames : List (List Char) :=
  ["profiles2".data, "domains2".data, "areas2".data, "tasks2".data]

/-- Stage 1 (source lines 49-55): drop every line whose stripped, lowered
content mentions one of the suffixed variant names; join the rest. -/
def removeSuffixLines (s : List Char) : List Char :=
  joinWith ['\n'] ((splitNL s).filter
    (fun line => ! suffixedNames.any (fun t => containsSub t (lowerS (trimL line)))))

/-- Stage 2 (source lines 57-66): the eight `str.replace` calls, backtick
quoted names first, then bare names, in source order. -/
def substTables (x s : List Char) : List Char :=
  let s := replaceL "`profiles`".data ("`".data ++ x ++ "_profiles`".data) s
  let s := replaceL "`domains`".data ("`".data ++ x ++ "_domains`".data) s
  let s := replaceL "`areas`".data ("`".data ++ x ++ "_areas`".data) s
  let s := replaceL "`tasks`".data ("`".data ++ x ++ "_tasks`".data) s
  let s := replaceL "profiles".data (x ++ "_profiles".data) s
  let s := replaceL "domains".data (x ++ "_domains".data) s
  let s := replaceL "areas".data (x ++ "_areas".data) s
  let s := replaceL "tasks".data (x ++ "_tasks".data) s
  s

/-- One line of stage 3 (source lines 70-79): truncate at the first `--`;
then truncate at the first `#` unless a single quote occurs before it;
right-strip; return `none` for lines that end up empty. -/
def stripCommentLine (line : List Char) : Option (List Char) :=
  let l1 := match subIdx? "--".data line with
    | some i => line.take i
    | none => line
  let l2 := match subIdx? "#".data l1 with
    | some j => if containsSub "'".data (l1.take j) then l1 else l1.take j
    | none => l1
  let l3 := rstripL l2
  if l3 = [] then none else some l3

/-- Stage 3 (source lines 68-80): remove `--` and `#` comments line by
line, drop emptied lines, join the survivors. -/
def stripComments (s : List Char) : List Char :=
  joinWith ['\n'] ((splitNL s).filterMap stripCommentLine)

/-- Stage 4 (source lines 83-86): split on `;`, strip each fragment, keep
the non-empty fragments in order. -/
def splitStmts (s : List Char) : List (List Char) :=
  ((splitOnC ';' s).map trimL).filter (fun t => t ≠ [])

/-- The directive test of stage 5 (source lines 88-89):
`stmt.upper().startswith(('CREATE DATABASE', 'USE '))`. -/
def isDirective (t : List Char) : Bool :=
  "CREATE DATABASE".data.isPrefixOf (upperS t) || "USE ".data.isPrefixOf (upperS t)

/-- Stage 5 (source lines 87-90): drop database-creation and
database-selection directives. -/
def filterDirectives (ts : List (List Char)) : List (List Char) :=
  ts.filter (fun t => ! isDirective t)

/-- The full rewriter: the statement sequence `_apply_migration` submits
to `cur.execute` for a migration text `s` and table prefix `x`. -/
def migrationStatements (x s : List Char) : List (List Char) :=
  filterDirectives (splitStmts (stripComments (substTables x (removeSuffixLines s))))

/-- The error message built at source line 95:
`f"Migration statement failed:\n{stmt}\nError: {e}"`. -/
def failMsg (stmt e : List Char) : List Char :=
  "Migration statement failed:\n".data ++ stmt ++ "\nError: ".data ++ e

/-- Execution loop of `_apply_migration` (source lines 83-95) over an
abstract database `exec`: run the statements in order; on the first
failure stop and surface the annotated error message.  Returns the list
of statements actually submitted and the surfaced error, if any. -/
def runStmts (exec : List Char → Except (List Char) Unit) :
    List (List Char) → List (List Char) × Option (List Char)
  | [] => ([], none)
  | s :: rest =>
    match exec s with
    | .ok _ => let p := runStmts exec rest; (s :: p.1, p.2)
    | .error e => ([s], some (failMsg s e))

/-! ## Basic lemmas about the string operations -/

theorem isPrefixOf_self_append (p b : List Char) : p.isPrefixOf (p ++ b) = true := by
  induction p with
  | nil => simp [List.isPrefixOf]
  | cons c cs ih => simp [List.isPrefixOf, ih]

theorem containsSub_here (p b : List Char) : containsSub p (p ++ b) = true := by
  cases p with
  | nil => cases b <;> simp [containsSub, subIdx?, List.isPrefixOf]
  | cons c cs =>
    have h : (c :: cs).isPrefixOf (c :: (cs ++ b)) = true := by
      have h0 := isPrefixOf_self_append (c :: cs) b
      rw [List.cons_append] at h0
      exact h0
    simp [containsSub, subIdx?, h]

theorem containsSub_append_self (a p b : List Char) : containsSub p (a ++ (p ++ b)) = true := by
  induction a with
  | nil => rw [List.nil_append]; exact containsSub_here p b
  | cons c a' ih =>
    simp only [containsSub, List.cons_append, subIdx?] at ih ⊢
    split
    · simp
    · simpa using ih

/-! ## C3: fail-fast execution with annotated errors -/

theorem runStmts_all_ok (exec : List Char → Except (List Char) Unit) :
    ∀ l : List (List Char), (∀ s ∈ l, exec s = .ok ()) → runStmts exec l = (l, none) := by
  intro l
  induction l with
  | nil => intro _; rfl
  | cons s rest ih =>
    intro h
    have hs : exec s = .ok () := h s (by simp)
    simp only [runStmts, hs]
    rw [ih (fun t ht => h t (by simp [ht]))]

theorem runStmts_fail_spec (exec : List Char → Except (List Char) Unit)
    (stmts tr : List (List Char)) (m : List Char)
    (h : runStmts exec stmts = (tr, some m)) :
    ∃ pre s post e, stmts = pre ++ s :: post ∧
      (∀ t ∈ pre, exec t = .ok ()) ∧
      exec s = .error e ∧
      m = failMsg s e ∧
      tr = pre ++ [s] ∧
      containsSub s m = true ∧
      containsSub e m = true := by
  induction stmts generalizing tr m with
  | nil => simp [runStmts] at h
  | cons s rest ih =>
    simp only [runStmts] at h
    cases hexec : exec s with
    | ok u =>
      rw [hexec] at h
      simp only at h
      obtain ⟨htr, hm⟩ : s :: (runStmts exec rest).1 = tr ∧ (runStmts exec rest).2 = some m := by
        constructor
        · exact congrArg Prod.fst h
        · exact congrArg Prod.snd h
      obtain ⟨pre, s', post, e, hsplit, hpre, herr, hmsg, htr', hc1, hc2⟩ :=
        ih (runStmts exec rest).1 m (by rw [← hm])
      refine ⟨s :: pre, s', post, e, by simp [hsplit], ?_, herr, hmsg, ?_, hc1, hc2⟩
      · intro t ht
        rcases List.mem_cons.mp ht with rfl | ht'
        · cases u; exact hexec
        · exact hpre t ht'
      · rw [← htr]; simp [htr']
    | error e =>
      rw [hexec] at h
      simp only at h
      obtain ⟨htr, hm⟩ : [s] = tr ∧ some (failMsg s e) = some m := ⟨congrArg Prod.fst h, congrArg Prod.snd h⟩
      refine ⟨[], s, rest, e, by simp, by simp, hexec, (Option.some_inj.mp hm).symm, htr.symm, ?_, ?_⟩
      · rw [← (Option.some_inj.mp hm)]
        simp only [failMsg, List.append_assoc]
        exact containsSub_append_self _ s _
      · rw [← (Option.some_inj.mp hm)]
        have hsplit2 : failMsg s e
            = ("Migration statement failed:\n".data ++ s ++ "\nError: ".data) ++ (e ++ []) := by
          simp [failMsg]
        rw [hsplit2]
        exact containsSub_append_self _ e []

/-- C3: for every migration text and prefix processed by the harness, if
executing some statement fails, the surfaced error is the annotated
message containing the exact failing statement text and the underlying
database error, every statement before the failing one succeeded, the
failing statement is the last one submitted, and no statement occurring
after it in the file is executed. -/
theorem migration_fail_fast (exec : List Char → Except (List Char) Unit)
    (x sql : List Char) (tr : List (List Char)) (m : List Char)
    (h : runStmts exec (migrationStatements x sql) = (tr, some m)) :
    ∃ pre s post e, migrationStatements x sql = pre ++ s :: post ∧
      (∀ t ∈ pre, exec t = .ok ()) ∧
      exec s = .error e ∧
      m = failMsg s e ∧
      tr = pre ++ [s] ∧
      containsSub s m = true ∧
      containsSub e m = true :=
  runStmts_fail_spec exec _ tr m h

/-- Concrete database stub used by the fail-fast witness: every statement
succeeds except `DROP TABLE nope`. -/
def execDemo : List Char → Except (List Char) Unit :=
  fun s => if s = "DROP TABLE nope".data then .error "Unknown table nope".data else .ok ()

/-- Concrete migration text used by the fail-fast witness. -/
def failSql : List Char := "CREATE TABLE tasks (id INT);\nDROP TABLE nope;\nSELECT 1;".data

/-- Witness for `migration_fail_fast` at a concrete migration text,
prefix and database stub. -/
theorem migration_fail_fast_witness :
    ∃ pre s post e, migrationStatements "w".data failSql = pre ++ s :: post ∧
      (∀ t ∈ pre, execDemo t = .ok ()) ∧
      execDemo s = .error e ∧
      failMsg "DROP TABLE nope".data "Unknown table nope".data = failMsg s e ∧
      ["CREATE TABLE w_tasks (id INT)".data, "DROP TABLE nope".data] = pre ++ [s] ∧
      containsSub s (failMsg "DROP TABLE nope".data "Unknown table nope".data) = true ∧
      containsSub e (failMsg "DROP TABLE nope".data "Unknown table nope".data) = true :=
  migration_fail_fast execDemo "w".data failSql
    ["CREATE TABLE w_tasks (id INT)".data, "DROP TABLE nope".data]
    (failMsg "DROP TABLE nope".data "Unknown table nope".data) (by decide)

/-- Database stub that accepts every statement. -/
def execOk : List Char → Except (List Char) Unit := fun _ => .ok ()

/-! ## C6: statement splitting, directive filtering, execution -/

/-- Text used by the split/filter witness. -/
def splitDemoText : List Char :=
  "CREATE DATABASE darwin2;\nUSE darwin2;\nCREATE TABLE w_tasks (id INT);\n\n;SELECT 1 FROM w_tasks".data

/-- C6: the harness splits the rewritten text on `;`, trims each
fragment, keeps exactly the non-empty fragments in order, drops the
statements beginning (case-insensitively) with `CREATE DATABASE` or
`USE `, and executes every remaining statement (shown here for a
database that accepts them all). -/
theorem split_filter_execute (t : List Char) (exec : List Char → Except (List Char) Unit)
    (hok : ∀ s ∈ filterDirectives (splitStmts t), exec s = .ok ()) :
    filterDirectives (splitStmts t)
      = ((splitOnC ';' t).map trimL).filter (fun s => !s.isEmpty && !isDirective s) ∧
    runStmts exec (filterDirectives (splitStmts t)) = (filterDirectives (splitStmts t), none) := by
  constructor
  · unfold filterDirectives splitStmts
    rw [List.filter_filter]
    congr 1
    funext s
    cases s <;> simp
  · exact runStmts_all_ok exec _ hok

/-- Witness for `split_filter_execute` at a concrete rewritten text. -/
theorem split_filter_execute_witness :
    filterDirectives (splitStmts splitDemoText)
      = ((splitOnC ';' splitDemoText).map trimL).filter (fun s => !s.isEmpty && !isDirective s) ∧
    runStmts execOk (filterDirectives (splitStmts splitDemoText))
      = (filterDirectives (splitStmts splitDemoText), none) :=
  split_filter_execute splitDemoText execOk (fun _ _ => rfl)

/-! ## C1: what table references become under rewriting -/

set_option maxRecDepth 20000

/-- A migration text containing every canonical table name in both the
backtick-quoted and the bare form. -/
def rewriterDemoSql : List Char :=
  ("INSERT INTO `profiles` VALUES (1);\nINSERT INTO `domains` VALUES (1);\n" ++
   "INSERT INTO `areas` VALUES (1);\nINSERT INTO `tasks` VALUES (1);\n" ++
   "INSERT INTO profiles VALUES (1);\nINSERT INTO domains VALUES (1);\n" ++
   "INSERT INTO areas VALUES (1);\nINSERT INTO tasks VALUES (1);").data

/-- Counterexample to C1 as stated: rewriting with prefix `p` sends the
backtick-quoted reference `` `profiles` `` to `` `p_p_profiles` `` — the
bare-name replacement pass re-matches inside the output of the quoted-name
pass — so no backtick-quoted reference appears as `` `p_profiles` ``
anywhere in the output. -/
theorem rewriter_double_prefix_cex :
    migrationStatements "p".data rewriterDemoSql =
      ["INSERT INTO `p_p_profiles` VALUES (1)".data,
       "INSERT INTO `p_p_domains` VALUES (1)".data,
       "INSERT INTO `p_p_areas` VALUES (1)".data,
       "INSERT INTO `p_p_tasks` VALUES (1)".data,
       "INSERT INTO p_profiles VALUES (1)".data,
       "INSERT INTO p_domains VALUES (1)".data,
       "INSERT INTO p_areas VALUES (1)".data,
       "INSERT INTO p_tasks VALUES (1)".data] ∧
    containsSub "`p_profiles`".data
      (joinWith ['\n'] (migrationStatements "p".data rewriterDemoSql)) = false ∧
    containsSub "`p_p_profiles`".data
      (joinWith ['\n'] (migrationStatements "p".data rewriterDemoSql)) = true := by
  decide

/-! ## C2: the five-stage pipeline order is fixed -/

/-- The rewriter with stages 2 and 3 swapped (comment stripping before
table-name substitution), used to show the order is observable. -/
def migrationStatementsSwapped (x s : List Char) : List (List Char) :=
  filterDirectives (splitStmts (substTables x (stripComments (removeSuffixLines s))))

/-- C2: the rewriter is exactly the fixed pipeline {suffix-line removal,
then table-name substitution, then comment stripping, then statement
split, then directive filtering}; and performing comment stripping before
substitution is observably different, so the order (in particular
substitution before stripping) matters. -/
theorem pipeline_fixed_order :
    (∀ x s, migrationStatements x s
        = filterDirectives (splitStmts (stripComments (substTables x (removeSuffixLines s))))) ∧
    migrationStatementsSwapped "q#".data "SELECT * FROM tasks;".data
      ≠ migrationStatements "q#".data "SELECT * FROM tasks;".data :=
  ⟨fun _ _ => rfl, by decide⟩

/-! ## C4: the suffixed-variant line filter -/

theorem isWs_lowerC (c : Char) : isWs (lowerC c) = isWs c := by
  unfold lowerC
  cases hf : letterPairs.find? (fun p => p.1 = c) with
  | none => rfl
  | some p =>
    have hp : p ∈ letterPairs := List.mem_of_find?_eq_some hf
    have hpc := List.find?_some hf
    have hc : p.1 = c := by simpa using hpc
    subst hc
    fin_cases hp <;> decide

theorem isPrefixOf_exists (p l : List Char) : p.isPrefixOf l = true ↔ ∃ b, l = p ++ b := by
  induction p generalizing l with
  | nil => simp [List.isPrefixOf]
  | cons q qs ih =>
    cases l with
    | nil => simp [List.isPrefixOf]
    | cons x xs =>
      simp only [List.isPrefixOf, Bool.and_eq_true, beq_iff_eq, ih, List.cons_append]
      constructor
      · rintro ⟨rfl, b, rfl⟩; exact ⟨b, rfl⟩
      · rintro ⟨b, hb⟩
        injection hb with h1 h2
        exact ⟨h1.symm, b, h2⟩

theorem containsSub_iff (p l : List Char) :
    containsSub p l = true ↔ ∃ a b, l = a ++ (p ++ b) := by
  induction l with
  | nil =>
    constructor
    · intro h
      cases p with
      | nil => exact ⟨[], [], rfl⟩
      | cons c cs => exact Bool.noConfusion h
    · rintro ⟨a, b, hab⟩
      have ha : a = [] := by cases a <;> simp_all
      subst ha
      have hp : p = [] := by cases p <;> simp_all
      subst hp
      decide
  | cons c cs ih =>
    constructor
    · intro h
      simp only [containsSub, subIdx?] at h
      by_cases hpre : p.isPrefixOf (c :: cs) = true
      · obtain ⟨b, hb⟩ := (isPrefixOf_exists p (c :: cs)).mp hpre
        exact ⟨[], b, by simpa using hb⟩
      · rw [if_neg (by simpa using hpre)] at h
        have h' : containsSub p cs = true := by simpa [containsSub] using h
        obtain ⟨a, b, hab⟩ := ih.mp h'
        exact ⟨c :: a, b, by simp [hab]⟩
    · rintro ⟨a, b, hab⟩
      cases a with
      | nil =>
        simp only [List.nil_append] at hab
        have hpre : p.isPrefixOf (c :: cs) = true :=
          (isPrefixOf_exists p (c :: cs)).mpr ⟨b, hab⟩
        simp [containsSub, subIdx?, hpre]
      | cons a0 a' =>
        simp only [List.cons_append] at hab
        injection hab with h1 h2
        have : containsSub p cs = true := ih.mpr ⟨a', b, h2⟩
        simp only [containsSub, subIdx?]
        split
        · simp
        · simpa [containsSub] using this

theorem rstripL_eq (s : List Char) : rstripL s = (s.reverse.dropWhile isWs).reverse := by
  induction s with
  | nil => rfl
  | cons c cs ih =>
    rw [List.reverse_cons, List.dropWhile_append]
    by_cases h : rstripL cs = []
    · have h3 : cs.reverse.dropWhile isWs = [] := by
        have h4 := ih
        rw [h] at h4
        have h5 := congrArg List.reverse h4
        simpa using h5.symm
      rw [if_pos (by simp [h3])]
      cases hc : isWs c
      · simp [rstripL, h, hc, List.dropWhile]
      · simp [rstripL, h, hc, List.dropWhile]
    · have h2 : (cs.reverse.dropWhile isWs).isEmpty = false := by
        rcases hx : cs.reverse.dropWhile isWs with _ | ⟨y, ys⟩
        · exfalso; apply h; rw [ih, hx]; rfl
        · rfl
      rw [if_neg (by simp [h2])]
      rw [List.reverse_append, ← ih]
      rcases hr : rstripL cs with _ | ⟨r, rs⟩
      · exact absurd hr h
      · simp [rstripL, hr]

theorem containsSub_rev (p w : List Char) : containsSub p w.reverse = containsSub p.reverse w := by
  apply Bool.eq_iff_iff.mpr
  rw [containsSub_iff, containsSub_iff]
  constructor
  · rintro ⟨a, b, hab⟩
    refine ⟨b.reverse, a.reverse, ?_⟩
    have h := congrArg List.reverse hab
    simpa [List.reverse_append, List.append_assoc] using h
  · rintro ⟨a, b, hab⟩
    refine ⟨b.reverse, a.reverse, ?_⟩
    have h := congrArg List.reverse hab
    simpa [List.reverse_append, List.append_assoc] using h

theorem containsSub_lstrip (c : Char) (cs l : List Char) (hc : isWs c = false) :
    containsSub (c :: cs) (l.dropWhile isWs) = containsSub (c :: cs) l := by
  by_cases h : containsSub (c :: cs) l = true
  · rw [h]
    obtain ⟨a, b, hab⟩ := (containsSub_iff _ _).mp h
    subst hab
    rw [List.dropWhile_append]
    split
    · rw [List.cons_append, List.dropWhile_cons_of_neg (by simp [hc])]
      have h2 := containsSub_here (c :: cs) b
      rw [List.cons_append] at h2
      exact h2
    · exact containsSub_append_self _ _ _
  · have hfalse : containsSub (c :: cs) l = false := by
      cases hval : containsSub (c :: cs) l
      · rfl
      · exact absurd hval h
    rw [hfalse]
    cases hval : containsSub (c :: cs) (l.dropWhile isWs)
    · rfl
    · exfalso
      obtain ⟨a, b, hab⟩ := (containsSub_iff _ _).mp hval
      apply h
      refine (containsSub_iff _ _).mpr ⟨l.takeWhile isWs ++ a, b, ?_⟩
      conv_lhs => rw [← List.takeWhile_append_dropWhile isWs l]
      rw [hab, List.append_assoc]

theorem containsSub_rstrip (c : Char) (cs l : List Char) (d : Char) (ds : List Char)
    (hrev : (c :: cs).reverse = d :: ds) (hd : isWs d = false) :
    containsSub (c :: cs) (rstripL l) = containsSub (c :: cs) l := by
  rw [rstripL_eq, containsSub_rev, hrev, containsSub_lstrip d ds _ hd, ← hrev]
  have h := containsSub_rev (c :: cs).reverse l
  rw [List.reverse_reverse] at h
  exact h

theorem containsSub_trim (c : Char) (cs l : List Char) (hc : isWs c = false)
    (d : Char) (ds : List Char) (hrev : (c :: cs).reverse = d :: ds) (hd : isWs d = false) :
    containsSub (c :: cs) (trimL l) = containsSub (c :: cs) l := by
  unfold trimL lstripL
  rw [containsSub_lstrip c cs _ hc, containsSub_rstrip c cs l d ds hrev hd]

theorem lowerS_dropWhile (s : List Char) :
    lowerS (s.dropWhile isWs) = (lowerS s).dropWhile isWs := by
  show List.map lowerC (List.dropWhile isWs s) = List.dropWhile isWs (List.map lowerC s)
  rw [List.dropWhile_map]
  congr 2
  funext c
  exact (isWs_lowerC c).symm

theorem lowerS_rstripL (s : List Char) : lowerS (rstripL s) = rstripL (lowerS s) := by
  rw [rstripL_eq, rstripL_eq]
  show List.map lowerC (s.reverse.dropWhile isWs).reverse
      = ((List.map lowerC s).reverse.dropWhile isWs).reverse
  rw [List.map_reverse]
  congr 1
  rw [← List.map_reverse]
  exact lowerS_dropWhile s.reverse

theorem lowerS_trimL (s : List Char) : lowerS (trimL s) = trimL (lowerS s) := by
  unfold trimL lstripL
  rw [lowerS_dropWhile, lowerS_rstripL]

theorem contains_lower_trim_eq (t l : List Char) (c d : Char) (cs ds : List Char)
    (h1 : t = c :: cs) (hc : isWs c = false) (h2 : t.reverse = d :: ds) (hd : isWs d = false) :
    containsSub t (lowerS (trimL l)) = containsSub t (lowerS l) := by
  subst h1
  rw [lowerS_trimL, containsSub_trim c cs _ hc d ds h2 hd]

/-- C4: a line is removed by the suffix-line stage exactly when its
lowercased content contains one of `profiles2`, `domains2`, `areas2`,
`tasks2` as a substring; every other line passes through unchanged (the
source tests the stripped, lowered line, which is equivalent because the
patterns contain no whitespace). -/
theorem suffix_line_filter_spec (s : List Char) :
    removeSuffixLines s
      = joinWith ['\n'] ((splitNL s).filter
          (fun l => ! suffixedNames.any (fun t => containsSub t (lowerS l)))) := by
  unfold removeSuffixLines
  congr 1
  apply List.filter_congr
  intro l _
  congr 1
  show suffixedNames.any (fun t => containsSub t (lowerS (trimL l)))
      = suffixedNames.any (fun t => containsSub t (lowerS l))
  simp only [suffixedNames, List.any_cons, List.any_nil]
  rw [contains_lower_trim_eq "profiles2".data l 'p' '2' "rofiles2".data "seliforp".data
        (by decide) (by decide) (by decide) (by decide),
      contains_lower_trim_eq "domains2".data l 'd' '2' "omains2".data "sniamod".data
        (by decide) (by decide) (by decide) (by decide),
      contains_lower_trim_eq "areas2".data l 'a' '2' "reas2".data "saera".data
        (by decide) (by decide) (by decide) (by decide),
      contains_lower_trim_eq "tasks2".data l 't' '2' "asks2".data "sksat".data
        (by decide) (by decide) (by decide) (by decide)]

/-! ## C5: comment stripping -/

theorem isPrefixOf_take (p l : List Char) (i : Nat)
    (h : p.isPrefixOf (l.take i) = true) : p.isPrefixOf l = true := by
  obtain ⟨b, hb⟩ := (isPrefixOf_exists _ _).mp h
  refine (isPrefixOf_exists _ _).mpr ⟨b ++ l.drop i, ?_⟩
  conv_lhs => rw [← List.take_append_drop i l]
  rw [hb, List.append_assoc]

theorem isPrefixOf_of_le_take (p l : List Char) (i : Nat)
    (h : p.isPrefixOf l = true) (hlen : p.length ≤ i) : p.isPrefixOf (l.take i) = true := by
  obtain ⟨b, hb⟩ := (isPrefixOf_exists _ _).mp h
  subst hb
  refine (isPrefixOf_exists _ _).mpr ⟨(b.take (i - p.length)), ?_⟩
  rw [List.take_append_eq_append_take, List.take_of_length_le hlen]

theorem containsSub_take (p l : List Char) (i : Nat)
    (h : containsSub p (l.take i) = true) : containsSub p l = true := by
  obtain ⟨a, b, hb⟩ := (containsSub_iff _ _).mp h
  refine (containsSub_iff _ _).mpr ⟨a, b ++ l.drop i, ?_⟩
  conv_lhs => rw [← List.take_append_drop i l]
  rw [hb]
  simp [List.append_assoc]

theorem subIdx?_take_none (p l : List Char) (i : Nat)
    (h : subIdx? p l = none) : subIdx? p (l.take i) = none := by
  cases hx : subIdx? p (l.take i) with
  | none => rfl
  | some j =>
    exfalso
    have h1 : containsSub p (l.take i) = true := by simp [containsSub, hx]
    have h2 := containsSub_take p l i h1
    simp [containsSub, h] at h2

theorem subIdx?_take_lt (p : List Char) : ∀ (l : List Char) (i j : Nat),
    subIdx? p l = some j → j + p.length ≤ i → subIdx? p (l.take i) = some j := by
  intro l
  induction l with
  | nil =>
    intro i j h hle
    simp [List.take_nil]
    exact h
  | cons c cs ih =>
    intro i j h hle
    by_cases hpre : p.isPrefixOf (c :: cs) = true
    · rw [subIdx?, if_pos hpre] at h
      injection h with h0
      subst h0
      simp only [Nat.zero_add] at hle
      cases i with
      | zero =>
        have hpnil : p = [] := List.eq_nil_of_length_eq_zero (Nat.le_zero.mp hle)
        subst hpnil
        simp [subIdx?]
      | succ i' =>
        have hpre2 : p.isPrefixOf (c :: cs.take i') = true := by
          have h2 := isPrefixOf_of_le_take p (c :: cs) (i' + 1) hpre hle
          rwa [List.take_succ_cons] at h2
        rw [List.take_succ_cons, subIdx?, if_pos hpre2]
    · rw [subIdx?, if_neg hpre] at h
      cases hidx : subIdx? p cs with
      | none => rw [hidx] at h; simp at h
      | some j' =>
        rw [hidx] at h
        injection h with h0
        subst h0
        cases i with
        | zero => omega
        | succ i' =>
          rw [List.take_succ_cons, subIdx?]
          rw [if_neg ?hfalse]
          case hfalse =>
            intro hcontra
            exact hpre (isPrefixOf_take p (c :: cs) (i' + 1) (by rw [List.take_succ_cons]; exact hcontra))
          rw [ih i' j' hidx (by omega)]
          rfl

theorem subIdx?_take_ge (p : List Char) (hp : p ≠ []) : ∀ (l : List Char) (i j : Nat),
    subIdx? p l = some j → i ≤ j → subIdx? p (l.take i) = none := by
  intro l
  induction l with
  | nil =>
    intro i j h _
    cases p with
    | nil => exact absurd rfl hp
    | cons q qs => simp [subIdx?] at h
  | cons c cs ih =>
    intro i j h hle
    by_cases hpre : p.isPrefixOf (c :: cs) = true
    · rw [subIdx?, if_pos hpre] at h
      injection h with h0
      subst h0
      have hi : i = 0 := Nat.le_zero.mp hle
      subst hi
      cases p with
      | nil => exact absurd rfl hp
      | cons q qs => simp [subIdx?]
    · rw [subIdx?, if_neg hpre] at h
      cases hidx : subIdx? p cs with
      | none => rw [hidx] at h; simp at h
      | some j' =>
        rw [hidx] at h
        injection h with h0
        subst h0
        cases i with
        | zero =>
          cases p with
          | nil => exact absurd rfl hp
          | cons q qs => simp [subIdx?]
        | succ i' =>
          rw [List.take_succ_cons, subIdx?]
          rw [if_neg ?hfalse2]
          case hfalse2 =>
            intro hcontra
            exact hpre (isPrefixOf_take p (c :: cs) (i' + 1) (by rw [List.take_succ_cons]; exact hcontra))
          rw [ih i' j' hidx (by omega)]
          rfl

/-- The comment rule as the specification words it: the line is cut at
the earliest applicable marker — the first `--` always applies, even
inside a quoted string; the first `#` applies unless a single quote
occurs somewhere to its left in the line (the best-effort heuristic) —
then right-stripped, and dropped when empty. -/
def specStripLine (line : List Char) : Option (List Char) :=
  let dIdx := subIdx? "--".data line
  let hIdx := match subIdx? "#".data line with
    | some j => if containsSub "'".data (line.take j) then none else some j
    | none => none
  let cut := match dIdx, hIdx with
    | some i, some j => some (min i j)
    | some i, none => some i
    | none, some j => some j
    | none, none => none
  let l2 := match cut with
    | some k => line.take k
    | none => line
  let l3 := rstripL l2
  if l3 = [] then none else some l3

theorem stripCommentLine_eq_spec (line : List Char) :
    stripCommentLine line = specStripLine line := by
  unfold stripCommentLine specStripLine
  cases hd : subIdx? "--".data line with
  | none =>
    cases hh : subIdx? "#".data line with
    | none => simp only [hd, hh]
    | some j =>
      simp only [hd, hh]
      by_cases hq : containsSub "'".data (line.take j) = true
      · simp [hq]
      · simp [hq]
  | some i =>
    cases hh : subIdx? "#".data line with
    | none =>
      have hh2 : subIdx? "#".data (line.take i) = none := subIdx?_take_none _ _ _ hh
      simp only [hd, hh, hh2]
    | some j =>
      by_cases hij : j < i
      · have hh2 : subIdx? "#".data (line.take i) = some j :=
          subIdx?_take_lt _ line i j hh hij
        have htt : (line.take i).take j = line.take j := by
          rw [List.take_take]
          congr 1
          exact Nat.min_eq_left (Nat.le_of_lt hij)
        simp only [hd, hh, hh2, htt]
        by_cases hq : containsSub "'".data (line.take j) = true
        · simp [hq]
        · simp [hq, Nat.min_eq_right (Nat.le_of_lt hij)]
      · have hij' : i ≤ j := Nat.le_of_not_lt hij
        have hh2 : subIdx? "#".data (line.take i) = none :=
          subIdx?_take_ge _ (by decide) line i j hh hij'
        simp only [hd, hh, hh2]
        by_cases hq : containsSub "'".data (line.take j) = true
        · simp [hq]
        · simp [hq, Nat.min_eq_left hij']

/-- C5: line-comment stripping behaves exactly as specified — everything
from the first `--` to end of line is deleted unconditionally; everything
from the first `#` is deleted unless a single quote appears to its left
(best-effort string heuristic); lines left empty are dropped. -/
theorem comment_strip_matches_spec :
    (∀ line, stripCommentLine line = specStripLine line) ∧
    (∀ s, stripComments s = joinWith ['\n'] ((splitNL s).filterMap specStripLine)) := by
  have hfun : stripCommentLine = specStripLine := funext stripCommentLine_eq_spec
  exact ⟨stripCommentLine_eq_spec, fun s => by unfold stripComments; rw [hfun]⟩

/-! ## The cleanup scripts
(scripts/cleanup_darwin2.py and scripts/cleanup_darwin_dev.py)

The two scripts are the same program up to the hardcoded target database
and table names.  They are modelled as a pure function over an abstract
database: a state assigns each table the list of values of the column the
script matches on (`creator_fk`, or `id` for the profiles table), the
`SELECT DATABASE()` result is the `connDb` argument, and the trace of SQL
operations the script issues is returned alongside the exit code and the
final state. -/

/-- One SQL operation issued by a cleanup script. -/
inductive SqlOp where
  | selectDb : SqlOp
  | countQ : List Char → List Char → SqlOp
  | deleteQ : List Char → List Char → SqlOp
  | commit : SqlOp
deriving DecidableEq

/-- Abstract database state: the matched-column values of each table's
rows. -/
def DbState := List Char → List (List Char)

/-- SQL `LIKE` semantics for the patterns the scripts use
(`cognito-test-%`, `pytest-%`): a trailing `%` matches any suffix;
a pattern without wildcards matches only itself. -/
def likeMatch (pat row : List Char) : Bool :=
  if pat.getLast? = some '%' then pat.dropLast.isPrefixOf row else pat == row

/-- `CLEANUP_PATTERNS` of both scripts (source lines 50-55). -/
def cleanupPatterns : List (List Char) := ["cognito-test-%".data, "pytest-%".data]

/-- The row count `SELECT COUNT(*) ... WHERE col LIKE pattern` returns. -/
def countRows (st : DbState) (table pat : List Char) : Nat :=
  ((st table).filter (fun r => likeMatch pat r)).length

/-- `find_orphaned_data` for one pattern: count each table leaf-to-root
and keep the tables with a positive count (source lines 82-133). -/
def findOrphans (tables : List (List Char)) (st : DbState) (pat : List Char) :
    List (List Char × Nat) :=
  (tables.map (fun t => (t, countRows st t pat))).filter (fun pr => pr.2 > 0)

/-- The delete loop of `delete_orphaned_data` for one pattern (source
lines 158-180): walk the tables in FK-safe order, skip tables outside the
valid list or without orphans, and in execute mode issue one `DELETE`. -/
def deleteOps (validTables : List (List Char)) (orphanTables : List (List Char × Nat))
    (pat : List Char) (dryRun : Bool) : List (List Char) → List SqlOp
  | [] => []
  | t :: ts =>
    let rest := deleteOps validTables orphanTables pat dryRun ts
    if validTables.contains t = false then rest
    else if (orphanTables.lookup t) = none then rest
    else if dryRun then rest
    else SqlOp.deleteQ t pat :: rest

/-- Effect of one issued operation on the database state: only `DELETE`
changes it. -/
def applyOp (st : DbState) : SqlOp → DbState
  | SqlOp.deleteQ table pat =>
    fun t => if t = table then (st t).filter (fun r => ! likeMatch pat r) else st t
  | _ => st

/-- Effect of a trace of operations. -/
def applyOps (st : DbState) : List SqlOp → DbState
  | [] => st
  | op :: rest => applyOps (applyOp st op) rest

/-- The environment values the scripts require (`endpoint`, `username`,
`db_password`). -/
structure EnvVars where
  endpoint : Option (List Char)
  username : Option (List Char)
  db_password : Option (List Char)

/-- `main` of a cleanup script (source lines 193-220): check the three
environment values (exit 1 when one is absent, before any database
interaction); verify the connected database name against the hardcoded
target (exit 1 after only the `SELECT DATABASE()` query on mismatch);
otherwise run `delete_orphaned_data` — count queries for every pattern
and table, deletes only in execute mode, a final commit only in execute
mode when orphans were found — and exit 0. -/
def cleanupMain (target : List Char) (tables validTables : List (List Char))
    (env : EnvVars) (connDb : List Char) (st : DbState) (executeFlag : Bool) :
    Nat × List SqlOp × DbState :=
  if env.endpoint = none ∨ env.username = none ∨ env.db_password = none then
    (1, [], st)
  else if connDb ≠ target then
    (1, [SqlOp.selectDb], st)
  else
    let dryRun := ! executeFlag
    let countOps := (cleanupPatterns.map (fun pat => tables.map (fun t => SqlOp.countQ t pat))).flatten
    let orphans := (cleanupPatterns.map (fun pat => (pat, findOrphans tables st pat))).filter
      (fun pr => pr.2 ≠ [])
    let delOps := (orphans.map (fun pr => deleteOps validTables pr.2 pr.1 dryRun tables)).flatten
    let commitOps : List SqlOp :=
      if orphans = [] then [] else if dryRun then [] else [SqlOp.commit]
    let ops := SqlOp.selectDb :: (countOps ++ delOps ++ commitOps)
    (0, ops, applyOps st ops)

/-- The `darwin2` script's FK-safe deletion order (source line 159). -/
def darwin2Tables : List (List Char) :=
  ["tasks2".data, "areas2".data, "domains2".data, "profiles2".data]

/-- `VALID_TABLES` of cleanup_darwin2.py (source line 46). -/
def darwin2Valid : List (List Char) :=
  ["profiles2".data, "domains2".data, "areas2".data, "tasks2".data]

/-- `main` of scripts/cleanup_darwin2.py. -/
def cleanupDarwin2Main (env : EnvVars) (connDb : List Char) (st : DbState)
    (executeFlag : Bool) : Nat × List SqlOp × DbState :=
  cleanupMain "darwin2".data darwin2Tables darwin2Valid env connDb st executeFlag

/-- The `darwin_dev` script's FK-safe deletion order (source line 155). -/
def darwinDevTables : List (List Char) :=
  ["tasks".data, "areas".data, "domains".data, "profiles".data]

/-- `VALID_TABLES` of cleanup_darwin_dev.py (source line 45). -/
def darwinDevValid : List (List Char) :=
  ["profiles".data, "domains".data, "areas".data, "tasks".data]

/-- `main` of scripts/cleanup_darwin_dev.py. -/
def cleanupDarwinDevMain (env : EnvVars) (connDb : List Char) (st : DbState)
    (executeFlag : Bool) : Nat × List SqlOp × DbState :=
  cleanupMain "darwin_dev".data darwinDevTables darwinDevValid env connDb st executeFlag

theorem cleanupMain_exit (target : List Char) (tables validTables : List (List Char))
    (env : EnvVars) (connDb : List Char) (st : DbState) (executeFlag : Bool) :
    (cleanupMain target tables validTables env connDb st executeFlag).1
      = if env.endpoint = none ∨ env.username = none ∨ env.db_password = none
           ∨ connDb ≠ target then 1 else 0 := by
  unfold cleanupMain
  by_cases h1 : env.endpoint = none ∨ env.username = none ∨ env.db_password = none
  · rw [if_pos h1, if_pos (by tauto)]
  · rw [if_neg h1]
    by_cases h2 : connDb ≠ target
    · rw [if_pos h2, if_pos (by tauto)]
    · rw [if_neg h2, if_neg (by tauto)]

/-- C8: a cleanup script exits with code 1 exactly when one of the three
required environment values is absent or the connected database name
differs from the hardcoded target, and with code 0 in every other run (in
this model database queries themselves never fail). -/
theorem cleanup_exit_code_spec (env : EnvVars) (connDb : List Char) (st : DbState)
    (executeFlag : Bool) :
    ((cleanupDarwin2Main env connDb st executeFlag).1
       = if env.endpoint = none ∨ env.username = none ∨ env.db_password = none
            ∨ connDb ≠ "darwin2".data then 1 else 0) ∧
    ((cleanupDarwinDevMain env connDb st executeFlag).1
       = if env.endpoint = none ∨ env.username = none ∨ env.db_password = none
            ∨ connDb ≠ "darwin_dev".data then 1 else 0) :=
  ⟨cleanupMain_exit "darwin2".data darwin2Tables darwin2Valid env connDb st executeFlag,
   cleanupMain_exit "darwin_dev".data darwinDevTables darwinDevValid env connDb st executeFlag⟩

theorem cleanupMain_mismatch (target : List Char) (tables validTables : List (List Char))
    (env : EnvVars) (connDb : List Char) (st : DbState) (executeFlag : Bool)
    (henv : ¬(env.endpoint = none ∨ env.username = none ∨ env.db_password = none))
    (hdb : connDb ≠ target) :
    cleanupMain target tables validTables env connDb st executeFlag
      = (1, [SqlOp.selectDb], st) := by
  unfold cleanupMain
  rw [if_neg henv, if_pos hdb]

/-- C9: when the connected database's name differs from the expected
target, a cleanup script terminates immediately with exit code 1, having
issued only the `SELECT DATABASE()` verification query — no `SELECT
COUNT` and no `DELETE` is ever issued and the state is untouched. -/
theorem cleanup_mismatch_aborts (env : EnvVars) (connDb : List Char) (st : DbState)
    (executeFlag : Bool)
    (henv : env.endpoint ≠ none ∧ env.username ≠ none ∧ env.db_password ≠ none) :
    (connDb ≠ "darwin2".data →
      cleanupDarwin2Main env connDb st executeFlag = (1, [SqlOp.selectDb], st) ∧
      (∀ t p, SqlOp.countQ t p ∉ (cleanupDarwin2Main env connDb st executeFlag).2.1 ∧
              SqlOp.deleteQ t p ∉ (cleanupDarwin2Main env connDb st executeFlag).2.1)) ∧
    (connDb ≠ "darwin_dev".data →
      cleanupDarwinDevMain env connDb st executeFlag = (1, [SqlOp.selectDb], st) ∧
      (∀ t p, SqlOp.countQ t p ∉ (cleanupDarwinDevMain env connDb st executeFlag).2.1 ∧
              SqlOp.deleteQ t p ∉ (cleanupDarwinDevMain env connDb st executeFlag).2.1)) := by
  have henv' : ¬(env.endpoint = none ∨ env.username = none ∨ env.db_password = none) := by
    tauto
  constructor
  · intro hdb
    have h := cleanupMain_mismatch "darwin2".data darwin2Tables darwin2Valid
      env connDb st executeFlag henv' hdb
    refine ⟨h, fun t p => ?_⟩
    unfold cleanupDarwin2Main at *
    rw [h]
    simp
  · intro hdb
    have h := cleanupMain_mismatch "darwin_dev".data darwinDevTables darwinDevValid
      env connDb st executeFlag henv' hdb
    refine ⟨h, fun t p => ?_⟩
    unfold cleanupDarwinDevMain at *
    rw [h]
    simp

/-- Concrete environment used by witnesses: all three values set. -/
def envW : EnvVars := ⟨some "db.example".data, some "admin".data, some "pw".data⟩

/-- Concrete empty database state. -/
def stEmpty : DbState := fun _ => []

/-- Witness for `cleanup_mismatch_aborts`: connected to `darwin_prod`
instead of `darwin2`. -/
theorem cleanup_mismatch_aborts_witness :
    cleanupDarwin2Main envW "darwin_prod".data stEmpty true
      = (1, [SqlOp.selectDb], stEmpty) ∧
    (∀ t p, SqlOp.countQ t p ∉ (cleanupDarwin2Main envW "darwin_prod".data stEmpty true).2.1 ∧
            SqlOp.deleteQ t p ∉ (cleanupDarwin2Main envW "darwin_prod".data stEmpty true).2.1) :=
  (cleanup_mismatch_aborts envW "darwin_prod".data stEmpty true
    ⟨by decide, by decide, by decide⟩).1 (by decide)

theorem deleteOps_dry (validTables : List (List Char)) (orphanTables : List (List Char × Nat))
    (pat : List Char) : ∀ ts, deleteOps validTables orphanTables pat true ts = [] := by
  intro ts
  induction ts with
  | nil => rfl
  | cons t ts ih =>
    unfold deleteOps
    simp only [ih]
    split
    · rfl
    · split
      · rfl
      · simp

theorem applyOps_no_delete (ops : List SqlOp) :
    ∀ (st : DbState), (∀ op ∈ ops, ∀ t p, op ≠ SqlOp.deleteQ t p) → applyOps st ops = st := by
  induction ops with
  | nil => intro st _; rfl
  | cons op rest ih =>
    intro st h
    unfold applyOps
    have hop : applyOp st op = st := by
      cases op with
      | selectDb => rfl
      | countQ a b => rfl
      | commit => rfl
      | deleteQ a b => exact absurd rfl (h _ (List.mem_cons_self _ _) a b)
    rw [hop]
    exact ih st (fun o ho a b => h o (List.mem_cons_of_mem _ ho) a b)

theorem flatten_map_nil {α β : Type} (l : List α) :
    (l.map (fun _ => ([] : List β))).flatten = [] := by
  induction l <;> simp_all

theorem cleanupMain_dry (target : List Char) (tables validTables : List (List Char))
    (env : EnvVars) (connDb : List Char) (st : DbState) :
    (∀ op ∈ (cleanupMain target tables validTables env connDb st false).2.1,
        op = SqlOp.selectDb ∨ ∃ t p, op = SqlOp.countQ t p) ∧
    (cleanupMain target tables validTables env connDb st false).2.2 = st := by
  by_cases h1 : env.endpoint = none ∨ env.username = none ∨ env.db_password = none
  · have heq : cleanupMain target tables validTables env connDb st false = (1, [], st) := by
      unfold cleanupMain; rw [if_pos h1]
    rw [heq]
    exact ⟨by simp, rfl⟩
  · by_cases h2 : connDb ≠ target
    · have heq : cleanupMain target tables validTables env connDb st false
          = (1, [SqlOp.selectDb], st) := by
        unfold cleanupMain; rw [if_neg h1, if_pos h2]
      rw [heq]
      exact ⟨by simp, rfl⟩
    · have htrace : (cleanupMain target tables validTables env connDb st false).2.1
          = SqlOp.selectDb ::
            (cleanupPatterns.map (fun pat => tables.map (fun t => SqlOp.countQ t pat))).flatten := by
        unfold cleanupMain
        rw [if_neg h1, if_neg h2]
        simp only [Bool.not_false, deleteOps_dry]
        simp [flatten_map_nil, ite_self]
      have happly : (cleanupMain target tables validTables env connDb st false).2.2
          = applyOps st (cleanupMain target tables validTables env connDb st false).2.1 := by
        unfold cleanupMain
        rw [if_neg h1, if_neg h2]
      have hchar : ∀ op ∈ (cleanupMain target tables validTables env connDb st false).2.1,
          op = SqlOp.selectDb ∨ ∃ t p, op = SqlOp.countQ t p := by
        intro op hop
        rw [htrace] at hop
        rcases List.mem_cons.mp hop with rfl | hop2
        · exact Or.inl rfl
        · obtain ⟨l, hl, hopl⟩ := List.mem_flatten.mp hop2
          obtain ⟨pat, hpat, rfl⟩ := List.mem_map.mp hl
          obtain ⟨t, ht, rfl⟩ := List.mem_map.mp hopl
          exact Or.inr ⟨t, pat, rfl⟩
      refine ⟨hchar, ?_⟩
      rw [happly]
      apply applyOps_no_delete
      intro op hop a b
      rcases hchar op hop with rfl | ⟨t, p, rfl⟩
      · simp
      · simp

/-- C10: in dry-run mode (the default) a cleanup script issues only the
database-verification query and read-only `SELECT COUNT` queries — never
a `DELETE` and never a commit — so every table's contents are unchanged
by the run. -/
theorem cleanup_dry_run_frame (env : EnvVars) (connDb : List Char) (st : DbState) :
    (∀ op ∈ (cleanupDarwin2Main env connDb st false).2.1,
        op = SqlOp.selectDb ∨ ∃ t p, op = SqlOp.countQ t p) ∧
    (cleanupDarwin2Main env connDb st false).2.2 = st ∧
    (∀ op ∈ (cleanupDarwinDevMain env connDb st false).2.1,
        op = SqlOp.selectDb ∨ ∃ t p, op = SqlOp.countQ t p) ∧
    (cleanupDarwinDevMain env connDb st false).2.2 = st :=
  ⟨(cleanupMain_dry "darwin2".data darwin2Tables darwin2Valid env connDb st).1,
   (cleanupMain_dry "darwin2".data darwin2Tables darwin2Valid env connDb st).2,
   (cleanupMain_dry "darwin_dev".data darwinDevTables darwinDevValid env connDb st).1,
   (cleanupMain_dry "darwin_dev".data darwinDevTables darwinDevValid env connDb st).2⟩

/-! ## Scanning lemmas for texts containing a symbolic prefix

The migration texts below are concrete except for the caller-supplied
prefix `x`.  The following lemmas let every pipeline stage walk over an
`a ++ (x ++ b)` shaped text, provided the characters of `x` avoid the
scanned pattern. -/

theorem replAux_nil_dummy (q r : List Char) (f : Nat) : replAux q r f [] = [] := by
  cases f <;> rfl

theorem replAux_fuel_irrel (q r : List Char) (hq : q ≠ []) :
    ∀ (f1 : Nat) (s : List Char) (f2 : Nat), s.length ≤ f1 → s.length ≤ f2 →
      replAux q r f1 s = replAux q r f2 s := by
  intro f1
  induction f1 with
  | zero =>
    intro s f2 h1 _
    have hs : s = [] := List.eq_nil_of_length_eq_zero (Nat.le_zero.mp h1)
    subst hs
    rw [replAux_nil_dummy, replAux_nil_dummy]
  | succ f1' ih =>
    intro s f2 h1 h2
    cases s with
    | nil => rw [replAux_nil_dummy, replAux_nil_dummy]
    | cons c cs =>
      cases f2 with
      | zero => simp at h2
      | succ f2' =>
        show (if q.isPrefixOf (c :: cs) then r ++ replAux q r f1' ((c :: cs).drop q.length)
              else c :: replAux q r f1' cs)
          = (if q.isPrefixOf (c :: cs) then r ++ replAux q r f2' ((c :: cs).drop q.length)
              else c :: replAux q r f2' cs)
        by_cases hpre : q.isPrefixOf (c :: cs) = true
        · rw [if_pos hpre, if_pos hpre]
          have hqlen : 1 ≤ q.length := by
            cases q with
            | nil => exact absurd rfl hq
            | cons _ _ => simp
          have hdrop : ((c :: cs).drop q.length).length ≤ f1' := by
            rw [List.length_drop]
            simp only [List.length_cons] at h1 ⊢
            omega
          have hdrop2 : ((c :: cs).drop q.length).length ≤ f2' := by
            rw [List.length_drop]
            simp only [List.length_cons] at h2 ⊢
            omega
          rw [ih _ f2' hdrop hdrop2]
        · rw [if_neg hpre, if_neg hpre]
          have hl1 : cs.length ≤ f1' := by simp only [List.length_cons] at h1; omega
          have hl2 : cs.length ≤ f2' := by simp only [List.length_cons] at h2; omega
          rw [ih _ f2' hl1 hl2]

theorem isPrefixOf_block_false (q x b : List Char) (hq : q ≠ []) (hx : x ≠ [])
    (hdisj : ∀ c ∈ x, c ∉ q) : q.isPrefixOf (x ++ b) = false := by
  cases q with
  | nil => exact absurd rfl hq
  | cons qc q' =>
    cases x with
    | nil => exact absurd rfl hx
    | cons xc x' =>
      show ((qc == xc) && _) = false
      have hne : qc ≠ xc := by
        intro h
        exact hdisj xc (by simp) (by simp [h])
      simp [hne]

theorem isPrefixOf_through_block (q a x b : List Char) (hx : x ≠ [])
    (hdisj : ∀ c ∈ x, c ∉ q) :
    q.isPrefixOf (a ++ (x ++ b)) = q.isPrefixOf a := by
  induction q generalizing a with
  | nil => simp [List.isPrefixOf]
  | cons qc q' ih =>
    cases a with
    | nil =>
      rw [List.nil_append]
      rw [isPrefixOf_block_false (qc :: q') x b (by simp) hx hdisj]
      rfl
    | cons ac a' =>
      show ((qc == ac) && q'.isPrefixOf (a' ++ (x ++ b))) = ((qc == ac) && q'.isPrefixOf a')
      rw [ih a' (fun c hc hcq => hdisj c hc (List.mem_cons_of_mem _ hcq))]

theorem replAux_skip_block (q r : List Char) (hq : q ≠ []) (x : List Char)
    (hdisj : ∀ c ∈ x, c ∉ q) :
    ∀ (b : List Char) (f : Nat), (x ++ b).length ≤ f →
      replAux q r f (x ++ b) = x ++ replAux q r f b := by
  induction x with
  | nil => intro b f _; rw [List.nil_append, List.nil_append]
  | cons c x' ih =>
    intro b f hf
    cases f with
    | zero => simp at hf
    | succ f' =>
      have hpre : q.isPrefixOf (c :: (x' ++ b)) = false := by
        have := isPrefixOf_block_false q (c :: x') b hq (by simp) hdisj
        rwa [List.cons_append] at this
      show (if q.isPrefixOf (c :: (x' ++ b)) then _ else c :: replAux q r f' (x' ++ b))
          = (c :: x') ++ replAux q r (f' + 1) b
      rw [if_neg (by simp [hpre])]
      rw [ih (fun d hd => hdisj d (by simp [hd])) b f'
        (by simp only [List.length_append, List.length_cons] at hf ⊢; omega)]
      rw [List.cons_append]
      congr 2
      exact replAux_fuel_irrel q r hq f' b (f' + 1)
        (by simp only [List.length_append, List.length_cons] at hf; omega)
        (by simp only [List.length_append, List.length_cons] at hf; omega)

theorem isPrefixOf_length_le (q l : List Char) (h : q.isPrefixOf l = true) :
    q.length ≤ l.length := by
  obtain ⟨b, hb⟩ := (isPrefixOf_exists q l).mp h
  subst hb
  simp

theorem replaceL_eval (q r s : List Char) (hq : q ≠ []) :
    replaceL q r s = replAux q r s.length s := by
  unfold replaceL
  rw [if_neg ?hne]
  case hne =>
    cases q with
    | nil => exact absurd rfl hq
    | cons _ _ => simp

theorem replAux_skipx (q r : List Char) (hq : q ≠ []) (x : List Char) (hx : x ≠ [])
    (hdisj : ∀ c ∈ x, c ∉ q) :
    ∀ (f : Nat) (a b : List Char), (a ++ (x ++ b)).length ≤ f →
      replAux q r f (a ++ (x ++ b))
        = replAux q r a.length a ++ (x ++ replAux q r b.length b) := by
  intro f
  induction f with
  | zero =>
    intro a b hf
    exfalso
    cases x with
    | nil => exact hx rfl
    | cons xc x' => simp at hf
  | succ f' ih =>
    intro a b hf
    cases a with
    | nil =>
      have hlen : (x ++ b).length ≤ f' + 1 := by simpa using hf
      have hb : replAux q r (f' + 1) b = replAux q r b.length b :=
        replAux_fuel_irrel q r hq (f' + 1) b b.length
          (by simp only [List.length_append] at hlen; omega) (Nat.le_refl _)
      rw [List.nil_append, replAux_skip_block q r hq x hdisj b (f' + 1) hlen, hb,
        replAux_nil_dummy, List.nil_append]
    | cons c a' =>
      have hcons : (c :: (a' ++ (x ++ b))) = (c :: a') ++ (x ++ b) := by simp
      have hcond : q.isPrefixOf ((c :: a') ++ (x ++ b)) = q.isPrefixOf (c :: a') :=
        isPrefixOf_through_block q (c :: a') x b hx hdisj
      by_cases hpre : q.isPrefixOf (c :: a') = true
      · have hql : q.length ≤ a'.length + 1 := by
          have h2 := isPrefixOf_length_le q (c :: a') hpre
          simpa using h2
        have hq1 : 1 ≤ q.length := by
          cases q with
          | nil => exact absurd rfl hq
          | cons _ _ => simp
        have hdropsplit : ((c :: a') ++ (x ++ b)).drop q.length
            = (c :: a').drop q.length ++ (x ++ b) := by
          rw [List.drop_append_eq_append_drop]
          have hz : q.length - (c :: a').length = 0 := by simp; omega
          rw [hz, List.drop_zero]
        have hstep : replAux q r (c :: a').length (c :: a')
            = r ++ replAux q r a'.length ((c :: a').drop q.length) := by
          show (if q.isPrefixOf (c :: a') then
                  r ++ replAux q r a'.length ((c :: a').drop q.length)
                else _) = _
          rw [if_pos hpre]
        have hfr : ((c :: a').drop q.length ++ (x ++ b)).length ≤ f' := by
          simp only [List.length_append, List.length_drop, List.length_cons] at hf ⊢
          omega
        have hfuel2 : replAux q r ((c :: a').drop q.length).length ((c :: a').drop q.length)
            = replAux q r a'.length ((c :: a').drop q.length) :=
          replAux_fuel_irrel q r hq _ _ a'.length (Nat.le_refl _)
            (by simp only [List.length_drop, List.length_cons]; omega)
        show (if q.isPrefixOf (c :: (a' ++ (x ++ b))) then
                r ++ replAux q r f' ((c :: (a' ++ (x ++ b))).drop q.length)
              else _)
            = replAux q r (c :: a').length (c :: a') ++ (x ++ replAux q r b.length b)
        rw [if_pos (by rw [hcons, hcond]; exact hpre)]
        rw [show (c :: (a' ++ (x ++ b))).drop q.length
              = (c :: a').drop q.length ++ (x ++ b) by rw [hcons, hdropsplit]]
        rw [ih ((c :: a').drop q.length) b hfr]
        rw [hstep, hfuel2, List.append_assoc]
      · have hstep : replAux q r (c :: a').length (c :: a')
            = c :: replAux q r a'.length a' := by
          show (if q.isPrefixOf (c :: a') then _ else c :: replAux q r a'.length a') = _
          rw [if_neg hpre]
        show (if q.isPrefixOf (c :: (a' ++ (x ++ b))) then _
              else c :: replAux q r f' (a' ++ (x ++ b)))
            = replAux q r (c :: a').length (c :: a') ++ (x ++ replAux q r b.length b)
        rw [if_neg (by rw [hcons, hcond]; exact hpre)]
        rw [ih a' b (by simp only [List.length_append, List.length_cons] at hf ⊢; omega)]
        rw [hstep, List.cons_append]

theorem replaceL_skipx (q r x a b : List Char) (hq : q ≠ []) (hx : x ≠ [])
    (hdisj : ∀ c ∈ x, c ∉ q) :
    replaceL q r (a ++ (x ++ b)) = replaceL q r a ++ (x ++ replaceL q r b) := by
  rw [replaceL_eval q r _ hq, replaceL_eval q r a hq, replaceL_eval q r b hq]
  exact replAux_skipx q r hq x hx hdisj (a ++ (x ++ b)).length a b (Nat.le_refl _)

theorem containsSub_cons_expand (q : List Char) (c : Char) (s : List Char) :
    containsSub q (c :: s) = (q.isPrefixOf (c :: s) || containsSub q s) := by
  simp only [containsSub, subIdx?]
  split
  · simp_all
  · simp_all

theorem containsSub_skip_block (q x b : List Char) (hq : q ≠ [])
    (hdisj : ∀ c ∈ x, c ∉ q) :
    containsSub q (x ++ b) = containsSub q b := by
  induction x with
  | nil => rw [List.nil_append]
  | cons c x' ih =>
    rw [List.cons_append, containsSub_cons_expand]
    have hfalse : q.isPrefixOf (c :: (x' ++ b)) = false := by
      have h2 := isPrefixOf_block_false q (c :: x') b hq (by simp) hdisj
      rwa [List.cons_append] at h2
    rw [hfalse, ih (fun d hd => hdisj d (List.mem_cons_of_mem _ hd))]
    simp

theorem containsSub_split_block (q a x b : List Char) (hq : q ≠ []) (hx : x ≠ [])
    (hdisj : ∀ c ∈ x, c ∉ q) :
    containsSub q (a ++ (x ++ b)) = (containsSub q a || containsSub q b) := by
  induction a with
  | nil =>
    rw [List.nil_append, containsSub_skip_block q x b hq hdisj]
    have hnil0 : containsSub q [] = false := by
      cases q with
      | nil => exact absurd rfl hq
      | cons _ _ => rfl
    rw [hnil0]
    simp
  | cons c a' ih =>
    rw [List.cons_append, containsSub_cons_expand, containsSub_cons_expand]
    have hpre : q.isPrefixOf (c :: (a' ++ (x ++ b))) = q.isPrefixOf (c :: a') := by
      have h2 := isPrefixOf_through_block q (c :: a') x b hx hdisj
      rwa [List.cons_append] at h2
    rw [hpre, ih, Bool.or_assoc]

theorem subIdx?_none_of_contains_false (q s : List Char)
    (h : containsSub q s = false) : subIdx? q s = none := by
  cases hx : subIdx? q s with
  | none => rfl
  | some j => simp [containsSub, hx] at h

theorem rstripL_append_nonempty (a b : List Char) (hb : rstripL b ≠ []) :
    rstripL (a ++ b) = a ++ rstripL b := by
  induction a with
  | nil => rw [List.nil_append, List.nil_append]
  | cons c a' ih =>
    rw [List.cons_append]
    show (match rstripL (a' ++ b) with
      | [] => if isWs c then [] else [c]
      | r => c :: r) = (c :: a') ++ rstripL b
    rw [ih]
    cases hab : a' ++ rstripL b with
    | nil =>
      exfalso
      rcases List.append_eq_nil.mp hab with ⟨_, h2⟩
      exact hb h2
    | cons y ys =>
      show c :: (y :: ys) = (c :: a') ++ rstripL b
      rw [List.cons_append, hab]

theorem takeWhile_skip_block (p : Char → Bool) (x b : List Char)
    (hx : ∀ c ∈ x, p c = true) :
    (x ++ b).takeWhile p = x ++ b.takeWhile p := by
  induction x with
  | nil => rw [List.nil_append, List.nil_append]
  | cons c x' ih =>
    rw [List.cons_append, List.takeWhile_cons_of_pos (hx c (by simp)),
      ih (fun d hd => hx d (List.mem_cons_of_mem _ hd)), List.cons_append]

theorem splitOnC_ne_nil (sep : Char) (s : List Char) : splitOnC sep s ≠ [] := by
  cases s with
  | nil => simp [splitOnC]
  | cons c cs =>
    show (if c = sep then [] :: splitOnC sep cs else consHead [c] (splitOnC sep cs)) ≠ []
    split
    · simp
    · cases h : splitOnC sep cs <;> simp [consHead]

theorem consHead_consHead (c : Char) (a : List Char) (l : List (List Char)) :
    consHead [c] (consHead a l) = consHead (c :: a) l := by
  cases l <;> simp [consHead]

theorem splitOnC_skip_block (sep : Char) (x b : List Char)
    (hx : ∀ c ∈ x, c ≠ sep) :
    splitOnC sep (x ++ b) = consHead x (splitOnC sep b) := by
  induction x with
  | nil =>
    rw [List.nil_append]
    cases h : splitOnC sep b with
    | nil => exact absurd h (splitOnC_ne_nil sep b)
    | cons y ys => simp [consHead]
  | cons c x' ih =>
    rw [List.cons_append]
    show (if c = sep then _ else consHead [c] (splitOnC sep (x' ++ b)))
        = consHead (c :: x') (splitOnC sep b)
    rw [if_neg (hx c (by simp)), ih (fun d hd => hx d (List.mem_cons_of_mem _ hd)),
      consHead_consHead]

theorem splitOnC_cons_sep (sep : Char) (b : List Char) :
    splitOnC sep (sep :: b) = [] :: splitOnC sep b := by
  show (if sep = sep then [] :: splitOnC sep b else _) = _
  rw [if_pos rfl]

theorem splitOnC_line (sep : Char) (a rest : List Char) (ha : ∀ c ∈ a, c ≠ sep) :
    splitOnC sep (a ++ (sep :: rest)) = a :: splitOnC sep rest := by
  rw [splitOnC_skip_block sep a (sep :: rest) ha, splitOnC_cons_sep]
  simp [consHead]

theorem splitOnC_line_x (sep : Char) (a x b rest : List Char)
    (ha : ∀ c ∈ a, c ≠ sep) (hx : ∀ c ∈ x, c ≠ sep) (hb : ∀ c ∈ b, c ≠ sep) :
    splitOnC sep (a ++ (x ++ (b ++ (sep :: rest))))
      = (a ++ (x ++ b)) :: splitOnC sep rest := by
  rw [splitOnC_skip_block sep a _ ha, splitOnC_skip_block sep x _ hx,
    splitOnC_line sep b rest hb]
  simp [consHead, List.append_assoc]

/-! ## Scanning lemmas under substring-level disjointness

`replaceL_skipx` above needs every character of the symbolic block `x` to
avoid the pattern.  The lemmas below weaken this to: the pattern does not
occur inside `x` itself, and the characters adjacent to the block (the
last character before it and the first character after it) are not
characters of the pattern — so no match can lie inside the block or
straddle its boundary.  This covers identifier prefixes such as
`mig_abc123`, whose letters do overlap the table names. -/

theorem isPrefixOf_block_false2 (q x b0 : List Char) (cb : Char) (hq : q ≠ [])
    (hqx : containsSub q x = false) (hcb : cb ∉ q) :
    q.isPrefixOf (x ++ (cb :: b0)) = false := by
  cases hcase : q.isPrefixOf (x ++ (cb :: b0)) with
  | false => rfl
  | true =>
    exfalso
    obtain ⟨t, ht⟩ := (isPrefixOf_exists q _).mp hcase
    rcases List.append_eq_append_iff.mp ht with ⟨w, hw1, hw2⟩ | ⟨w, hw1, hw2⟩
    · -- q = x ++ w and cb :: b0 = w ++ t
      cases w with
      | nil =>
        rw [List.append_nil] at hw1
        rw [hw1] at hqx
        have h3 : containsSub x x = true := by
          have h4 := containsSub_here x []
          rwa [List.append_nil] at h4
        rw [h3] at hqx
        exact Bool.noConfusion hqx
      | cons cw w' =>
        rw [List.cons_append] at hw2
        injection hw2 with h1 _
        apply hcb
        rw [hw1, h1]
        exact List.mem_append.mpr (Or.inr (by simp))
    · -- x = q ++ w
      rw [hw1, containsSub_here q w] at hqx
      exact Bool.noConfusion hqx

theorem isPrefixOf_through_block2 (q a0 x b : List Char) (ca : Char) (hca : ca ∉ q) :
    q.isPrefixOf ((a0 ++ [ca]) ++ (x ++ b)) = q.isPrefixOf (a0 ++ [ca]) := by
  induction a0 generalizing q with
  | nil =>
    cases q with
    | nil => rfl
    | cons qc q' =>
      have hne : (qc == ca) = false := by
        cases hqc : (qc == ca) with
        | false => rfl
        | true =>
          exfalso
          have h3 : qc = ca := eq_of_beq hqc
          subst h3
          exact hca (List.mem_cons_self qc q')
      show ((qc == ca) && q'.isPrefixOf (x ++ b)) = ((qc == ca) && q'.isPrefixOf [])
      rw [hne]
      rfl
  | cons c a0' ih =>
    cases q with
    | nil => rfl
    | cons qc q' =>
      show ((qc == c) && q'.isPrefixOf ((a0' ++ [ca]) ++ (x ++ b)))
          = ((qc == c) && q'.isPrefixOf (a0' ++ [ca]))
      rw [ih q' (fun hmem => hca (List.mem_cons_of_mem qc hmem))]

theorem replAux_skip_block2 (q r : List Char) (hq : q ≠ []) (cb : Char) (b0 : List Char)
    (hcb : cb ∉ q) :
    ∀ (x : List Char), containsSub q x = false →
      ∀ (f : Nat), (x ++ (cb :: b0)).length ≤ f →
      replAux q r f (x ++ (cb :: b0)) = x ++ replAux q r f (cb :: b0) := by
  intro x
  induction x with
  | nil => intro _ f _; rw [List.nil_append, List.nil_append]
  | cons c x' ih =>
    intro hqx f hf
    cases f with
    | zero => simp at hf
    | succ f' =>
      rw [containsSub_cons_expand] at hqx
      have hqx1 : q.isPrefixOf (c :: x') = false := by
        cases h1 : q.isPrefixOf (c :: x') with
        | false => rfl
        | true => rw [h1] at hqx; simp at hqx
      have hqx2 : containsSub q x' = false := by
        cases h1 : containsSub q x' with
        | false => rfl
        | true => rw [h1] at hqx; simp at hqx
      have hpre : q.isPrefixOf (c :: (x' ++ (cb :: b0))) = false := by
        have h2 := isPrefixOf_block_false2 q (c :: x') b0 cb hq
          (by rw [containsSub_cons_expand, hqx1, hqx2]; rfl) hcb
        rwa [List.cons_append] at h2
      show (if q.isPrefixOf (c :: (x' ++ (cb :: b0))) then _
            else c :: replAux q r f' (x' ++ (cb :: b0)))
          = (c :: x') ++ replAux q r (f' + 1) (cb :: b0)
      rw [if_neg (by simp [hpre])]
      rw [ih hqx2 f' (by simp only [List.length_append, List.length_cons] at hf ⊢; omega)]
      rw [List.cons_append]
      congr 2
      exact replAux_fuel_irrel q r hq f' (cb :: b0) (f' + 1)
        (by simp only [List.length_append, List.length_cons] at hf ⊢; omega)
        (by simp only [List.length_append, List.length_cons] at hf ⊢; omega)

theorem ends_with_drop (ca : Char) (l : List Char) (n : Nat)
    (h : ∃ a0, l = a0 ++ [ca]) :
    l.drop n = [] ∨ ∃ a1, l.drop n = a1 ++ [ca] := by
  obtain ⟨a0, rfl⟩ := h
  rw [List.drop_append_eq_append_drop]
  cases hkk : n - a0.length with
  | zero =>
    right
    refine ⟨a0.drop n, ?_⟩
    rw [List.drop_zero]
  | succ k =>
    left
    have h1 : a0.length ≤ n := by omega
    rw [List.drop_eq_nil_of_le h1]
    simp

theorem ends_with_tail (ca c : Char) (a' : List Char)
    (h : ∃ a0, c :: a' = a0 ++ [ca]) :
    a' = [] ∨ ∃ a1, a' = a1 ++ [ca] := by
  obtain ⟨a0, h0⟩ := h
  cases a0 with
  | nil =>
    left
    rw [List.nil_append] at h0
    injection h0 with _ h2
  | cons c0 a0' =>
    right
    rw [List.cons_append] at h0
    injection h0 with _ h2
    exact ⟨a0', h2⟩

theorem replAux_skipx2 (q r : List Char) (hq : q ≠ []) (x : List Char) (hx : x ≠ [])
    (ca cb : Char) (b0 : List Char) (hca : ca ∉ q) (hcb : cb ∉ q)
    (hqx : containsSub q x = false) :
    ∀ (f : Nat) (a : List Char), (a = [] ∨ ∃ a0, a = a0 ++ [ca]) →
      (a ++ (x ++ (cb :: b0))).length ≤ f →
      replAux q r f (a ++ (x ++ (cb :: b0)))
        = replAux q r a.length a ++ (x ++ replAux q r (cb :: b0).length (cb :: b0)) := by
  intro f
  induction f with
  | zero =>
    intro a _ hf
    exfalso
    cases x with
    | nil => exact hx rfl
    | cons xc x' => simp at hf
  | succ f' ih =>
    intro a hashape hf
    cases a with
    | nil =>
      have hlen : (x ++ (cb :: b0)).length ≤ f' + 1 := by simpa using hf
      have hb2 : replAux q r (f' + 1) (cb :: b0)
          = replAux q r (cb :: b0).length (cb :: b0) :=
        replAux_fuel_irrel q r hq (f' + 1) (cb :: b0) (cb :: b0).length
          (by simp only [List.length_append] at hlen; omega) (Nat.le_refl _)
      rw [List.nil_append, replAux_skip_block2 q r hq cb b0 hcb x hqx (f' + 1) hlen, hb2,
        replAux_nil_dummy, List.nil_append]
    | cons c a' =>
      have hashape2 : ∃ a0, c :: a' = a0 ++ [ca] := by
        rcases hashape with h | h
        · exact absurd h (by simp)
        · exact h
      have hcons : (c :: (a' ++ (x ++ (cb :: b0)))) = (c :: a') ++ (x ++ (cb :: b0)) := by
        simp
      have hcond : q.isPrefixOf ((c :: a') ++ (x ++ (cb :: b0)))
          = q.isPrefixOf (c :: a') := by
        obtain ⟨a0, ha0⟩ := hashape2
        rw [ha0]
        exact isPrefixOf_through_block2 q a0 x (cb :: b0) ca hca
      by_cases hpre : q.isPrefixOf (c :: a') = true
      · have hql : q.length ≤ a'.length + 1 := by
          have h2 := isPrefixOf_length_le q (c :: a') hpre
          simpa using h2
        have hq1 : 1 ≤ q.length := by
          cases q with
          | nil => exact absurd rfl hq
          | cons _ _ => simp
        have hdropsplit : ((c :: a') ++ (x ++ (cb :: b0))).drop q.length
            = (c :: a').drop q.length ++ (x ++ (cb :: b0)) := by
          rw [List.drop_append_eq_append_drop]
          have hz : q.length - (c :: a').length = 0 := by simp; omega
          rw [hz, List.drop_zero]
        have hstep : replAux q r (c :: a').length (c :: a')
            = r ++ replAux q r a'.length ((c :: a').drop q.length) := by
          show (if q.isPrefixOf (c :: a') then
                  r ++ replAux q r a'.length ((c :: a').drop q.length)
                else _) = _
          rw [if_pos hpre]
        have hfr : ((c :: a').drop q.length ++ (x ++ (cb :: b0))).length ≤ f' := by
          simp only [List.length_append, List.length_drop, List.length_cons] at hf ⊢
          omega
        have hfuel2 : replAux q r ((c :: a').drop q.length).length ((c :: a').drop q.length)
            = replAux q r a'.length ((c :: a').drop q.length) :=
          replAux_fuel_irrel q r hq _ _ a'.length (Nat.le_refl _)
            (by simp only [List.length_drop, List.length_cons]; omega)
        have hshape3 := ends_with_drop ca (c :: a') q.length hashape2
        show (if q.isPrefixOf (c :: (a' ++ (x ++ (cb :: b0)))) then
                r ++ replAux q r f' ((c :: (a' ++ (x ++ (cb :: b0)))).drop q.length)
              else _)
            = replAux q r (c :: a').length (c :: a')
              ++ (x ++ replAux q r (cb :: b0).length (cb :: b0))
        rw [if_pos (by rw [hcons, hcond]; exact hpre)]
        rw [show (c :: (a' ++ (x ++ (cb :: b0)))).drop q.length
              = (c :: a').drop q.length ++ (x ++ (cb :: b0)) by rw [hcons, hdropsplit]]
        rw [ih ((c :: a').drop q.length) hshape3 hfr]
        rw [hstep, hfuel2, List.append_assoc]
      · have hstep : replAux q r (c :: a').length (c :: a')
            = c :: replAux q r a'.length a' := by
          show (if q.isPrefixOf (c :: a') then _ else c :: replAux q r a'.length a') = _
          rw [if_neg hpre]
        show (if q.isPrefixOf (c :: (a' ++ (x ++ (cb :: b0)))) then _
              else c :: replAux q r f' (a' ++ (x ++ (cb :: b0))))
            = replAux q r (c :: a').length (c :: a')
              ++ (x ++ replAux q r (cb :: b0).length (cb :: b0))
        rw [if_neg (by rw [hcons, hcond]; exact hpre)]
        rw [ih a' (ends_with_tail ca c a' hashape2)
          (by simp only [List.length_append, List.length_cons] at hf ⊢; omega)]
        rw [hstep, List.cons_append]

theorem replaceL_skipx2 (q r x a b : List Char) (ca cb : Char)
    (hq : q ≠ []) (hx : x ≠ [])
    (ha : ∃ a0, a = a0 ++ [ca]) (hca : ca ∉ q)
    (hb : ∃ b0, b = cb :: b0) (hcb : cb ∉ q)
    (hqx : containsSub q x = false) :
    replaceL q r (a ++ (x ++ b)) = replaceL q r a ++ (x ++ replaceL q r b) := by
  obtain ⟨b0, rfl⟩ := hb
  rw [replaceL_eval q r _ hq, replaceL_eval q r a hq, replaceL_eval q r (cb :: b0) hq]
  exact replAux_skipx2 q r hq x hx ca cb b0 hca hcb hqx
    (a ++ (x ++ (cb :: b0))).length a (Or.inr ha) (Nat.le_refl _)

/-! ## C7: idempotence of the table-creation migration

The migration files themselves are not part of the repository snapshot
(only the harness and its tests are), so the first migration is modelled
from the spec, and a create-if-absent execution semantics is given for
its statements.  The prefix is kept symbolic: the theorems hold for
every non-empty identifier-like prefix (letters, digits, underscores)
that does not itself contain one of the four canonical table names as a
substring — in particular for every `mig_{hex}` prefix the test suite
generates, such as the spec's example `mig_abc123`.  Some restriction is
forced: a prefix containing a statement terminator or newline breaks the
statement split, and one containing a table name is itself rewritten by
a later replacement pass. -/

/-- Characters a prefix must avoid for the scanning lemmas: the letters
of the four canonical table names plus the rewriter's marker characters. -/
def badPrefixChars : List Char :=
  ['p', 'r', 'o', 'f', 'i', 'l', 'e', 's', 'd', 'm', 'a', 'n', 't', 'k',
   '`', '-', '#', ';', '\'', '(', ' ', '\t', '\n', '\r', '\x0b', '\x0c']

/-- A prefix is safe when it is non-empty and avoids `badPrefixChars`. -/
def safeX (x : List Char) : Prop := x ≠ [] ∧ ∀ c ∈ x, c ∉ badPrefixChars

theorem safe_disj (x : List Char) (hsafe : ∀ c ∈ x, c ∉ badPrefixChars)
    (q : List Char) (hsub : ∀ c ∈ q, c ∈ badPrefixChars) : ∀ c ∈ x, c ∉ q :=
  fun c hc hq => hsafe c hc (hsub c hq)

theorem safe_ne (x : List Char) (hsafe : ∀ c ∈ x, c ∉ badPrefixChars)
    (ch : Char) (hch : ch ∈ badPrefixChars) : ∀ c ∈ x, c ≠ ch :=
  fun c hc he => hsafe c hc (he ▸ hch)

/-- An identifier-like prefix in the style the harness's tests generate
(`mig_{hex}`): non-empty, built only of ASCII letters, digits and
underscores, and not containing any of the four canonical table names as
a substring.  The spec's own example prefix `mig_abc123` qualifies, as
does every `mig_{hex}` prefix the test suite generates. -/
def idPref (x : List Char) : Prop :=
  x ≠ [] ∧ (∀ c ∈ x, (c.isAlpha || c.isDigit || c = '_') = true) ∧
  (∀ q ∈ ["profiles".data, "domains".data, "areas".data, "tasks".data],
    containsSub q x = false)

theorem ident_ne (x : List Char)
    (hch : ∀ c ∈ x, (c.isAlpha || c.isDigit || c = '_') = true)
    (ch : Char) (hc2 : ch.isAlpha = false ∧ ch.isDigit = false ∧ ch ≠ '_') :
    ∀ c ∈ x, c ≠ ch := by
  intro c hc he
  subst he
  have h1 := hch c hc
  rw [hc2.1, hc2.2.1] at h1
  simp at h1
  exact hc2.2.2 h1

theorem ident_disj (x : List Char)
    (hch : ∀ c ∈ x, (c.isAlpha || c.isDigit || c = '_') = true)
    (q : List Char)
    (hq2 : ∀ ch ∈ q, ch.isAlpha = false ∧ ch.isDigit = false ∧ ch ≠ '_') :
    ∀ c ∈ x, c ∉ q := by
  intro c hc hmem
  obtain ⟨h1, h2, h3⟩ := hq2 c hmem
  have h4 := hch c hc
  rw [h1, h2] at h4
  simp at h4
  exact h3 h4

/-- Modelled from the spec: the migrations directory (external input to
the harness) is not under the repository snapshot; per §2/§4.2/§8 of the
spec, migration 001 builds the four-table schema using idempotent
`CREATE TABLE IF NOT EXISTS` statements, preceded by database
creation/selection directives that the harness skips. -/
def migration001Sql : List Char :=
  ("CREATE DATABASE IF NOT EXISTS darwin2;\nUSE darwin2;\n" ++
   "CREATE TABLE IF NOT EXISTS profiles (id VARCHAR(64) PRIMARY KEY);\n" ++
   "CREATE TABLE IF NOT EXISTS domains (id INT);\n" ++
   "CREATE TABLE IF NOT EXISTS areas (id INT);\n" ++
   "CREATE TABLE IF NOT EXISTS tasks (id INT);\n").data

/-- `CREATE TABLE IF NOT EXISTS `, the statement head shared by the four
modelled creation statements. -/
def ctineD : List Char := "CREATE TABLE IF NOT EXISTS ".data

theorem substTables_m1 (x : List Char) (hx : x ≠ [])
    (hqxD : containsSub "domains".data x = false)
    (hqxA : containsSub "areas".data x = false)
    (hqxT : containsSub "tasks".data x = false) :
    substTables x migration001Sql
      = "CREATE DATABASE IF NOT EXISTS darwin2;\nUSE darwin2;\nCREATE TABLE IF NOT EXISTS ".data
        ++ (x ++ ("_profiles (id VARCHAR(64) PRIMARY KEY);\nCREATE TABLE IF NOT EXISTS ".data
        ++ (x ++ ("_domains (id INT);\nCREATE TABLE IF NOT EXISTS ".data
        ++ (x ++ ("_areas (id INT);\nCREATE TABLE IF NOT EXISTS ".data
        ++ (x ++ ("_tasks".data ++ " (id INT);\n".data)))))))) := by
  unfold substTables
  simp only []
  have e14 : replaceL "`tasks`".data ("`".data ++ x ++ "_tasks`".data)
      (replaceL "`areas`".data ("`".data ++ x ++ "_areas`".data)
        (replaceL "`domains`".data ("`".data ++ x ++ "_domains`".data)
          (replaceL "`profiles`".data ("`".data ++ x ++ "_profiles`".data) migration001Sql)))
      = migration001Sql := rfl
  rw [e14]
  have e5 : replaceL "profiles".data (x ++ "_profiles".data) migration001Sql
      = "CREATE DATABASE IF NOT EXISTS darwin2;\nUSE darwin2;\nCREATE TABLE IF NOT EXISTS ".data
        ++ ((x ++ "_profiles".data)
        ++ " (id VARCHAR(64) PRIMARY KEY);\nCREATE TABLE IF NOT EXISTS domains (id INT);\nCREATE TABLE IF NOT EXISTS areas (id INT);\nCREATE TABLE IF NOT EXISTS tasks (id INT);\n".data) := rfl
  rw [e5]
  rw [show "CREATE DATABASE IF NOT EXISTS darwin2;\nUSE darwin2;\nCREATE TABLE IF NOT EXISTS ".data
        ++ ((x ++ "_profiles".data)
        ++ " (id VARCHAR(64) PRIMARY KEY);\nCREATE TABLE IF NOT EXISTS domains (id INT);\nCREATE TABLE IF NOT EXISTS areas (id INT);\nCREATE TABLE IF NOT EXISTS tasks (id INT);\n".data)
      = "CREATE DATABASE IF NOT EXISTS darwin2;\nUSE darwin2;\nCREATE TABLE IF NOT EXISTS ".data
        ++ (x ++ ("_profiles".data
        ++ " (id VARCHAR(64) PRIMARY KEY);\nCREATE TABLE IF NOT EXISTS domains (id INT);\nCREATE TABLE IF NOT EXISTS areas (id INT);\nCREATE TABLE IF NOT EXISTS tasks (id INT);\n".data))
    by simp only [List.append_assoc]]
  rw [replaceL_skipx2 "domains".data (x ++ "_domains".data) x
    "CREATE DATABASE IF NOT EXISTS darwin2;\nUSE darwin2;\nCREATE TABLE IF NOT EXISTS ".data
    ("_profiles".data
      ++ " (id VARCHAR(64) PRIMARY KEY);\nCREATE TABLE IF NOT EXISTS domains (id INT);\nCREATE TABLE IF NOT EXISTS areas (id INT);\nCREATE TABLE IF NOT EXISTS tasks (id INT);\n".data)
    ' ' '_' (by decide) hx
    ⟨"CREATE DATABASE IF NOT EXISTS darwin2;\nUSE darwin2;\nCREATE TABLE IF NOT EXISTS".data, by decide⟩ (by decide)
    ⟨"profiles".data
      ++ " (id VARCHAR(64) PRIMARY KEY);\nCREATE TABLE IF NOT EXISTS domains (id INT);\nCREATE TABLE IF NOT EXISTS areas (id INT);\nCREATE TABLE IF NOT EXISTS tasks (id INT);\n".data, rfl⟩
    (by decide) hqxD]
  have e6 : replaceL "domains".data (x ++ "_domains".data)
      ("_profiles".data
        ++ " (id VARCHAR(64) PRIMARY KEY);\nCREATE TABLE IF NOT EXISTS domains (id INT);\nCREATE TABLE IF NOT EXISTS areas (id INT);\nCREATE TABLE IF NOT EXISTS tasks (id INT);\n".data)
      = "_profiles (id VARCHAR(64) PRIMARY KEY);\nCREATE TABLE IF NOT EXISTS ".data
        ++ ((x ++ "_domains".data)
        ++ " (id INT);\nCREATE TABLE IF NOT EXISTS areas (id INT);\nCREATE TABLE IF NOT EXISTS tasks (id INT);\n".data) := rfl
  rw [e6]
  have e6c : replaceL "domains".data (x ++ "_domains".data)
      "CREATE DATABASE IF NOT EXISTS darwin2;\nUSE darwin2;\nCREATE TABLE IF NOT EXISTS ".data
      = "CREATE DATABASE IF NOT EXISTS darwin2;\nUSE darwin2;\nCREATE TABLE IF NOT EXISTS ".data := rfl
  rw [e6c]
  rw [show "_profiles (id VARCHAR(64) PRIMARY KEY);\nCREATE TABLE IF NOT EXISTS ".data
        ++ ((x ++ "_domains".data)
        ++ " (id INT);\nCREATE TABLE IF NOT EXISTS areas (id INT);\nCREATE TABLE IF NOT EXISTS tasks (id INT);\n".data)
      = "_profiles (id VARCHAR(64) PRIMARY KEY);\nCREATE TABLE IF NOT EXISTS ".data
        ++ (x ++ ("_domains".data
        ++ " (id INT);\nCREATE TABLE IF NOT EXISTS areas (id INT);\nCREATE TABLE IF NOT EXISTS tasks (id INT);\n".data))
    by simp only [List.append_assoc]]
  rw [replaceL_skipx2 "areas".data (x ++ "_areas".data) x
    "CREATE DATABASE IF NOT EXISTS darwin2;\nUSE darwin2;\nCREATE TABLE IF NOT EXISTS ".data
    ("_profiles (id VARCHAR(64) PRIMARY KEY);\nCREATE TABLE IF NOT EXISTS ".data
      ++ (x ++ ("_domains".data
      ++ " (id INT);\nCREATE TABLE IF NOT EXISTS areas (id INT);\nCREATE TABLE IF NOT EXISTS tasks (id INT);\n".data)))
    ' ' '_' (by decide) hx
    ⟨"CREATE DATABASE IF NOT EXISTS darwin2;\nUSE darwin2;\nCREATE TABLE IF NOT EXISTS".data, by decide⟩ (by decide)
    ⟨"profiles (id VARCHAR(64) PRIMARY KEY);\nCREATE TABLE IF NOT EXISTS ".data
      ++ (x ++ ("_domains".data
      ++ " (id INT);\nCREATE TABLE IF NOT EXISTS areas (id INT);\nCREATE TABLE IF NOT EXISTS tasks (id INT);\n".data)), rfl⟩
    (by decide) hqxA]
  rw [replaceL_skipx2 "areas".data (x ++ "_areas".data) x
    "_profiles (id VARCHAR(64) PRIMARY KEY);\nCREATE TABLE IF NOT EXISTS ".data
    ("_domains".data
      ++ " (id INT);\nCREATE TABLE IF NOT EXISTS areas (id INT);\nCREATE TABLE IF NOT EXISTS tasks (id INT);\n".data)
    ' ' '_' (by decide) hx
    ⟨"_profiles (id VARCHAR(64) PRIMARY KEY);\nCREATE TABLE IF NOT EXISTS".data, by decide⟩ (by decide)
    ⟨"domains".data
      ++ " (id INT);\nCREATE TABLE IF NOT EXISTS areas (id INT);\nCREATE TABLE IF NOT EXISTS tasks (id INT);\n".data, rfl⟩
    (by decide) hqxA]
  have e7a : replaceL "areas".data (x ++ "_areas".data)
      "CREATE DATABASE IF NOT EXISTS darwin2;\nUSE darwin2;\nCREATE TABLE IF NOT EXISTS ".data
      = "CREATE DATABASE IF NOT EXISTS darwin2;\nUSE darwin2;\nCREATE TABLE IF NOT EXISTS ".data := rfl
  have e7b : replaceL "areas".data (x ++ "_areas".data)
      "_profiles (id VARCHAR(64) PRIMARY KEY);\nCREATE TABLE IF NOT EXISTS ".data
      = "_profiles (id VARCHAR(64) PRIMARY KEY);\nCREATE TABLE IF NOT EXISTS ".data := rfl
  have e7c : replaceL "areas".data (x ++ "_areas".data)
      ("_domains".data
        ++ " (id INT);\nCREATE TABLE IF NOT EXISTS areas (id INT);\nCREATE TABLE IF NOT EXISTS tasks (id INT);\n".data)
      = "_domains (id INT);\nCREATE TABLE IF NOT EXISTS ".data
        ++ ((x ++ "_areas".data)
        ++ " (id INT);\nCREATE TABLE IF NOT EXISTS tasks (id INT);\n".data) := rfl
  rw [e7a, e7b, e7c]
  rw [show "_domains (id INT);\nCREATE TABLE IF NOT EXISTS ".data
        ++ ((x ++ "_areas".data)
        ++ " (id INT);\nCREATE TABLE IF NOT EXISTS tasks (id INT);\n".data)
      = "_domains (id INT);\nCREATE TABLE IF NOT EXISTS ".data
        ++ (x ++ ("_areas".data
        ++ " (id INT);\nCREATE TABLE IF NOT EXISTS tasks (id INT);\n".data))
    by simp only [List.append_assoc]]
  rw [replaceL_skipx2 "tasks".data (x ++ "_tasks".data) x
    "CREATE DATABASE IF NOT EXISTS darwin2;\nUSE darwin2;\nCREATE TABLE IF NOT EXISTS ".data
    ("_profiles (id VARCHAR(64) PRIMARY KEY);\nCREATE TABLE IF NOT EXISTS ".data
      ++ (x ++ ("_domains (id INT);\nCREATE TABLE IF NOT EXISTS ".data
      ++ (x ++ ("_areas".data
      ++ " (id INT);\nCREATE TABLE IF NOT EXISTS tasks (id INT);\n".data)))))
    ' ' '_' (by decide) hx
    ⟨"CREATE DATABASE IF NOT EXISTS darwin2;\nUSE darwin2;\nCREATE TABLE IF NOT EXISTS".data, by decide⟩ (by decide)
    ⟨"profiles (id VARCHAR(64) PRIMARY KEY);\nCREATE TABLE IF NOT EXISTS ".data
      ++ (x ++ ("_domains (id INT);\nCREATE TABLE IF NOT EXISTS ".data
      ++ (x ++ ("_areas".data
      ++ " (id INT);\nCREATE TABLE IF NOT EXISTS tasks (id INT);\n".data)))), rfl⟩
    (by decide) hqxT]
  rw [replaceL_skipx2 "tasks".data (x ++ "_tasks".data) x
    "_profiles (id VARCHAR(64) PRIMARY KEY);\nCREATE TABLE IF NOT EXISTS ".data
    ("_domains (id INT);\nCREATE TABLE IF NOT EXISTS ".data
      ++ (x ++ ("_areas".data
      ++ " (id INT);\nCREATE TABLE IF NOT EXISTS tasks (id INT);\n".data)))
    ' ' '_' (by decide) hx
    ⟨"_profiles (id VARCHAR(64) PRIMARY KEY);\nCREATE TABLE IF NOT EXISTS".data, by decide⟩ (by decide)
    ⟨"domains (id INT);\nCREATE TABLE IF NOT EXISTS ".data
      ++ (x ++ ("_areas".data
      ++ " (id INT);\nCREATE TABLE IF NOT EXISTS tasks (id INT);\n".data)), rfl⟩
    (by decide) hqxT]
  rw [replaceL_skipx2 "tasks".data (x ++ "_tasks".data) x
    "_domains (id INT);\nCREATE TABLE IF NOT EXISTS ".data
    ("_areas".data
      ++ " (id INT);\nCREATE TABLE IF NOT EXISTS tasks (id INT);\n".data)
    ' ' '_' (by decide) hx
    ⟨"_domains (id INT);\nCREATE TABLE IF NOT EXISTS".data, by decide⟩ (by decide)
    ⟨"areas".data
      ++ " (id INT);\nCREATE TABLE IF NOT EXISTS tasks (id INT);\n".data, rfl⟩
    (by decide) hqxT]
  have e8a : replaceL "tasks".data (x ++ "_tasks".data)
      "CREATE DATABASE IF NOT EXISTS darwin2;\nUSE darwin2;\nCREATE TABLE IF NOT EXISTS ".data
      = "CREATE DATABASE IF NOT EXISTS darwin2;\nUSE darwin2;\nCREATE TABLE IF NOT EXISTS ".data := rfl
  have e8b : replaceL "tasks".data (x ++ "_tasks".data)
      "_profiles (id VARCHAR(64) PRIMARY KEY);\nCREATE TABLE IF NOT EXISTS ".data
      = "_profiles (id VARCHAR(64) PRIMARY KEY);\nCREATE TABLE IF NOT EXISTS ".data := rfl
  have e8c : replaceL "tasks".data (x ++ "_tasks".data)
      "_domains (id INT);\nCREATE TABLE IF NOT EXISTS ".data
      = "_domains (id INT);\nCREATE TABLE IF NOT EXISTS ".data := rfl
  have e8d : replaceL "tasks".data (x ++ "_tasks".data)
      ("_areas".data
        ++ " (id INT);\nCREATE TABLE IF NOT EXISTS tasks (id INT);\n".data)
      = "_areas (id INT);\nCREATE TABLE IF NOT EXISTS ".data
        ++ ((x ++ "_tasks".data) ++ " (id INT);\n".data) := rfl
  rw [e8a, e8b, e8c, e8d]
  simp only [List.append_assoc]

theorem joinWith_single (s a : List Char) : joinWith s [a] = a := by
  simp [joinWith, List.intercalate, List.intersperse]

theorem joinWith_cons2 (s a b : List Char) (t : List (List Char)) :
    joinWith s (a :: b :: t) = a ++ (s ++ joinWith s (b :: t)) := by
  simp [joinWith, List.intercalate, List.intersperse]

theorem stripCommentLine_block (a x b : List Char) (hx : x ≠ [])
    (hdash : ∀ c ∈ x, c ∉ "--".data) (hhash : ∀ c ∈ x, c ∉ "#".data)
    (hda : containsSub "--".data a = false) (hdb : containsSub "--".data b = false)
    (hha : containsSub "#".data a = false) (hhb : containsSub "#".data b = false)
    (hrb : rstripL b = b) (hbne : b ≠ []) :
    stripCommentLine (a ++ (x ++ b)) = some (a ++ (x ++ b)) := by
  have hd : subIdx? "--".data (a ++ (x ++ b)) = none := by
    apply subIdx?_none_of_contains_false
    rw [containsSub_split_block _ _ _ _ (by decide) hx hdash, hda, hdb]
    rfl
  have hh : subIdx? "#".data (a ++ (x ++ b)) = none := by
    apply subIdx?_none_of_contains_false
    rw [containsSub_split_block _ _ _ _ (by decide) hx hhash, hha, hhb]
    rfl
  have hrxb : rstripL (x ++ b) = x ++ b := by
    rw [rstripL_append_nonempty x b (by rw [hrb]; exact hbne), hrb]
  have hrall : rstripL (a ++ (x ++ b)) = a ++ (x ++ b) := by
    rw [rstripL_append_nonempty a (x ++ b) (by
      rw [hrxb]
      cases x with
      | nil => exact absurd rfl hx
      | cons c x' => simp), hrxb]
  have hne : (a ++ (x ++ b)) ≠ [] := by
    cases x with
    | nil => exact absurd rfl hx
    | cons c x' =>
      cases a with
      | nil => simp
      | cons y ys => simp
  unfold stripCommentLine
  simp only [hd, hh, hrall]
  rw [if_neg hne]

theorem trim_nl_ctine_block (x b : List Char) (hx : x ≠ [])
    (hrb : rstripL b = b) (hbne : b ≠ []) :
    trimL ("\nCREATE TABLE IF NOT EXISTS ".data ++ (x ++ b))
      = "CREATE TABLE IF NOT EXISTS ".data ++ (x ++ b) := by
  have hrxb : rstripL (x ++ b) = x ++ b := by
    rw [rstripL_append_nonempty x b (by rw [hrb]; exact hbne), hrb]
  unfold trimL
  rw [rstripL_append_nonempty _ _ (by
    rw [hrxb]
    cases x with
    | nil => exact absurd rfl hx
    | cons c x' => simp), hrxb]
  rfl

theorem ctine_append_ne_nil (z : List Char) :
    ("CREATE TABLE IF NOT EXISTS ".data ++ z) ≠ [] := by
  intro h
  have h2 := congrArg List.length h
  simp only [List.length_append] at h2
  have h3 : ("CREATE TABLE IF NOT EXISTS ".data).length = 27 := rfl
  rw [h3] at h2
  simp at h2

theorem dir_ctine (z : List Char) :
    isDirective ("CREATE TABLE IF NOT EXISTS ".data ++ z) = false := rfl


theorem filter_dir_cons_skip (t : List Char) (ts : List (List Char))
    (h : isDirective t = true) :
    List.filter (fun u => ! isDirective u) (t :: ts)
      = List.filter (fun u => ! isDirective u) ts := by
  simp [List.filter_cons, h]

theorem filter_dir_cons_keep (t : List Char) (ts : List (List Char))
    (h : isDirective t = false) :
    List.filter (fun u => ! isDirective u) (t :: ts)
      = t :: List.filter (fun u => ! isDirective u) ts := by
  simp [List.filter_cons, h]

theorem migrationStatements_m1 (x : List Char) (hid : idPref x) :
    migrationStatements x migration001Sql
      = [ctineD ++ (x ++ "_profiles (id VARCHAR(64) PRIMARY KEY)".data),
         ctineD ++ (x ++ "_domains (id INT)".data),
         ctineD ++ (x ++ "_areas (id INT)".data),
         ctineD ++ (x ++ "_tasks (id INT)".data)] := by
  obtain ⟨hx, hch, hqx⟩ := hid
  have hqxD : containsSub "domains".data x = false := hqx "domains".data (by decide)
  have hqxA : containsSub "areas".data x = false := hqx "areas".data (by decide)
  have hqxT : containsSub "tasks".data x = false := hqx "tasks".data (by decide)
  have hnl : ∀ c ∈ x, c ≠ '\n' := ident_ne x hch '\n' (by decide)
  have hsemi : ∀ c ∈ x, c ≠ ';' := ident_ne x hch ';' (by decide)
  have hdashx : ∀ c ∈ x, c ∉ "--".data := ident_disj x hch "--".data (by decide)
  have hhashx : ∀ c ∈ x, c ∉ "#".data := ident_disj x hch "#".data (by decide)
  have hstage1 : removeSuffixLines migration001Sql = migration001Sql := by decide
  unfold migrationStatements
  rw [hstage1, substTables_m1 x hx hqxD hqxA hqxT]
  have hlines : splitNL
      ("CREATE DATABASE IF NOT EXISTS darwin2;\nUSE darwin2;\nCREATE TABLE IF NOT EXISTS ".data ++ (x ++ ("_profiles (id VARCHAR(64) PRIMARY KEY);\nCREATE TABLE IF NOT EXISTS ".data ++ (x ++ ("_domains (id INT);\nCREATE TABLE IF NOT EXISTS ".data ++ (x ++ ("_areas (id INT);\nCREATE TABLE IF NOT EXISTS ".data ++ (x ++ ("_tasks".data ++ " (id INT);\n".data)))))))))
      = ["CREATE DATABASE IF NOT EXISTS darwin2;".data,
         "USE darwin2;".data,
         "CREATE TABLE IF NOT EXISTS ".data ++ (x ++ "_profiles (id VARCHAR(64) PRIMARY KEY);".data),
         "CREATE TABLE IF NOT EXISTS ".data ++ (x ++ "_domains (id INT);".data),
         "CREATE TABLE IF NOT EXISTS ".data ++ (x ++ "_areas (id INT);".data),
         "CREATE TABLE IF NOT EXISTS ".data ++ (x ++ "_tasks (id INT);".data),
         []] := by
    show splitOnC '\n' ("CREATE DATABASE IF NOT EXISTS darwin2;".data ++ ('\n' :: ("USE darwin2;".data ++ ('\n' :: ("CREATE TABLE IF NOT EXISTS ".data ++ (x ++ ("_profiles (id VARCHAR(64) PRIMARY KEY);".data ++ ('\n' :: ("CREATE TABLE IF NOT EXISTS ".data ++ (x ++ ("_domains (id INT);".data ++ ('\n' :: ("CREATE TABLE IF NOT EXISTS ".data ++ (x ++ ("_areas (id INT);".data ++ ('\n' :: ("CREATE TABLE IF NOT EXISTS ".data ++ (x ++ ("_tasks (id INT);".data ++ ('\n' :: ([] : List Char))))))))))))))))))))) = _
    rw [splitOnC_line '\n' "CREATE DATABASE IF NOT EXISTS darwin2;".data _ (by decide)]
    rw [splitOnC_line '\n' "USE darwin2;".data _ (by decide)]
    rw [splitOnC_line_x '\n' "CREATE TABLE IF NOT EXISTS ".data x
      "_profiles (id VARCHAR(64) PRIMARY KEY);".data _ (by decide) hnl (by decide)]
    rw [splitOnC_line_x '\n' "CREATE TABLE IF NOT EXISTS ".data x
      "_domains (id INT);".data _ (by decide) hnl (by decide)]
    rw [splitOnC_line_x '\n' "CREATE TABLE IF NOT EXISTS ".data x
      "_areas (id INT);".data _ (by decide) hnl (by decide)]
    rw [splitOnC_line_x '\n' "CREATE TABLE IF NOT EXISTS ".data x
      "_tasks (id INT);".data [] (by decide) hnl (by decide)]
    rfl
  unfold stripComments
  rw [hlines]
  have hl1 : stripCommentLine "CREATE DATABASE IF NOT EXISTS darwin2;".data
      = some "CREATE DATABASE IF NOT EXISTS darwin2;".data := by decide
  have hl2 : stripCommentLine "USE darwin2;".data = some "USE darwin2;".data := by decide
  have hl3 : stripCommentLine ("CREATE TABLE IF NOT EXISTS ".data ++ (x ++ "_profiles (id VARCHAR(64) PRIMARY KEY);".data)) = some ("CREATE TABLE IF NOT EXISTS ".data ++ (x ++ "_profiles (id VARCHAR(64) PRIMARY KEY);".data)) :=
    stripCommentLine_block "CREATE TABLE IF NOT EXISTS ".data x "_profiles (id VARCHAR(64) PRIMARY KEY);".data hx hdashx hhashx
      (by decide) (by decide) (by decide) (by decide) (by decide) (by decide)
  have hl4 : stripCommentLine ("CREATE TABLE IF NOT EXISTS ".data ++ (x ++ "_domains (id INT);".data)) = some ("CREATE TABLE IF NOT EXISTS ".data ++ (x ++ "_domains (id INT);".data)) :=
    stripCommentLine_block "CREATE TABLE IF NOT EXISTS ".data x "_domains (id INT);".data hx hdashx hhashx
      (by decide) (by decide) (by decide) (by decide) (by decide) (by decide)
  have hl5 : stripCommentLine ("CREATE TABLE IF NOT EXISTS ".data ++ (x ++ "_areas (id INT);".data)) = some ("CREATE TABLE IF NOT EXISTS ".data ++ (x ++ "_areas (id INT);".data)) :=
    stripCommentLine_block "CREATE TABLE IF NOT EXISTS ".data x "_areas (id INT);".data hx hdashx hhashx
      (by decide) (by decide) (by decide) (by decide) (by decide) (by decide)
  have hl6 : stripCommentLine ("CREATE TABLE IF NOT EXISTS ".data ++ (x ++ "_tasks (id INT);".data)) = some ("CREATE TABLE IF NOT EXISTS ".data ++ (x ++ "_tasks (id INT);".data)) :=
    stripCommentLine_block "CREATE TABLE IF NOT EXISTS ".data x "_tasks (id INT);".data hx hdashx hhashx
      (by decide) (by decide) (by decide) (by decide) (by decide) (by decide)
  have hlnil : stripCommentLine ([] : List Char) = none := by decide
  simp only [List.filterMap_cons, hl1, hl2, hl3, hl4, hl5, hl6, hlnil, List.filterMap_nil]
  rw [joinWith_cons2, joinWith_cons2, joinWith_cons2, joinWith_cons2, joinWith_cons2,
    joinWith_single]
  have hT3 : ("CREATE DATABASE IF NOT EXISTS darwin2;".data ++ (['\n'] ++ ("USE darwin2;".data ++ (['\n'] ++ (("CREATE TABLE IF NOT EXISTS ".data ++ (x ++ "_profiles (id VARCHAR(64) PRIMARY KEY);".data)) ++ (['\n'] ++ (("CREATE TABLE IF NOT EXISTS ".data ++ (x ++ "_domains (id INT);".data)) ++ (['\n'] ++ (("CREATE TABLE IF NOT EXISTS ".data ++ (x ++ "_areas (id INT);".data)) ++ (['\n'] ++ ("CREATE TABLE IF NOT EXISTS ".data ++ (x ++ "_tasks (id INT);".data))))))))))))
      = ("CREATE DATABASE IF NOT EXISTS darwin2;".data ++ ('\n' :: ("USE darwin2;".data ++ ('\n' :: ("CREATE TABLE IF NOT EXISTS ".data ++ (x ++ ("_profiles (id VARCHAR(64) PRIMARY KEY);".data ++ ('\n' :: ("CREATE TABLE IF NOT EXISTS ".data ++ (x ++ ("_domains (id INT);".data ++ ('\n' :: ("CREATE TABLE IF NOT EXISTS ".data ++ (x ++ ("_areas (id INT);".data ++ ('\n' :: ("CREATE TABLE IF NOT EXISTS ".data ++ (x ++ "_tasks (id INT);".data)))))))))))))))))) := by
    simp only [List.append_assoc, List.singleton_append]
  rw [hT3]
  unfold splitStmts
  have hfrag : splitOnC ';' (("CREATE DATABASE IF NOT EXISTS darwin2;".data ++ ('\n' :: ("USE darwin2;".data ++ ('\n' :: ("CREATE TABLE IF NOT EXISTS ".data ++ (x ++ ("_profiles (id VARCHAR(64) PRIMARY KEY);".data ++ ('\n' :: ("CREATE TABLE IF NOT EXISTS ".data ++ (x ++ ("_domains (id INT);".data ++ ('\n' :: ("CREATE TABLE IF NOT EXISTS ".data ++ (x ++ ("_areas (id INT);".data ++ ('\n' :: ("CREATE TABLE IF NOT EXISTS ".data ++ (x ++ "_tasks (id INT);".data)))))))))))))))))))
      = ["CREATE DATABASE IF NOT EXISTS darwin2".data,
         "\nUSE darwin2".data,
         "\nCREATE TABLE IF NOT EXISTS ".data ++ (x ++ "_profiles (id VARCHAR(64) PRIMARY KEY)".data),
         "\nCREATE TABLE IF NOT EXISTS ".data ++ (x ++ "_domains (id INT)".data),
         "\nCREATE TABLE IF NOT EXISTS ".data ++ (x ++ "_areas (id INT)".data),
         "\nCREATE TABLE IF NOT EXISTS ".data ++ (x ++ "_tasks (id INT)".data),
         []] := by
    show splitOnC ';' ("CREATE DATABASE IF NOT EXISTS darwin2".data ++ (';' :: ("\nUSE darwin2".data ++ (';' :: ("\nCREATE TABLE IF NOT EXISTS ".data ++ (x ++ ("_profiles (id VARCHAR(64) PRIMARY KEY)".data ++ (';' :: ("\nCREATE TABLE IF NOT EXISTS ".data ++ (x ++ ("_domains (id INT)".data ++ (';' :: ("\nCREATE TABLE IF NOT EXISTS ".data ++ (x ++ ("_areas (id INT)".data ++ (';' :: ("\nCREATE TABLE IF NOT EXISTS ".data ++ (x ++ ("_tasks (id INT)".data ++ (';' :: ([] : List Char))))))))))))))))))))) = _
    rw [splitOnC_line ';' "CREATE DATABASE IF NOT EXISTS darwin2".data _ (by decide)]
    rw [splitOnC_line ';' "\nUSE darwin2".data _ (by decide)]
    rw [splitOnC_line_x ';' "\nCREATE TABLE IF NOT EXISTS ".data x
      "_profiles (id VARCHAR(64) PRIMARY KEY)".data _ (by decide) hsemi (by decide)]
    rw [splitOnC_line_x ';' "\nCREATE TABLE IF NOT EXISTS ".data x
      "_domains (id INT)".data _ (by decide) hsemi (by decide)]
    rw [splitOnC_line_x ';' "\nCREATE TABLE IF NOT EXISTS ".data x
      "_areas (id INT)".data _ (by decide) hsemi (by decide)]
    rw [splitOnC_line_x ';' "\nCREATE TABLE IF NOT EXISTS ".data x
      "_tasks (id INT)".data [] (by decide) hsemi (by decide)]
    rfl
  rw [hfrag]
  have htr0 : trimL "CREATE DATABASE IF NOT EXISTS darwin2".data
      = "CREATE DATABASE IF NOT EXISTS darwin2".data := by decide
  have htr1 : trimL "\nUSE darwin2".data = "USE darwin2".data := by decide
  have htr2 : trimL ("\nCREATE TABLE IF NOT EXISTS ".data ++ (x ++ "_profiles (id VARCHAR(64) PRIMARY KEY)".data)) = "CREATE TABLE IF NOT EXISTS ".data ++ (x ++ "_profiles (id VARCHAR(64) PRIMARY KEY)".data) :=
    trim_nl_ctine_block x "_profiles (id VARCHAR(64) PRIMARY KEY)".data hx (by decide) (by decide)
  have htr3 : trimL ("\nCREATE TABLE IF NOT EXISTS ".data ++ (x ++ "_domains (id INT)".data)) = "CREATE TABLE IF NOT EXISTS ".data ++ (x ++ "_domains (id INT)".data) :=
    trim_nl_ctine_block x "_domains (id INT)".data hx (by decide) (by decide)
  have htr4 : trimL ("\nCREATE TABLE IF NOT EXISTS ".data ++ (x ++ "_areas (id INT)".data)) = "CREATE TABLE IF NOT EXISTS ".data ++ (x ++ "_areas (id INT)".data) :=
    trim_nl_ctine_block x "_areas (id INT)".data hx (by decide) (by decide)
  have htr5 : trimL ("\nCREATE TABLE IF NOT EXISTS ".data ++ (x ++ "_tasks (id INT)".data)) = "CREATE TABLE IF NOT EXISTS ".data ++ (x ++ "_tasks (id INT)".data) :=
    trim_nl_ctine_block x "_tasks (id INT)".data hx (by decide) (by decide)
  have htrn : trimL ([] : List Char) = [] := by decide
  simp only [List.map_cons, List.map_nil, htr0, htr1, htr2, htr3, htr4, htr5, htrn]
  have hne2 := ctine_append_ne_nil (x ++ "_profiles (id VARCHAR(64) PRIMARY KEY)".data)
  have hne3 := ctine_append_ne_nil (x ++ "_domains (id INT)".data)
  have hne4 := ctine_append_ne_nil (x ++ "_areas (id INT)".data)
  have hne5 := ctine_append_ne_nil (x ++ "_tasks (id INT)".data)
  have hb0 : (decide ("CREATE DATABASE IF NOT EXISTS darwin2".data ≠ ([] : List Char))) = true := by
    decide
  have hb1 : (decide ("USE darwin2".data ≠ ([] : List Char))) = true := by decide
  have hb2 : (decide (("CREATE TABLE IF NOT EXISTS ".data ++ (x ++ "_profiles (id VARCHAR(64) PRIMARY KEY)".data)) ≠ [])) = true :=
    decide_eq_true hne2
  have hb3 : (decide (("CREATE TABLE IF NOT EXISTS ".data ++ (x ++ "_domains (id INT)".data)) ≠ [])) = true :=
    decide_eq_true hne3
  have hb4 : (decide (("CREATE TABLE IF NOT EXISTS ".data ++ (x ++ "_areas (id INT)".data)) ≠ [])) = true :=
    decide_eq_true hne4
  have hb5 : (decide (("CREATE TABLE IF NOT EXISTS ".data ++ (x ++ "_tasks (id INT)".data)) ≠ [])) = true :=
    decide_eq_true hne5
  have hbnil : (decide (([] : List Char) ≠ [])) = false := by decide
  have hdir0 : isDirective "CREATE DATABASE IF NOT EXISTS darwin2".data = true := by decide
  have hdir1 : isDirective "USE darwin2".data = true := by decide
  unfold filterDirectives
  simp only [List.filter_cons, List.filter_nil, hb0, hb1, hb2, hb3, hb4, hb5, hbnil,
    Bool.not_true, Bool.not_false]
  show List.filter (fun u => ! isDirective u)
      ["CREATE DATABASE IF NOT EXISTS darwin2".data, "USE darwin2".data,
        "CREATE TABLE IF NOT EXISTS ".data ++ (x ++ "_profiles (id VARCHAR(64) PRIMARY KEY)".data),
        "CREATE TABLE IF NOT EXISTS ".data ++ (x ++ "_domains (id INT)".data),
        "CREATE TABLE IF NOT EXISTS ".data ++ (x ++ "_areas (id INT)".data),
        "CREATE TABLE IF NOT EXISTS ".data ++ (x ++ "_tasks (id INT)".data)] = _
  rw [filter_dir_cons_skip _ _ hdir0, filter_dir_cons_skip _ _ hdir1,
    filter_dir_cons_keep _ _ (dir_ctine (x ++ "_profiles (id VARCHAR(64) PRIMARY KEY)".data)),
    filter_dir_cons_keep _ _ (dir_ctine (x ++ "_domains (id INT)".data)),
    filter_dir_cons_keep _ _ (dir_ctine (x ++ "_areas (id INT)".data)),
    filter_dir_cons_keep _ _ (dir_ctine (x ++ "_tasks (id INT)".data)),
    List.filter_nil]
  rfl

/-! ## Spec-modelled execution of the table-creation migration (C7) -/

/-- Boolean membership of a table name in a schema state. -/
def tblElem (name : List Char) : List (List Char) → Bool
  | [] => false
  | t :: ts => (t == name) || tblElem name ts

/-- Modelled from the spec: `CREATE TABLE IF NOT EXISTS` semantics of the
target database engine — the table is created when absent and the
statement is a no-op when a table of that name already exists; any other
statement shape is rejected.  The schema state is the list of existing
table names; the created table's name is the text between the statement
head and the first space or opening parenthesis. -/
def execCreate (st : List (List Char)) (stmt : List Char) :
    Option (List (List Char)) :=
  if ctineD.isPrefixOf stmt then
    let name := (stmt.drop ctineD.length).takeWhile (fun c => ! (c == ' ' || c == '('))
    if tblElem name st then some st else some (st ++ [name])
  else none

/-- Modelled from the spec: run a sequence of DDL statements in order
against a schema state, failing fast on the first rejected statement. -/
def runDDL : List (List Char) → List (List Char) → Option (List (List Char))
  | st, [] => some st
  | st, stmt :: rest =>
    match execCreate st stmt with
    | none => none
    | some st2 => runDDL st2 rest

theorem append_beq_cancel (x a b : List Char) :
    ((x ++ a) == (x ++ b)) = (a == b) := by
  induction x with
  | nil => rfl
  | cons c x' ih =>
    show ((c == c) && ((x' ++ a) == (x' ++ b))) = (a == b)
    rw [beq_self_eq_true, ih, Bool.true_and]

theorem execCreate_ctine (st : List (List Char)) (x z w : List Char)
    (hpred : ∀ c ∈ x, (! (c == ' ' || c == '(')) = true)
    (hw : z.takeWhile (fun c => ! (c == ' ' || c == '(')) = w) :
    execCreate st (ctineD ++ (x ++ z))
      = if tblElem (x ++ w) st then some st else some (st ++ [x ++ w]) := by
  unfold execCreate
  rw [isPrefixOf_self_append ctineD (x ++ z)]
  simp only []
  rw [show (ctineD ++ (x ++ z)).drop ctineD.length = x ++ z from
    List.drop_left ctineD (x ++ z)]
  rw [takeWhile_skip_block (fun c => ! (c == ' ' || c == '(')) x z hpred, hw]
  simp only [if_true]

theorem runDDL_cons_some (st st2 : List (List Char)) (stmt : List Char)
    (rest : List (List Char)) (h : execCreate st stmt = some st2) :
    runDDL st (stmt :: rest) = runDDL st2 rest := by
  show (match execCreate st stmt with
        | none => none
        | some st3 => runDDL st3 rest) = _
  rw [h]

theorem runDDL_nil (st : List (List Char)) : runDDL st [] = some st := rfl

/-- C7: for every identifier-like prefix that does not itself contain a
canonical table name (which covers the harness's generated `mig_{hex}`
prefixes and the spec's example `mig_abc123`), running the rewritten
first (table-creation) migration twice in succession succeeds both times
under the modelled create-if-absent semantics, the second run leaves the
schema state produced by the first run unchanged, and that state
consists of exactly the four prefixed tables. -/
theorem migration001_idempotent (x : List Char) (hid : idPref x) :
    ∃ st1,
      runDDL [] (migrationStatements x migration001Sql) = some st1 ∧
      runDDL st1 (migrationStatements x migration001Sql) = some st1 ∧
      st1 = [x ++ "_profiles".data, x ++ "_domains".data,
             x ++ "_areas".data, x ++ "_tasks".data] := by
  have hpred : ∀ c ∈ x, (! (c == ' ' || c == '(')) = true := by
    intro c hc
    have h1 : (c == ' ') = false :=
      beq_eq_false_iff_ne.mpr (ident_ne x hid.2.1 ' ' (by decide) c hc)
    have h2 : (c == '(') = false :=
      beq_eq_false_iff_ne.mpr (ident_ne x hid.2.1 '(' (by decide) c hc)
    rw [h1, h2]
    rfl
  have hstmts := migrationStatements_m1 x hid
  have e1 : execCreate [] (ctineD ++ (x ++ "_profiles (id VARCHAR(64) PRIMARY KEY)".data))
      = some [x ++ "_profiles".data] := by
    rw [execCreate_ctine [] x _ "_profiles".data hpred (by decide)]
    rfl
  have e2 : execCreate [x ++ "_profiles".data]
        (ctineD ++ (x ++ "_domains (id INT)".data))
      = some [x ++ "_profiles".data, x ++ "_domains".data] := by
    rw [execCreate_ctine _ x _ "_domains".data hpred (by decide)]
    have hm : tblElem (x ++ "_domains".data) [x ++ "_profiles".data] = false := by
      show (((x ++ "_profiles".data) == (x ++ "_domains".data)) || false) = false
      rw [append_beq_cancel]
      decide
    rw [hm]
    rfl
  have e3 : execCreate [x ++ "_profiles".data, x ++ "_domains".data]
        (ctineD ++ (x ++ "_areas (id INT)".data))
      = some [x ++ "_profiles".data, x ++ "_domains".data, x ++ "_areas".data] := by
    rw [execCreate_ctine _ x _ "_areas".data hpred (by decide)]
    have hm : tblElem (x ++ "_areas".data)
        [x ++ "_profiles".data, x ++ "_domains".data] = false := by
      show (((x ++ "_profiles".data) == (x ++ "_areas".data))
        || (((x ++ "_domains".data) == (x ++ "_areas".data)) || false)) = false
      rw [append_beq_cancel, append_beq_cancel]
      decide
    rw [hm]
    rfl
  have e4 : execCreate [x ++ "_profiles".data, x ++ "_domains".data, x ++ "_areas".data]
        (ctineD ++ (x ++ "_tasks (id INT)".data))
      = some [x ++ "_profiles".data, x ++ "_domains".data,
              x ++ "_areas".data, x ++ "_tasks".data] := by
    rw [execCreate_ctine _ x _ "_tasks".data hpred (by decide)]
    have hm : tblElem (x ++ "_tasks".data)
        [x ++ "_profiles".data, x ++ "_domains".data, x ++ "_areas".data] = false := by
      show (((x ++ "_profiles".data) == (x ++ "_tasks".data))
        || (((x ++ "_domains".data) == (x ++ "_tasks".data))
        || (((x ++ "_areas".data) == (x ++ "_tasks".data)) || false))) = false
      rw [append_beq_cancel, append_beq_cancel, append_beq_cancel]
      decide
    rw [hm]
    rfl
  have hrun1 : runDDL [] (migrationStatements x migration001Sql)
      = some [x ++ "_profiles".data, x ++ "_domains".data,
              x ++ "_areas".data, x ++ "_tasks".data] := by
    rw [hstmts, runDDL_cons_some _ _ _ _ e1, runDDL_cons_some _ _ _ _ e2,
      runDDL_cons_some _ _ _ _ e3, runDDL_cons_some _ _ _ _ e4, runDDL_nil]
  have f1 : execCreate [x ++ "_profiles".data, x ++ "_domains".data,
        x ++ "_areas".data, x ++ "_tasks".data]
        (ctineD ++ (x ++ "_profiles (id VARCHAR(64) PRIMARY KEY)".data))
      = some [x ++ "_profiles".data, x ++ "_domains".data,
              x ++ "_areas".data, x ++ "_tasks".data] := by
    rw [execCreate_ctine _ x _ "_profiles".data hpred (by decide)]
    have hm : tblElem (x ++ "_profiles".data)
        [x ++ "_profiles".data, x ++ "_domains".data,
         x ++ "_areas".data, x ++ "_tasks".data] = true := by
      show (((x ++ "_profiles".data) == (x ++ "_profiles".data))
        || (((x ++ "_domains".data) == (x ++ "_profiles".data))
        || (((x ++ "_areas".data) == (x ++ "_profiles".data))
        || (((x ++ "_tasks".data) == (x ++ "_profiles".data)) || false)))) = true
      rw [append_beq_cancel, append_beq_cancel, append_beq_cancel, append_beq_cancel]
      decide
    rw [hm]
    rfl
  have f2 : execCreate [x ++ "_profiles".data, x ++ "_domains".data,
        x ++ "_areas".data, x ++ "_tasks".data]
        (ctineD ++ (x ++ "_domains (id INT)".data))
      = some [x ++ "_profiles".data, x ++ "_domains".data,
              x ++ "_areas".data, x ++ "_tasks".data] := by
    rw [execCreate_ctine _ x _ "_domains".data hpred (by decide)]
    have hm : tblElem (x ++ "_domains".data)
        [x ++ "_profiles".data, x ++ "_domains".data,
         x ++ "_areas".data, x ++ "_tasks".data] = true := by
      show (((x ++ "_profiles".data) == (x ++ "_domains".data))
        || (((x ++ "_domains".data) == (x ++ "_domains".data))
        || (((x ++ "_areas".data) == (x ++ "_domains".data))
        || (((x ++ "_tasks".data) == (x ++ "_domains".data)) || false)))) = true
      rw [append_beq_cancel, append_beq_cancel, append_beq_cancel, append_beq_cancel]
      decide
    rw [hm]
    rfl
  have f3 : execCreate [x ++ "_profiles".data, x ++ "_domains".data,
        x ++ "_areas".data, x ++ "_tasks".data]
        (ctineD ++ (x ++ "_areas (id INT)".data))
      = some [x ++ "_profiles".data, x ++ "_domains".data,
              x ++ "_areas".data, x ++ "_tasks".data] := by
    rw [execCreate_ctine _ x _ "_areas".data hpred (by decide)]
    have hm : tblElem (x ++ "_areas".data)
        [x ++ "_profiles".data, x ++ "_domains".data,
         x ++ "_areas".data, x ++ "_tasks".data] = true := by
      show (((x ++ "_profiles".data) == (x ++ "_areas".data))
        || (((x ++ "_domains".data) == (x ++ "_areas".data))
        || (((x ++ "_areas".data) == (x ++ "_areas".data))
        || (((x ++ "_tasks".data) == (x ++ "_areas".data)) || false)))) = true
      rw [append_beq_cancel, append_beq_cancel, append_beq_cancel, append_beq_cancel]
      decide
    rw [hm]
    rfl
  have f4 : execCreate [x ++ "_profiles".data, x ++ "_domains".data,
        x ++ "_areas".data, x ++ "_tasks".data]
        (ctineD ++ (x ++ "_tasks (id INT)".data))
      = some [x ++ "_profiles".data, x ++ "_domains".data,
              x ++ "_areas".data, x ++ "_tasks".data] := by
    rw [execCreate_ctine _ x _ "_tasks".data hpred (by decide)]
    have hm : tblElem (x ++ "_tasks".data)
        [x ++ "_profiles".data, x ++ "_domains".data,
         x ++ "_areas".data, x ++ "_tasks".data] = true := by
      show (((x ++ "_profiles".data) == (x ++ "_tasks".data))
        || (((x ++ "_domains".data) == (x ++ "_tasks".data))
        || (((x ++ "_areas".data) == (x ++ "_tasks".data))
        || (((x ++ "_tasks".data) == (x ++ "_tasks".data)) || false)))) = true
      rw [append_beq_cancel, append_beq_cancel, append_beq_cancel, append_beq_cancel]
      decide
    rw [hm]
    rfl
  have hrun2 : runDDL [x ++ "_profiles".data, x ++ "_domains".data,
        x ++ "_areas".data, x ++ "_tasks".data] (migrationStatements x migration001Sql)
      = some [x ++ "_profiles".data, x ++ "_domains".data,
              x ++ "_areas".data, x ++ "_tasks".data] := by
    rw [hstmts, runDDL_cons_some _ _ _ _ f1, runDDL_cons_some _ _ _ _ f2,
      runDDL_cons_some _ _ _ _ f3, runDDL_cons_some _ _ _ _ f4, runDDL_nil]
  exact ⟨_, hrun1, hrun2, rfl⟩

/-- Witness for `migration001_idempotent` at the spec's own example
prefix `mig_abc123`. -/
theorem migration001_idempotent_witness :
    idPref "mig_abc123".data ∧
    ∃ st1,
      runDDL [] (migrationStatements "mig_abc123".data migration001Sql) = some st1 ∧
      runDDL st1 (migrationStatements "mig_abc123".data migration001Sql) = some st1 ∧
      st1 = ["mig_abc123".data ++ "_profiles".data, "mig_abc123".data ++ "_domains".data,
             "mig_abc123".data ++ "_areas".data, "mig_abc123".data ++ "_tasks".data] :=
  ⟨⟨by decide, by decide, by decide⟩,
   migration001_idempotent "mig_abc123".data ⟨by decide, by decide, by decide⟩⟩

/-! ## Generic-prefix run of the full rewriter on the demo text (C1) -/

theorem append_ne_nil_l (a b : List Char) (ha : a ≠ []) : (a ++ b) ≠ [] := by
  cases a with
  | nil => exact absurd rfl ha
  | cons c t => simp

theorem rstripL_id_of_append (a b : List Char) (hb : rstripL b = b) (hbne : b ≠ []) :
    rstripL (a ++ b) = a ++ b := by
  rw [rstripL_append_nonempty a b (by rw [hb]; exact hbne), hb]

theorem splitOnC_no_sep (sep : Char) (b : List Char) (hb : ∀ c ∈ b, c ≠ sep) :
    splitOnC sep b = [b] := by
  induction b with
  | nil => rfl
  | cons c t ih =>
    show (if c = sep then _ else consHead [c] (splitOnC sep t)) = _
    rw [if_neg (hb c (by simp)), ih (fun d hd => hb d (List.mem_cons_of_mem _ hd))]
    simp [consHead]

theorem splitOnC_last_x (sep : Char) (a x b : List Char)
    (ha : ∀ c ∈ a, c ≠ sep) (hx : ∀ c ∈ x, c ≠ sep) (hb : ∀ c ∈ b, c ≠ sep) :
    splitOnC sep (a ++ (x ++ b)) = [a ++ (x ++ b)] := by
  rw [splitOnC_skip_block sep a _ ha, splitOnC_skip_block sep x _ hx,
    splitOnC_no_sep sep b hb]
  simp [consHead]

theorem splitOnC_line_x2 (sep : Char) (a x m b rest : List Char)
    (ha : ∀ c ∈ a, c ≠ sep) (hx : ∀ c ∈ x, c ≠ sep)
    (hm : ∀ c ∈ m, c ≠ sep) (hb : ∀ c ∈ b, c ≠ sep) :
    splitOnC sep (a ++ (x ++ (m ++ (x ++ (b ++ (sep :: rest))))))
      = (a ++ (x ++ (m ++ (x ++ b)))) :: splitOnC sep rest := by
  rw [splitOnC_skip_block sep a _ ha, splitOnC_skip_block sep x _ hx,
    splitOnC_line_x sep m x b rest hm hx hb]
  simp [consHead, List.append_assoc]

theorem splitOnC_last_x2 (sep : Char) (a x m b : List Char)
    (ha : ∀ c ∈ a, c ≠ sep) (hx : ∀ c ∈ x, c ≠ sep)
    (hm : ∀ c ∈ m, c ≠ sep) (hb : ∀ c ∈ b, c ≠ sep) :
    splitOnC sep (a ++ (x ++ (m ++ (x ++ b))))
      = [a ++ (x ++ (m ++ (x ++ b)))] := by
  rw [splitOnC_skip_block sep a _ ha, splitOnC_skip_block sep x _ hx,
    splitOnC_last_x sep m x b hm hx hb]
  simp [consHead, List.append_assoc]

theorem substTables_split_nl (x a b : List Char) :
    substTables x (a ++ ('\n' :: b))
      = substTables x a ++ ('\n' :: substTables x b) := by
  unfold substTables
  simp only []
  rw [show a ++ ('\n' :: b) = a ++ (['\n'] ++ b) from rfl]
  rw [replaceL_skipx "`profiles`".data _ ['\n'] a b (by decide) (by decide) (by decide)]
  rw [replaceL_skipx "`domains`".data _ ['\n'] _ _ (by decide) (by decide) (by decide)]
  rw [replaceL_skipx "`areas`".data _ ['\n'] _ _ (by decide) (by decide) (by decide)]
  rw [replaceL_skipx "`tasks`".data _ ['\n'] _ _ (by decide) (by decide) (by decide)]
  rw [replaceL_skipx "profiles".data _ ['\n'] _ _ (by decide) (by decide) (by decide)]
  rw [replaceL_skipx "domains".data _ ['\n'] _ _ (by decide) (by decide) (by decide)]
  rw [replaceL_skipx "areas".data _ ['\n'] _ _ (by decide) (by decide) (by decide)]
  rw [replaceL_skipx "tasks".data _ ['\n'] _ _ (by decide) (by decide) (by decide)]
  rfl


theorem substTables_demo_l1 (x : List Char) (hx : x ≠ [])
    (hsafe : ∀ c ∈ x, c ∉ badPrefixChars) :
    substTables x "INSERT INTO `profiles` VALUES (1);".data
      = "INSERT INTO `".data ++ (x ++ ("_".data ++ (x ++ ("_profiles".data ++ "` VALUES (1);".data)))) := by
  have hbq0 : ∀ c ∈ x, c ∉ "`profiles`".data := safe_disj x hsafe "`profiles`".data (by decide)
  have hbq1 : ∀ c ∈ x, c ∉ "`domains`".data := safe_disj x hsafe "`domains`".data (by decide)
  have hbq2 : ∀ c ∈ x, c ∉ "`areas`".data := safe_disj x hsafe "`areas`".data (by decide)
  have hbq3 : ∀ c ∈ x, c ∉ "`tasks`".data := safe_disj x hsafe "`tasks`".data (by decide)
  have hbr0 : ∀ c ∈ x, c ∉ "profiles".data := safe_disj x hsafe "profiles".data (by decide)
  have hbr1 : ∀ c ∈ x, c ∉ "domains".data := safe_disj x hsafe "domains".data (by decide)
  have hbr2 : ∀ c ∈ x, c ∉ "areas".data := safe_disj x hsafe "areas".data (by decide)
  have hbr3 : ∀ c ∈ x, c ∉ "tasks".data := safe_disj x hsafe "tasks".data (by decide)
  unfold substTables
  simp only []
  have e0 : replaceL "`profiles`".data ("`".data ++ x ++ "_profiles`".data) ("INSERT INTO `profiles` VALUES (1);".data)
      = "INSERT INTO `".data ++ ((x ++ "_profiles`".data) ++ " VALUES (1);".data) := rfl
  rw [e0]
  rw [show "INSERT INTO `".data ++ ((x ++ "_profiles`".data) ++ " VALUES (1);".data)
      = "INSERT INTO `".data ++ (x ++ ("_profiles`".data ++ " VALUES (1);".data)) from by simp only [List.append_assoc]]
  rw [replaceL_skipx "`domains`".data ("`".data ++ x ++ "_domains`".data) x ("INSERT INTO `".data) ("_profiles`".data ++ " VALUES (1);".data) (by decide) hx hbq1]
  have ea1 : replaceL "`domains`".data ("`".data ++ x ++ "_domains`".data) ("INSERT INTO `".data) = "INSERT INTO `".data := rfl
  have eb1 : replaceL "`domains`".data ("`".data ++ x ++ "_domains`".data) ("_profiles`".data ++ " VALUES (1);".data) = "_profiles`".data ++ " VALUES (1);".data := rfl
  rw [ea1, eb1]
  rw [replaceL_skipx "`areas`".data ("`".data ++ x ++ "_areas`".data) x ("INSERT INTO `".data) ("_profiles`".data ++ " VALUES (1);".data) (by decide) hx hbq2]
  have ea2 : replaceL "`areas`".data ("`".data ++ x ++ "_areas`".data) ("INSERT INTO `".data) = "INSERT INTO `".data := rfl
  have eb2 : replaceL "`areas`".data ("`".data ++ x ++ "_areas`".data) ("_profiles`".data ++ " VALUES (1);".data) = "_profiles`".data ++ " VALUES (1);".data := rfl
  rw [ea2, eb2]
  rw [replaceL_skipx "`tasks`".data ("`".data ++ x ++ "_tasks`".data) x ("INSERT INTO `".data) ("_profiles`".data ++ " VALUES (1);".data) (by decide) hx hbq3]
  have ea3 : replaceL "`tasks`".data ("`".data ++ x ++ "_tasks`".data) ("INSERT INTO `".data) = "INSERT INTO `".data := rfl
  have eb3 : replaceL "`tasks`".data ("`".data ++ x ++ "_tasks`".data) ("_profiles`".data ++ " VALUES (1);".data) = "_profiles`".data ++ " VALUES (1);".data := rfl
  rw [ea3, eb3]
  rw [replaceL_skipx "profiles".data (x ++ "_profiles".data) x ("INSERT INTO `".data) ("_profiles`".data ++ " VALUES (1);".data) (by decide) hx hbr0]
  have ea4 : replaceL "profiles".data (x ++ "_profiles".data) ("INSERT INTO `".data) = "INSERT INTO `".data := rfl
  have eb4 : replaceL "profiles".data (x ++ "_profiles".data) ("_profiles`".data ++ " VALUES (1);".data)
      = "_".data ++ ((x ++ "_profiles".data) ++ "` VALUES (1);".data) := rfl
  rw [ea4, eb4]
  rw [show "INSERT INTO `".data ++ (x ++ ("_".data ++ ((x ++ "_profiles".data) ++ "` VALUES (1);".data)))
      = "INSERT INTO `".data ++ (x ++ ("_".data ++ (x ++ ("_profiles".data ++ "` VALUES (1);".data)))) from by simp only [List.append_assoc]]
  rw [replaceL_skipx "domains".data (x ++ "_domains".data) x ("INSERT INTO `".data) ("_".data ++ (x ++ ("_profiles".data ++ "` VALUES (1);".data))) (by decide) hx hbr1]
  rw [replaceL_skipx "domains".data (x ++ "_domains".data) x ("_".data) ("_profiles".data ++ "` VALUES (1);".data) (by decide) hx hbr1]
  have ea5 : replaceL "domains".data (x ++ "_domains".data) ("INSERT INTO `".data) = "INSERT INTO `".data := rfl
  have em5 : replaceL "domains".data (x ++ "_domains".data) ("_".data) = "_".data := rfl
  have eb5 : replaceL "domains".data (x ++ "_domains".data) ("_profiles".data ++ "` VALUES (1);".data) = "_profiles".data ++ "` VALUES (1);".data := rfl
  rw [ea5, em5, eb5]
  rw [replaceL_skipx "areas".data (x ++ "_areas".data) x ("INSERT INTO `".data) ("_".data ++ (x ++ ("_profiles".data ++ "` VALUES (1);".data))) (by decide) hx hbr2]
  rw [replaceL_skipx "areas".data (x ++ "_areas".data) x ("_".data) ("_profiles".data ++ "` VALUES (1);".data) (by decide) hx hbr2]
  have ea6 : replaceL "areas".data (x ++ "_areas".data) ("INSERT INTO `".data) = "INSERT INTO `".data := rfl
  have em6 : replaceL "areas".data (x ++ "_areas".data) ("_".data) = "_".data := rfl
  have eb6 : replaceL "areas".data (x ++ "_areas".data) ("_profiles".data ++ "` VALUES (1);".data) = "_profiles".data ++ "` VALUES (1);".data := rfl
  rw [ea6, em6, eb6]
  rw [replaceL_skipx "tasks".data (x ++ "_tasks".data) x ("INSERT INTO `".data) ("_".data ++ (x ++ ("_profiles".data ++ "` VALUES (1);".data))) (by decide) hx hbr3]
  rw [replaceL_skipx "tasks".data (x ++ "_tasks".data) x ("_".data) ("_profiles".data ++ "` VALUES (1);".data) (by decide) hx hbr3]
  have ea7 : replaceL "tasks".data (x ++ "_tasks".data) ("INSERT INTO `".data) = "INSERT INTO `".data := rfl
  have em7 : replaceL "tasks".data (x ++ "_tasks".data) ("_".data) = "_".data := rfl
  have eb7 : replaceL "tasks".data (x ++ "_tasks".data) ("_profiles".data ++ "` VALUES (1);".data) = "_profiles".data ++ "` VALUES (1);".data := rfl
  rw [ea7, em7, eb7]

theorem substTables_demo_l2 (x : List Char) (hx : x ≠ [])
    (hsafe : ∀ c ∈ x, c ∉ badPrefixChars) :
    substTables x "INSERT INTO `domains` VALUES (1);".data
      = "INSERT INTO `".data ++ (x ++ ("_".data ++ (x ++ ("_domains".data ++ "` VALUES (1);".data)))) := by
  have hbq0 : ∀ c ∈ x, c ∉ "`profiles`".data := safe_disj x hsafe "`profiles`".data (by decide)
  have hbq1 : ∀ c ∈ x, c ∉ "`domains`".data := safe_disj x hsafe "`domains`".data (by decide)
  have hbq2 : ∀ c ∈ x, c ∉ "`areas`".data := safe_disj x hsafe "`areas`".data (by decide)
  have hbq3 : ∀ c ∈ x, c ∉ "`tasks`".data := safe_disj x hsafe "`tasks`".data (by decide)
  have hbr0 : ∀ c ∈ x, c ∉ "profiles".data := safe_disj x hsafe "profiles".data (by decide)
  have hbr1 : ∀ c ∈ x, c ∉ "domains".data := safe_disj x hsafe "domains".data (by decide)
  have hbr2 : ∀ c ∈ x, c ∉ "areas".data := safe_disj x hsafe "areas".data (by decide)
  have hbr3 : ∀ c ∈ x, c ∉ "tasks".data := safe_disj x hsafe "tasks".data (by decide)
  unfold substTables
  simp only []
  have e0 : replaceL "`domains`".data ("`".data ++ x ++ "_domains`".data) (replaceL "`profiles`".data ("`".data ++ x ++ "_profiles`".data) ("INSERT INTO `domains` VALUES (1);".data))
      = "INSERT INTO `".data ++ ((x ++ "_domains`".data) ++ " VALUES (1);".data) := rfl
  rw [e0]
  rw [show "INSERT INTO `".data ++ ((x ++ "_domains`".data) ++ " VALUES (1);".data)
      = "INSERT INTO `".data ++ (x ++ ("_domains`".data ++ " VALUES (1);".data)) from by simp only [List.append_assoc]]
  rw [replaceL_skipx "`areas`".data ("`".data ++ x ++ "_areas`".data) x ("INSERT INTO `".data) ("_domains`".data ++ " VALUES (1);".data) (by decide) hx hbq2]
  have ea1 : replaceL "`areas`".data ("`".data ++ x ++ "_areas`".data) ("INSERT INTO `".data) = "INSERT INTO `".data := rfl
  have eb1 : replaceL "`areas`".data ("`".data ++ x ++ "_areas`".data) ("_domains`".data ++ " VALUES (1);".data) = "_domains`".data ++ " VALUES (1);".data := rfl
  rw [ea1, eb1]
  rw [replaceL_skipx "`tasks`".data ("`".data ++ x ++ "_tasks`".data) x ("INSERT INTO `".data) ("_domains`".data ++ " VALUES (1);".data) (by decide) hx hbq3]
  have ea2 : replaceL "`tasks`".data ("`".data ++ x ++ "_tasks`".data) ("INSERT INTO `".data) = "INSERT INTO `".data := rfl
  have eb2 : replaceL "`tasks`".data ("`".data ++ x ++ "_tasks`".data) ("_domains`".data ++ " VALUES (1);".data) = "_domains`".data ++ " VALUES (1);".data := rfl
  rw [ea2, eb2]
  rw [replaceL_skipx "profiles".data (x ++ "_profiles".data) x ("INSERT INTO `".data) ("_domains`".data ++ " VALUES (1);".data) (by decide) hx hbr0]
  have ea3 : replaceL "profiles".data (x ++ "_profiles".data) ("INSERT INTO `".data) = "INSERT INTO `".data := rfl
  have eb3 : replaceL "profiles".data (x ++ "_profiles".data) ("_domains`".data ++ " VALUES (1);".data) = "_domains`".data ++ " VALUES (1);".data := rfl
  rw [ea3, eb3]
  rw [replaceL_skipx "domains".data (x ++ "_domains".data) x ("INSERT INTO `".data) ("_domains`".data ++ " VALUES (1);".data) (by decide) hx hbr1]
  have ea4 : replaceL "domains".data (x ++ "_domains".data) ("INSERT INTO `".data) = "INSERT INTO `".data := rfl
  have eb4 : replaceL "domains".data (x ++ "_domains".data) ("_domains`".data ++ " VALUES (1);".data)
      = "_".data ++ ((x ++ "_domains".data) ++ "` VALUES (1);".data) := rfl
  rw [ea4, eb4]
  rw [show "INSERT INTO `".data ++ (x ++ ("_".data ++ ((x ++ "_domains".data) ++ "` VALUES (1);".data)))
      = "INSERT INTO `".data ++ (x ++ ("_".data ++ (x ++ ("_domains".data ++ "` VALUES (1);".data)))) from by simp only [List.append_assoc]]
  rw [replaceL_skipx "areas".data (x ++ "_areas".data) x ("INSERT INTO `".data) ("_".data ++ (x ++ ("_domains".data ++ "` VALUES (1);".data))) (by decide) hx hbr2]
  rw [replaceL_skipx "areas".data (x ++ "_areas".data) x ("_".data) ("_domains".data ++ "` VALUES (1);".data) (by decide) hx hbr2]
  have ea5 : replaceL "areas".data (x ++ "_areas".data) ("INSERT INTO `".data) = "INSERT INTO `".data := rfl
  have em5 : replaceL "areas".data (x ++ "_areas".data) ("_".data) = "_".data := rfl
  have eb5 : replaceL "areas".data (x ++ "_areas".data) ("_domains".data ++ "` VALUES (1);".data) = "_domains".data ++ "` VALUES (1);".data := rfl
  rw [ea5, em5, eb5]
  rw [replaceL_skipx "tasks".data (x ++ "_tasks".data) x ("INSERT INTO `".data) ("_".data ++ (x ++ ("_domains".data ++ "` VALUES (1);".data))) (by decide) hx hbr3]
  rw [replaceL_skipx "tasks".data (x ++ "_tasks".data) x ("_".data) ("_domains".data ++ "` VALUES (1);".data) (by decide) hx hbr3]
  have ea6 : replaceL "tasks".data (x ++ "_tasks".data) ("INSERT INTO `".data) = "INSERT INTO `".data := rfl
  have em6 : replaceL "tasks".data (x ++ "_tasks".data) ("_".data) = "_".data := rfl
  have eb6 : replaceL "tasks".data (x ++ "_tasks".data) ("_domains".data ++ "` VALUES (1);".data) = "_domains".data ++ "` VALUES (1);".data := rfl
  rw [ea6, em6, eb6]

theorem substTables_demo_l3 (x : List Char) (hx : x ≠ [])
    (hsafe : ∀ c ∈ x, c ∉ badPrefixChars) :
    substTables x "INSERT INTO `areas` VALUES (1);".data
      = "INSERT INTO `".data ++ (x ++ ("_".data ++ (x ++ ("_areas".data ++ "` VALUES (1);".data)))) := by
  have hbq0 : ∀ c ∈ x, c ∉ "`profiles`".data := safe_disj x hsafe "`profiles`".data (by decide)
  have hbq1 : ∀ c ∈ x, c ∉ "`domains`".data := safe_disj x hsafe "`domains`".data (by decide)
  have hbq2 : ∀ c ∈ x, c ∉ "`areas`".data := safe_disj x hsafe "`areas`".data (by decide)
  have hbq3 : ∀ c ∈ x, c ∉ "`tasks`".data := safe_disj x hsafe "`tasks`".data (by decide)
  have hbr0 : ∀ c ∈ x, c ∉ "profiles".data := safe_disj x hsafe "profiles".data (by decide)
  have hbr1 : ∀ c ∈ x, c ∉ "domains".data := safe_disj x hsafe "domains".data (by decide)
  have hbr2 : ∀ c ∈ x, c ∉ "areas".data := safe_disj x hsafe "areas".data (by decide)
  have hbr3 : ∀ c ∈ x, c ∉ "tasks".data := safe_disj x hsafe "tasks".data (by decide)
  unfold substTables
  simp only []
  have e0 : replaceL "`areas`".data ("`".data ++ x ++ "_areas`".data) (replaceL "`domains`".data ("`".data ++ x ++ "_domains`".data) (replaceL "`profiles`".data ("`".data ++ x ++ "_profiles`".data) ("INSERT INTO `areas` VALUES (1);".data)))
      = "INSERT INTO `".data ++ ((x ++ "_areas`".data) ++ " VALUES (1);".data) := rfl
  rw [e0]
  rw [show "INSERT INTO `".data ++ ((x ++ "_areas`".data) ++ " VALUES (1);".data)
      = "INSERT INTO `".data ++ (x ++ ("_areas`".data ++ " VALUES (1);".data)) from by simp only [List.append_assoc]]
  rw [replaceL_skipx "`tasks`".data ("`".data ++ x ++ "_tasks`".data) x ("INSERT INTO `".data) ("_areas`".data ++ " VALUES (1);".data) (by decide) hx hbq3]
  have ea1 : replaceL "`tasks`".data ("`".data ++ x ++ "_tasks`".data) ("INSERT INTO `".data) = "INSERT INTO `".data := rfl
  have eb1 : replaceL "`tasks`".data ("`".data ++ x ++ "_tasks`".data) ("_areas`".data ++ " VALUES (1);".data) = "_areas`".data ++ " VALUES (1);".data := rfl
  rw [ea1, eb1]
  rw [replaceL_skipx "profiles".data (x ++ "_profiles".data) x ("INSERT INTO `".data) ("_areas`".data ++ " VALUES (1);".data) (by decide) hx hbr0]
  have ea2 : replaceL "profiles".data (x ++ "_profiles".data) ("INSERT INTO `".data) = "INSERT INTO `".data := rfl
  have eb2 : replaceL "profiles".data (x ++ "_profiles".data) ("_areas`".data ++ " VALUES (1);".data) = "_areas`".data ++ " VALUES (1);".data := rfl
  rw [ea2, eb2]
  rw [replaceL_skipx "domains".data (x ++ "_domains".data) x ("INSERT INTO `".data) ("_areas`".data ++ " VALUES (1);".data) (by decide) hx hbr1]
  have ea3 : replaceL "domains".data (x ++ "_domains".data) ("INSERT INTO `".data) = "INSERT INTO `".data := rfl
  have eb3 : replaceL "domains".data (x ++ "_domains".data) ("_areas`".data ++ " VALUES (1);".data) = "_areas`".data ++ " VALUES (1);".data := rfl
  rw [ea3, eb3]
  rw [replaceL_skipx "areas".data (x ++ "_areas".data) x ("INSERT INTO `".data) ("_areas`".data ++ " VALUES (1);".data) (by decide) hx hbr2]
  have ea4 : replaceL "areas".data (x ++ "_areas".data) ("INSERT INTO `".data) = "INSERT INTO `".data := rfl
  have eb4 : replaceL "areas".data (x ++ "_areas".data) ("_areas`".data ++ " VALUES (1);".data)
      = "_".data ++ ((x ++ "_areas".data) ++ "` VALUES (1);".data) := rfl
  rw [ea4, eb4]
  rw [show "INSERT INTO `".data ++ (x ++ ("_".data ++ ((x ++ "_areas".data) ++ "` VALUES (1);".data)))
      = "INSERT INTO `".data ++ (x ++ ("_".data ++ (x ++ ("_areas".data ++ "` VALUES (1);".data)))) from by simp only [List.append_assoc]]
  rw [replaceL_skipx "tasks".data (x ++ "_tasks".data) x ("INSERT INTO `".data) ("_".data ++ (x ++ ("_areas".data ++ "` VALUES (1);".data))) (by decide) hx hbr3]
  rw [replaceL_skipx "tasks".data (x ++ "_tasks".data) x ("_".data) ("_areas".data ++ "` VALUES (1);".data) (by decide) hx hbr3]
  have ea5 : replaceL "tasks".data (x ++ "_tasks".data) ("INSERT INTO `".data) = "INSERT INTO `".data := rfl
  have em5 : replaceL "tasks".data (x ++ "_tasks".data) ("_".data) = "_".data := rfl
  have eb5 : replaceL "tasks".data (x ++ "_tasks".data) ("_areas".data ++ "` VALUES (1);".data) = "_areas".data ++ "` VALUES (1);".data := rfl
  rw [ea5, em5, eb5]

theorem substTables_demo_l4 (x : List Char) (hx : x ≠ [])
    (hsafe : ∀ c ∈ x, c ∉ badPrefixChars) :
    substTables x "INSERT INTO `tasks` VALUES (1);".data
      = "INSERT INTO `".data ++ (x ++ ("_".data ++ (x ++ ("_tasks".data ++ "` VALUES (1);".data)))) := by
  have hbq0 : ∀ c ∈ x, c ∉ "`profiles`".data := safe_disj x hsafe "`profiles`".data (by decide)
  have hbq1 : ∀ c ∈ x, c ∉ "`domains`".data := safe_disj x hsafe "`domains`".data (by decide)
  have hbq2 : ∀ c ∈ x, c ∉ "`areas`".data := safe_disj x hsafe "`areas`".data (by decide)
  have hbq3 : ∀ c ∈ x, c ∉ "`tasks`".data := safe_disj x hsafe "`tasks`".data (by decide)
  have hbr0 : ∀ c ∈ x, c ∉ "profiles".data := safe_disj x hsafe "profiles".data (by decide)
  have hbr1 : ∀ c ∈ x, c ∉ "domains".data := safe_disj x hsafe "domains".data (by decide)
  have hbr2 : ∀ c ∈ x, c ∉ "areas".data := safe_disj x hsafe "areas".data (by decide)
  have hbr3 : ∀ c ∈ x, c ∉ "tasks".data := safe_disj x hsafe "tasks".data (by decide)
  unfold substTables
  simp only []
  have e0 : replaceL "`tasks`".data ("`".data ++ x ++ "_tasks`".data) (replaceL "`areas`".data ("`".data ++ x ++ "_areas`".data) (replaceL "`domains`".data ("`".data ++ x ++ "_domains`".data) (replaceL "`profiles`".data ("`".data ++ x ++ "_profiles`".data) ("INSERT INTO `tasks` VALUES (1);".data))))
      = "INSERT INTO `".data ++ ((x ++ "_tasks`".data) ++ " VALUES (1);".data) := rfl
  rw [e0]
  rw [show "INSERT INTO `".data ++ ((x ++ "_tasks`".data) ++ " VALUES (1);".data)
      = "INSERT INTO `".data ++ (x ++ ("_tasks`".data ++ " VALUES (1);".data)) from by simp only [List.append_assoc]]
  rw [replaceL_skipx "profiles".data (x ++ "_profiles".data) x ("INSERT INTO `".data) ("_tasks`".data ++ " VALUES (1);".data) (by decide) hx hbr0]
  have ea1 : replaceL "profiles".data (x ++ "_profiles".data) ("INSERT INTO `".data) = "INSERT INTO `".data := rfl
  have eb1 : replaceL "profiles".data (x ++ "_profiles".data) ("_tasks`".data ++ " VALUES (1);".data) = "_tasks`".data ++ " VALUES (1);".data := rfl
  rw [ea1, eb1]
  rw [replaceL_skipx "domains".data (x ++ "_domains".data) x ("INSERT INTO `".data) ("_tasks`".data ++ " VALUES (1);".data) (by decide) hx hbr1]
  have ea2 : replaceL "domains".data (x ++ "_domains".data) ("INSERT INTO `".data) = "INSERT INTO `".data := rfl
  have eb2 : replaceL "domains".data (x ++ "_domains".data) ("_tasks`".data ++ " VALUES (1);".data) = "_tasks`".data ++ " VALUES (1);".data := rfl
  rw [ea2, eb2]
  rw [replaceL_skipx "areas".data (x ++ "_areas".data) x ("INSERT INTO `".data) ("_tasks`".data ++ " VALUES (1);".data) (by decide) hx hbr2]
  have ea3 : replaceL "areas".data (x ++ "_areas".data) ("INSERT INTO `".data) = "INSERT INTO `".data := rfl
  have eb3 : replaceL "areas".data (x ++ "_areas".data) ("_tasks`".data ++ " VALUES (1);".data) = "_tasks`".data ++ " VALUES (1);".data := rfl
  rw [ea3, eb3]
  rw [replaceL_skipx "tasks".data (x ++ "_tasks".data) x ("INSERT INTO `".data) ("_tasks`".data ++ " VALUES (1);".data) (by decide) hx hbr3]
  have ea4 : replaceL "tasks".data (x ++ "_tasks".data) ("INSERT INTO `".data) = "INSERT INTO `".data := rfl
  have eb4 : replaceL "tasks".data (x ++ "_tasks".data) ("_tasks`".data ++ " VALUES (1);".data)
      = "_".data ++ ((x ++ "_tasks".data) ++ "` VALUES (1);".data) := rfl
  rw [ea4, eb4]
  rw [show "INSERT INTO `".data ++ (x ++ ("_".data ++ ((x ++ "_tasks".data) ++ "` VALUES (1);".data)))
      = "INSERT INTO `".data ++ (x ++ ("_".data ++ (x ++ ("_tasks".data ++ "` VALUES (1);".data)))) from by simp only [List.append_assoc]]

set_option maxHeartbeats 1000000 in
theorem substTables_demo_l5 (x : List Char) (hx : x ≠ [])
    (hsafe : ∀ c ∈ x, c ∉ badPrefixChars) :
    substTables x "INSERT INTO profiles VALUES (1);".data
      = "INSERT INTO ".data ++ (x ++ ("_profiles".data ++ " VALUES (1);".data)) := by
  have hbr0 : ∀ c ∈ x, c ∉ "profiles".data := safe_disj x hsafe "profiles".data (by decide)
  have hbr1 : ∀ c ∈ x, c ∉ "domains".data := safe_disj x hsafe "domains".data (by decide)
  have hbr2 : ∀ c ∈ x, c ∉ "areas".data := safe_disj x hsafe "areas".data (by decide)
  have hbr3 : ∀ c ∈ x, c ∉ "tasks".data := safe_disj x hsafe "tasks".data (by decide)
  unfold substTables
  simp only []
  have ebt : replaceL "`tasks`".data ("`".data ++ x ++ "_tasks`".data) (replaceL "`areas`".data ("`".data ++ x ++ "_areas`".data) (replaceL "`domains`".data ("`".data ++ x ++ "_domains`".data) (replaceL "`profiles`".data ("`".data ++ x ++ "_profiles`".data) ("INSERT INTO profiles VALUES (1);".data))))
      = "INSERT INTO profiles VALUES (1);".data := rfl
  rw [ebt]
  have e0 : replaceL "profiles".data (x ++ "_profiles".data) ("INSERT INTO profiles VALUES (1);".data)
      = "INSERT INTO ".data ++ ((x ++ "_profiles".data) ++ " VALUES (1);".data) := rfl
  rw [e0]
  rw [show "INSERT INTO ".data ++ ((x ++ "_profiles".data) ++ " VALUES (1);".data)
      = "INSERT INTO ".data ++ (x ++ ("_profiles".data ++ " VALUES (1);".data)) from by simp only [List.append_assoc]]
  rw [replaceL_skipx "domains".data (x ++ "_domains".data) x ("INSERT INTO ".data) ("_profiles".data ++ " VALUES (1);".data) (by decide) hx hbr1]
  have ea1 : replaceL "domains".data (x ++ "_domains".data) ("INSERT INTO ".data) = "INSERT INTO ".data := rfl
  have eb1 : replaceL "domains".data (x ++ "_domains".data) ("_profiles".data ++ " VALUES (1);".data) = "_profiles".data ++ " VALUES (1);".data := rfl
  rw [ea1, eb1]
  rw [replaceL_skipx "areas".data (x ++ "_areas".data) x ("INSERT INTO ".data) ("_profiles".data ++ " VALUES (1);".data) (by decide) hx hbr2]
  have ea2 : replaceL "areas".data (x ++ "_areas".data) ("INSERT INTO ".data) = "INSERT INTO ".data := rfl
  have eb2 : replaceL "areas".data (x ++ "_areas".data) ("_profiles".data ++ " VALUES (1);".data) = "_profiles".data ++ " VALUES (1);".data := rfl
  rw [ea2, eb2]
  rw [replaceL_skipx "tasks".data (x ++ "_tasks".data) x ("INSERT INTO ".data) ("_profiles".data ++ " VALUES (1);".data) (by decide) hx hbr3]
  have ea3 : replaceL "tasks".data (x ++ "_tasks".data) ("INSERT INTO ".data) = "INSERT INTO ".data := rfl
  have eb3 : replaceL "tasks".data (x ++ "_tasks".data) ("_profiles".data ++ " VALUES (1);".data) = "_profiles".data ++ " VALUES (1);".data := rfl
  rw [ea3, eb3]

set_option maxHeartbeats 1000000 in
theorem substTables_demo_l6 (x : List Char) (hx : x ≠ [])
    (hsafe : ∀ c ∈ x, c ∉ badPrefixChars) :
    substTables x "INSERT INTO domains VALUES (1);".data
      = "INSERT INTO ".data ++ (x ++ ("_domains".data ++ " VALUES (1);".data)) := by
  have hbr0 : ∀ c ∈ x, c ∉ "profiles".data := safe_disj x hsafe "profiles".data (by decide)
  have hbr1 : ∀ c ∈ x, c ∉ "domains".data := safe_disj x hsafe "domains".data (by decide)
  have hbr2 : ∀ c ∈ x, c ∉ "areas".data := safe_disj x hsafe "areas".data (by decide)
  have hbr3 : ∀ c ∈ x, c ∉ "tasks".data := safe_disj x hsafe "tasks".data (by decide)
  unfold substTables
  simp only []
  have ebt : replaceL "`tasks`".data ("`".data ++ x ++ "_tasks`".data) (replaceL "`areas`".data ("`".data ++ x ++ "_areas`".data) (replaceL "`domains`".data ("`".data ++ x ++ "_domains`".data) (replaceL "`profiles`".data ("`".data ++ x ++ "_profiles`".data) ("INSERT INTO domains VALUES (1);".data))))
      = "INSERT INTO domains VALUES (1);".data := rfl
  rw [ebt]
  have epre0 : replaceL "profiles".data (x ++ "_profiles".data) ("INSERT INTO domains VALUES (1);".data) = "INSERT INTO domains VALUES (1);".data := rfl
  rw [epre0]
  have e0 : replaceL "domains".data (x ++ "_domains".data) ("INSERT INTO domains VALUES (1);".data)
      = "INSERT INTO ".data ++ ((x ++ "_domains".data) ++ " VALUES (1);".data) := rfl
  rw [e0]
  rw [show "INSERT INTO ".data ++ ((x ++ "_domains".data) ++ " VALUES (1);".data)
      = "INSERT INTO ".data ++ (x ++ ("_domains".data ++ " VALUES (1);".data)) from by simp only [List.append_assoc]]
  rw [replaceL_skipx "areas".data (x ++ "_areas".data) x ("INSERT INTO ".data) ("_domains".data ++ " VALUES (1);".data) (by decide) hx hbr2]
  have ea1 : replaceL "areas".data (x ++ "_areas".data) ("INSERT INTO ".data) = "INSERT INTO ".data := rfl
  have eb1 : replaceL "areas".data (x ++ "_areas".data) ("_domains".data ++ " VALUES (1);".data) = "_domains".data ++ " VALUES (1);".data := rfl
  rw [ea1, eb1]
  rw [replaceL_skipx "tasks".data (x ++ "_tasks".data) x ("INSERT INTO ".data) ("_domains".data ++ " VALUES (1);".data) (by decide) hx hbr3]
  have ea2 : replaceL "tasks".data (x ++ "_tasks".data) ("INSERT INTO ".data) = "INSERT INTO ".data := rfl
  have eb2 : replaceL "tasks".data (x ++ "_tasks".data) ("_domains".data ++ " VALUES (1);".data) = "_domains".data ++ " VALUES (1);".data := rfl
  rw [ea2, eb2]

set_option maxHeartbeats 1000000 in
theorem substTables_demo_l7 (x : List Char) (hx : x ≠ [])
    (hsafe : ∀ c ∈ x, c ∉ badPrefixChars) :
    substTables x "INSERT INTO areas VALUES (1);".data
      = "INSERT INTO ".data ++ (x ++ ("_areas".data ++ " VALUES (1);".data)) := by
  have hbr0 : ∀ c ∈ x, c ∉ "profiles".data := safe_disj x hsafe "profiles".data (by decide)
  have hbr1 : ∀ c ∈ x, c ∉ "domains".data := safe_disj x hsafe "domains".data (by decide)
  have hbr2 : ∀ c ∈ x, c ∉ "areas".data := safe_disj x hsafe "areas".data (by decide)
  have hbr3 : ∀ c ∈ x, c ∉ "tasks".data := safe_disj x hsafe "tasks".data (by decide)
  unfold substTables
  simp only []
  have ebt : replaceL "`tasks`".data ("`".data ++ x ++ "_tasks`".data) (replaceL "`areas`".data ("`".data ++ x ++ "_areas`".data) (replaceL "`domains`".data ("`".data ++ x ++ "_domains`".data) (replaceL "`profiles`".data ("`".data ++ x ++ "_profiles`".data) ("INSERT INTO areas VALUES (1);".data))))
      = "INSERT INTO areas VALUES (1);".data := rfl
  rw [ebt]
  have epre0 : replaceL "profiles".data (x ++ "_profiles".data) ("INSERT INTO areas VALUES (1);".data) = "INSERT INTO areas VALUES (1);".data := rfl
  rw [epre0]
  have epre1 : replaceL "domains".data (x ++ "_domains".data) ("INSERT INTO areas VALUES (1);".data) = "INSERT INTO areas VALUES (1);".data := rfl
  rw [epre1]
  have e0 : replaceL "areas".data (x ++ "_areas".data) ("INSERT INTO areas VALUES (1);".data)
      = "INSERT INTO ".data ++ ((x ++ "_areas".data) ++ " VALUES (1);".data) := rfl
  rw [e0]
  rw [show "INSERT INTO ".data ++ ((x ++ "_areas".data) ++ " VALUES (1);".data)
      = "INSERT INTO ".data ++ (x ++ ("_areas".data ++ " VALUES (1);".data)) from by simp only [List.append_assoc]]
  rw [replaceL_skipx "tasks".data (x ++ "_tasks".data) x ("INSERT INTO ".data) ("_areas".data ++ " VALUES (1);".data) (by decide) hx hbr3]
  have ea1 : replaceL "tasks".data (x ++ "_tasks".data) ("INSERT INTO ".data) = "INSERT INTO ".data := rfl
  have eb1 : replaceL "tasks".data (x ++ "_tasks".data) ("_areas".data ++ " VALUES (1);".data) = "_areas".data ++ " VALUES (1);".data := rfl
  rw [ea1, eb1]

set_option maxHeartbeats 1000000 in
theorem substTables_demo_l8 (x : List Char) (hx : x ≠ [])
    (hsafe : ∀ c ∈ x, c ∉ badPrefixChars) :
    substTables x "INSERT INTO tasks VALUES (1);".data
      = "INSERT INTO ".data ++ (x ++ ("_tasks".data ++ " VALUES (1);".data)) := by
  have hbr0 : ∀ c ∈ x, c ∉ "profiles".data := safe_disj x hsafe "profiles".data (by decide)
  have hbr1 : ∀ c ∈ x, c ∉ "domains".data := safe_disj x hsafe "domains".data (by decide)
  have hbr2 : ∀ c ∈ x, c ∉ "areas".data := safe_disj x hsafe "areas".data (by decide)
  have hbr3 : ∀ c ∈ x, c ∉ "tasks".data := safe_disj x hsafe "tasks".data (by decide)
  unfold substTables
  simp only []
  have ebt : replaceL "`tasks`".data ("`".data ++ x ++ "_tasks`".data) (replaceL "`areas`".data ("`".data ++ x ++ "_areas`".data) (replaceL "`domains`".data ("`".data ++ x ++ "_domains`".data) (replaceL "`profiles`".data ("`".data ++ x ++ "_profiles`".data) ("INSERT INTO tasks VALUES (1);".data))))
      = "INSERT INTO tasks VALUES (1);".data := rfl
  rw [ebt]
  have epre0 : replaceL "profiles".data (x ++ "_profiles".data) ("INSERT INTO tasks VALUES (1);".data) = "INSERT INTO tasks VALUES (1);".data := rfl
  rw [epre0]
  have epre1 : replaceL "domains".data (x ++ "_domains".data) ("INSERT INTO tasks VALUES (1);".data) = "INSERT INTO tasks VALUES (1);".data := rfl
  rw [epre1]
  have epre2 : replaceL "areas".data (x ++ "_areas".data) ("INSERT INTO tasks VALUES (1);".data) = "INSERT INTO tasks VALUES (1);".data := rfl
  rw [epre2]
  have e0 : replaceL "tasks".data (x ++ "_tasks".data) ("INSERT INTO tasks VALUES (1);".data)
      = "INSERT INTO ".data ++ ((x ++ "_tasks".data) ++ " VALUES (1);".data) := rfl
  rw [e0]
  rw [show "INSERT INTO ".data ++ ((x ++ "_tasks".data) ++ " VALUES (1);".data)
      = "INSERT INTO ".data ++ (x ++ ("_tasks".data ++ " VALUES (1);".data)) from by simp only [List.append_assoc]]

set_option maxHeartbeats 1000000 in
theorem substTables_demo (x : List Char) (hx : x ≠ [])
    (hsafe : ∀ c ∈ x, c ∉ badPrefixChars) :
    substTables x rewriterDemoSql
      = "INSERT INTO `".data ++ (x ++ ("_".data ++ (x ++ ("_profiles".data ++ ("` VALUES (1);".data ++ ('\n' :: ("INSERT INTO `".data ++ (x ++ ("_".data ++ (x ++ ("_domains".data ++ ("` VALUES (1);".data ++ ('\n' :: ("INSERT INTO `".data ++ (x ++ ("_".data ++ (x ++ ("_areas".data ++ ("` VALUES (1);".data ++ ('\n' :: ("INSERT INTO `".data ++ (x ++ ("_".data ++ (x ++ ("_tasks".data ++ ("` VALUES (1);".data ++ ('\n' :: ("INSERT INTO ".data ++ (x ++ ("_profiles".data ++ (" VALUES (1);".data ++ ('\n' :: ("INSERT INTO ".data ++ (x ++ ("_domains".data ++ (" VALUES (1);".data ++ ('\n' :: ("INSERT INTO ".data ++ (x ++ ("_areas".data ++ (" VALUES (1);".data ++ ('\n' :: ("INSERT INTO ".data ++ (x ++ ("_tasks".data ++ " VALUES (1);".data))))))))))))))))))))))))))))))))))))))))))))) := by
  show substTables x ("INSERT INTO `profiles` VALUES (1);".data ++ ('\n' :: ("INSERT INTO `domains` VALUES (1);".data ++ ('\n' :: ("INSERT INTO `areas` VALUES (1);".data ++ ('\n' :: ("INSERT INTO `tasks` VALUES (1);".data ++ ('\n' :: ("INSERT INTO profiles VALUES (1);".data ++ ('\n' :: ("INSERT INTO domains VALUES (1);".data ++ ('\n' :: ("INSERT INTO areas VALUES (1);".data ++ ('\n' :: ("INSERT INTO tasks VALUES (1);".data))))))))))))))) = _
  rw [substTables_split_nl]
  rw [substTables_split_nl]
  rw [substTables_split_nl]
  rw [substTables_split_nl]
  rw [substTables_split_nl]
  rw [substTables_split_nl]
  rw [substTables_split_nl]
  rw [substTables_demo_l1 x hx hsafe]
  rw [substTables_demo_l2 x hx hsafe]
  rw [substTables_demo_l3 x hx hsafe]
  rw [substTables_demo_l4 x hx hsafe]
  rw [substTables_demo_l5 x hx hsafe]
  rw [substTables_demo_l6 x hx hsafe]
  rw [substTables_demo_l7 x hx hsafe]
  rw [substTables_demo_l8 x hx hsafe]
  simp only [List.append_assoc]


theorem trimL_frag_x (a a2 x b : List Char) (hx : x ≠ [])
    (hrb : rstripL b = b) (hbne : b ≠ [])
    (hl : lstripL (a ++ (x ++ b)) = a2 ++ (x ++ b)) :
    trimL (a ++ (x ++ b)) = a2 ++ (x ++ b) := by
  unfold trimL
  rw [rstripL_id_of_append a _ (rstripL_id_of_append x b hrb hbne)
    (append_ne_nil_l x b hx), hl]

theorem trimL_frag_x2 (a a2 x m b : List Char) (hx : x ≠ []) (hm : m ≠ [])
    (hrb : rstripL b = b) (hbne : b ≠ [])
    (hl : lstripL (a ++ (x ++ (m ++ (x ++ b)))) = a2 ++ (x ++ (m ++ (x ++ b)))) :
    trimL (a ++ (x ++ (m ++ (x ++ b)))) = a2 ++ (x ++ (m ++ (x ++ b))) := by
  unfold trimL
  rw [rstripL_id_of_append a _ (rstripL_id_of_append x _ (rstripL_id_of_append m _
    (rstripL_id_of_append x b hrb hbne) (append_ne_nil_l x b hx))
    (append_ne_nil_l m _ hm)) (append_ne_nil_l x _ hx), hl]

theorem nl_cons (l : List Char) : ['\n'] ++ l = '\n' :: l := rfl

theorem chain_x2 (a m b s x : List Char) :
    (a ++ (x ++ (m ++ (x ++ b)))) ++ s = a ++ (x ++ (m ++ (x ++ (b ++ s)))) := by
  simp only [List.append_assoc]

theorem chain_x1 (a b s x : List Char) :
    (a ++ (x ++ b)) ++ s = a ++ (x ++ (b ++ s)) := by
  simp only [List.append_assoc]

theorem dir_ins_bt (z : List Char) :
    isDirective ("INSERT INTO `".data ++ z) = false := rfl

theorem dir_ins (z : List Char) :
    isDirective ("INSERT INTO ".data ++ z) = false := rfl

set_option maxHeartbeats 1000000 in
/-- C1 corrected: on the demo text containing all four canonical table
names in both backtick-quoted and bare forms, for every safe prefix the
rewriter emits each bare reference as the prefixed name, but each
backtick-quoted reference comes out double-prefixed -- the bare-name
replacement pass re-matches inside the output of the quoted-name pass,
so no backtick-quoted reference appears as the singly-prefixed name the
spec promises. -/
theorem rewriter_backtick_double_prefix (x : List Char) (hsafe : safeX x) :
    migrationStatements x rewriterDemoSql
      = ["INSERT INTO `".data ++ (x ++ ("_".data ++ (x ++ "_profiles` VALUES (1)".data))),
         "INSERT INTO `".data ++ (x ++ ("_".data ++ (x ++ "_domains` VALUES (1)".data))),
         "INSERT INTO `".data ++ (x ++ ("_".data ++ (x ++ "_areas` VALUES (1)".data))),
         "INSERT INTO `".data ++ (x ++ ("_".data ++ (x ++ "_tasks` VALUES (1)".data))),
         "INSERT INTO ".data ++ (x ++ "_profiles VALUES (1)".data),
         "INSERT INTO ".data ++ (x ++ "_domains VALUES (1)".data),
         "INSERT INTO ".data ++ (x ++ "_areas VALUES (1)".data),
         "INSERT INTO ".data ++ (x ++ "_tasks VALUES (1)".data)] := by
  obtain ⟨hx, hs⟩ := hsafe
  have hnl : ∀ c ∈ x, c ≠ '\n' := safe_ne x hs '\n' (by decide)
  have hsemi : ∀ c ∈ x, c ≠ ';' := safe_ne x hs ';' (by decide)
  have hdashx : ∀ c ∈ x, c ∉ "--".data := safe_disj x hs "--".data (by decide)
  have hhashx : ∀ c ∈ x, c ∉ "#".data := safe_disj x hs "#".data (by decide)
  have hstage1 : removeSuffixLines rewriterDemoSql = rewriterDemoSql := by decide
  unfold migrationStatements
  rw [hstage1, substTables_demo x hx hs]
  have hlines : splitNL
      ("INSERT INTO `".data ++ (x ++ ("_".data ++ (x ++ ("_profiles".data ++ ("` VALUES (1);".data ++ ('\n' :: ("INSERT INTO `".data ++ (x ++ ("_".data ++ (x ++ ("_domains".data ++ ("` VALUES (1);".data ++ ('\n' :: ("INSERT INTO `".data ++ (x ++ ("_".data ++ (x ++ ("_areas".data ++ ("` VALUES (1);".data ++ ('\n' :: ("INSERT INTO `".data ++ (x ++ ("_".data ++ (x ++ ("_tasks".data ++ ("` VALUES (1);".data ++ ('\n' :: ("INSERT INTO ".data ++ (x ++ ("_profiles".data ++ (" VALUES (1);".data ++ ('\n' :: ("INSERT INTO ".data ++ (x ++ ("_domains".data ++ (" VALUES (1);".data ++ ('\n' :: ("INSERT INTO ".data ++ (x ++ ("_areas".data ++ (" VALUES (1);".data ++ ('\n' :: ("INSERT INTO ".data ++ (x ++ ("_tasks".data ++ " VALUES (1);".data))))))))))))))))))))))))))))))))))))))))))))))
      = ["INSERT INTO `".data ++ (x ++ ("_".data ++ (x ++ "_profiles` VALUES (1);".data))),
         "INSERT INTO `".data ++ (x ++ ("_".data ++ (x ++ "_domains` VALUES (1);".data))),
         "INSERT INTO `".data ++ (x ++ ("_".data ++ (x ++ "_areas` VALUES (1);".data))),
         "INSERT INTO `".data ++ (x ++ ("_".data ++ (x ++ "_tasks` VALUES (1);".data))),
         "INSERT INTO ".data ++ (x ++ "_profiles VALUES (1);".data),
         "INSERT INTO ".data ++ (x ++ "_domains VALUES (1);".data),
         "INSERT INTO ".data ++ (x ++ "_areas VALUES (1);".data),
         "INSERT INTO ".data ++ (x ++ "_tasks VALUES (1);".data)] := by
    show splitOnC '\n' ("INSERT INTO `".data ++ (x ++ ("_".data ++ (x ++ ("_profiles` VALUES (1);".data ++ ('\n' :: ("INSERT INTO `".data ++ (x ++ ("_".data ++ (x ++ ("_domains` VALUES (1);".data ++ ('\n' :: ("INSERT INTO `".data ++ (x ++ ("_".data ++ (x ++ ("_areas` VALUES (1);".data ++ ('\n' :: ("INSERT INTO `".data ++ (x ++ ("_".data ++ (x ++ ("_tasks` VALUES (1);".data ++ ('\n' :: ("INSERT INTO ".data ++ (x ++ ("_profiles VALUES (1);".data ++ ('\n' :: ("INSERT INTO ".data ++ (x ++ ("_domains VALUES (1);".data ++ ('\n' :: ("INSERT INTO ".data ++ (x ++ ("_areas VALUES (1);".data ++ ('\n' :: ("INSERT INTO ".data ++ (x ++ "_tasks VALUES (1);".data)))))))))))))))))))))))))))))))))))))) = _
    rw [splitOnC_line_x2 '\n' "INSERT INTO `".data x "_".data "_profiles` VALUES (1);".data _ (by decide) hnl (by decide) (by decide)]
    rw [splitOnC_line_x2 '\n' "INSERT INTO `".data x "_".data "_domains` VALUES (1);".data _ (by decide) hnl (by decide) (by decide)]
    rw [splitOnC_line_x2 '\n' "INSERT INTO `".data x "_".data "_areas` VALUES (1);".data _ (by decide) hnl (by decide) (by decide)]
    rw [splitOnC_line_x2 '\n' "INSERT INTO `".data x "_".data "_tasks` VALUES (1);".data _ (by decide) hnl (by decide) (by decide)]
    rw [splitOnC_line_x '\n' "INSERT INTO ".data x "_profiles VALUES (1);".data _ (by decide) hnl (by decide)]
    rw [splitOnC_line_x '\n' "INSERT INTO ".data x "_domains VALUES (1);".data _ (by decide) hnl (by decide)]
    rw [splitOnC_line_x '\n' "INSERT INTO ".data x "_areas VALUES (1);".data _ (by decide) hnl (by decide)]
    rw [splitOnC_last_x '\n' "INSERT INTO ".data x "_tasks VALUES (1);".data (by decide) hnl (by decide)]
  unfold stripComments
  rw [hlines]
  have hdb1 : containsSub "--".data ("_".data ++ (x ++ "_profiles` VALUES (1);".data)) = false := by
    rw [containsSub_split_block "--".data "_".data x "_profiles` VALUES (1);".data (by decide) hx hdashx]
    decide
  have hhb1 : containsSub "#".data ("_".data ++ (x ++ "_profiles` VALUES (1);".data)) = false := by
    rw [containsSub_split_block "#".data "_".data x "_profiles` VALUES (1);".data (by decide) hx hhashx]
    decide
  have hrb1 : rstripL ("_".data ++ (x ++ "_profiles` VALUES (1);".data)) = "_".data ++ (x ++ "_profiles` VALUES (1);".data) :=
    rstripL_id_of_append "_".data (x ++ "_profiles` VALUES (1);".data)
      (rstripL_id_of_append x "_profiles` VALUES (1);".data (by decide) (by decide)) (append_ne_nil_l x "_profiles` VALUES (1);".data hx)
  have hl1 : stripCommentLine ("INSERT INTO `".data ++ (x ++ ("_".data ++ (x ++ "_profiles` VALUES (1);".data)))) = some ("INSERT INTO `".data ++ (x ++ ("_".data ++ (x ++ "_profiles` VALUES (1);".data)))) :=
    stripCommentLine_block "INSERT INTO `".data x ("_".data ++ (x ++ "_profiles` VALUES (1);".data)) hx hdashx hhashx
      (by decide) hdb1 (by decide) hhb1 hrb1 (append_ne_nil_l "_".data _ (by decide))
  have hdb2 : containsSub "--".data ("_".data ++ (x ++ "_domains` VALUES (1);".data)) = false := by
    rw [containsSub_split_block "--".data "_".data x "_domains` VALUES (1);".data (by decide) hx hdashx]
    decide
  have hhb2 : containsSub "#".data ("_".data ++ (x ++ "_domains` VALUES (1);".data)) = false := by
    rw [containsSub_split_block "#".data "_".data x "_domains` VALUES (1);".data (by decide) hx hhashx]
    decide
  have hrb2 : rstripL ("_".data ++ (x ++ "_domains` VALUES (1);".data)) = "_".data ++ (x ++ "_domains` VALUES (1);".data) :=
    rstripL_id_of_append "_".data (x ++ "_domains` VALUES (1);".data)
      (rstripL_id_of_append x "_domains` VALUES (1);".data (by decide) (by decide)) (append_ne_nil_l x "_domains` VALUES (1);".data hx)
  have hl2 : stripCommentLine ("INSERT INTO `".data ++ (x ++ ("_".data ++ (x ++ "_domains` VALUES (1);".data)))) = some ("INSERT INTO `".data ++ (x ++ ("_".data ++ (x ++ "_domains` VALUES (1);".data)))) :=
    stripCommentLine_block "INSERT INTO `".data x ("_".data ++ (x ++ "_domains` VALUES (1);".data)) hx hdashx hhashx
      (by decide) hdb2 (by decide) hhb2 hrb2 (append_ne_nil_l "_".data _ (by decide))
  have hdb3 : containsSub "--".data ("_".data ++ (x ++ "_areas` VALUES (1);".data)) = false := by
    rw [containsSub_split_block "--".data "_".data x "_areas` VALUES (1);".data (by decide) hx hdashx]
    decide
  have hhb3 : containsSub "#".data ("_".data ++ (x ++ "_areas` VALUES (1);".data)) = false := by
    rw [containsSub_split_block "#".data "_".data x "_areas` VALUES (1);".data (by decide) hx hhashx]
    decide
  have hrb3 : rstripL ("_".data ++ (x ++ "_areas` VALUES (1);".data)) = "_".data ++ (x ++ "_areas` VALUES (1);".data) :=
    rstripL_id_of_append "_".data (x ++ "_areas` VALUES (1);".data)
      (rstripL_id_of_append x "_areas` VALUES (1);".data (by decide) (by decide)) (append_ne_nil_l x "_areas` VALUES (1);".data hx)
  have hl3 : stripCommentLine ("INSERT INTO `".data ++ (x ++ ("_".data ++ (x ++ "_areas` VALUES (1);".data)))) = some ("INSERT INTO `".data ++ (x ++ ("_".data ++ (x ++ "_areas` VALUES (1);".data)))) :=
    stripCommentLine_block "INSERT INTO `".data x ("_".data ++ (x ++ "_areas` VALUES (1);".data)) hx hdashx hhashx
      (by decide) hdb3 (by decide) hhb3 hrb3 (append_ne_nil_l "_".data _ (by decide))
  have hdb4 : containsSub "--".data ("_".data ++ (x ++ "_tasks` VALUES (1);".data)) = false := by
    rw [containsSub_split_block "--".data "_".data x "_tasks` VALUES (1);".data (by decide) hx hdashx]
    decide
  have hhb4 : containsSub "#".data ("_".data ++ (x ++ "_tasks` VALUES (1);".data)) = false := by
    rw [containsSub_split_block "#".data "_".data x "_tasks` VALUES (1);".data (by decide) hx hhashx]
    decide
  have hrb4 : rstripL ("_".data ++ (x ++ "_tasks` VALUES (1);".data)) = "_".data ++ (x ++ "_tasks` VALUES (1);".data) :=
    rstripL_id_of_append "_".data (x ++ "_tasks` VALUES (1);".data)
      (rstripL_id_of_append x "_tasks` VALUES (1);".data (by decide) (by decide)) (append_ne_nil_l x "_tasks` VALUES (1);".data hx)
  have hl4 : stripCommentLine ("INSERT INTO `".data ++ (x ++ ("_".data ++ (x ++ "_tasks` VALUES (1);".data)))) = some ("INSERT INTO `".data ++ (x ++ ("_".data ++ (x ++ "_tasks` VALUES (1);".data)))) :=
    stripCommentLine_block "INSERT INTO `".data x ("_".data ++ (x ++ "_tasks` VALUES (1);".data)) hx hdashx hhashx
      (by decide) hdb4 (by decide) hhb4 hrb4 (append_ne_nil_l "_".data _ (by decide))
  have hl5 : stripCommentLine ("INSERT INTO ".data ++ (x ++ "_profiles VALUES (1);".data)) = some ("INSERT INTO ".data ++ (x ++ "_profiles VALUES (1);".data)) :=
    stripCommentLine_block "INSERT INTO ".data x "_profiles VALUES (1);".data hx hdashx hhashx
      (by decide) (by decide) (by decide) (by decide) (by decide) (by decide)
  have hl6 : stripCommentLine ("INSERT INTO ".data ++ (x ++ "_domains VALUES (1);".data)) = some ("INSERT INTO ".data ++ (x ++ "_domains VALUES (1);".data)) :=
    stripCommentLine_block "INSERT INTO ".data x "_domains VALUES (1);".data hx hdashx hhashx
      (by decide) (by decide) (by decide) (by decide) (by decide) (by decide)
  have hl7 : stripCommentLine ("INSERT INTO ".data ++ (x ++ "_areas VALUES (1);".data)) = some ("INSERT INTO ".data ++ (x ++ "_areas VALUES (1);".data)) :=
    stripCommentLine_block "INSERT INTO ".data x "_areas VALUES (1);".data hx hdashx hhashx
      (by decide) (by decide) (by decide) (by decide) (by decide) (by decide)
  have hl8 : stripCommentLine ("INSERT INTO ".data ++ (x ++ "_tasks VALUES (1);".data)) = some ("INSERT INTO ".data ++ (x ++ "_tasks VALUES (1);".data)) :=
    stripCommentLine_block "INSERT INTO ".data x "_tasks VALUES (1);".data hx hdashx hhashx
      (by decide) (by decide) (by decide) (by decide) (by decide) (by decide)
  simp only [List.filterMap_cons, hl1, hl2, hl3, hl4, hl5, hl6, hl7, hl8,
    List.filterMap_nil]
  rw [joinWith_cons2, joinWith_cons2, joinWith_cons2, joinWith_cons2,
    joinWith_cons2, joinWith_cons2, joinWith_cons2, joinWith_single]
  have hT3 : ("INSERT INTO `".data ++ (x ++ ("_".data ++ (x ++ "_profiles` VALUES (1);".data))) ++ (['\n'] ++ ("INSERT INTO `".data ++ (x ++ ("_".data ++ (x ++ "_domains` VALUES (1);".data))) ++ (['\n'] ++ ("INSERT INTO `".data ++ (x ++ ("_".data ++ (x ++ "_areas` VALUES (1);".data))) ++ (['\n'] ++ ("INSERT INTO `".data ++ (x ++ ("_".data ++ (x ++ "_tasks` VALUES (1);".data))) ++ (['\n'] ++ ("INSERT INTO ".data ++ (x ++ "_profiles VALUES (1);".data) ++ (['\n'] ++ ("INSERT INTO ".data ++ (x ++ "_domains VALUES (1);".data) ++ (['\n'] ++ ("INSERT INTO ".data ++ (x ++ "_areas VALUES (1);".data) ++ (['\n'] ++ ("INSERT INTO ".data ++ (x ++ "_tasks VALUES (1);".data))))))))))))))))
      = ("INSERT INTO `".data ++ (x ++ ("_".data ++ (x ++ ("_profiles` VALUES (1);".data ++ ('\n' :: ("INSERT INTO `".data ++ (x ++ ("_".data ++ (x ++ ("_domains` VALUES (1);".data ++ ('\n' :: ("INSERT INTO `".data ++ (x ++ ("_".data ++ (x ++ ("_areas` VALUES (1);".data ++ ('\n' :: ("INSERT INTO `".data ++ (x ++ ("_".data ++ (x ++ ("_tasks` VALUES (1);".data ++ ('\n' :: ("INSERT INTO ".data ++ (x ++ ("_profiles VALUES (1);".data ++ ('\n' :: ("INSERT INTO ".data ++ (x ++ ("_domains VALUES (1);".data ++ ('\n' :: ("INSERT INTO ".data ++ (x ++ ("_areas VALUES (1);".data ++ ('\n' :: ("INSERT INTO ".data ++ (x ++ "_tasks VALUES (1);".data)))))))))))))))))))))))))))))))))))))) := by
    rw [chain_x2 "INSERT INTO `".data "_".data "_profiles` VALUES (1);".data _ x,
      nl_cons,
      chain_x2 "INSERT INTO `".data "_".data "_domains` VALUES (1);".data _ x,
      nl_cons,
      chain_x2 "INSERT INTO `".data "_".data "_areas` VALUES (1);".data _ x,
      nl_cons,
      chain_x2 "INSERT INTO `".data "_".data "_tasks` VALUES (1);".data _ x,
      nl_cons,
      chain_x1 "INSERT INTO ".data "_profiles VALUES (1);".data _ x,
      nl_cons,
      chain_x1 "INSERT INTO ".data "_domains VALUES (1);".data _ x,
      nl_cons,
      chain_x1 "INSERT INTO ".data "_areas VALUES (1);".data _ x,
      nl_cons]
  rw [hT3]
  unfold splitStmts
  have hfrag : splitOnC ';' ("INSERT INTO `".data ++ (x ++ ("_".data ++ (x ++ ("_profiles` VALUES (1);".data ++ ('\n' :: ("INSERT INTO `".data ++ (x ++ ("_".data ++ (x ++ ("_domains` VALUES (1);".data ++ ('\n' :: ("INSERT INTO `".data ++ (x ++ ("_".data ++ (x ++ ("_areas` VALUES (1);".data ++ ('\n' :: ("INSERT INTO `".data ++ (x ++ ("_".data ++ (x ++ ("_tasks` VALUES (1);".data ++ ('\n' :: ("INSERT INTO ".data ++ (x ++ ("_profiles VALUES (1);".data ++ ('\n' :: ("INSERT INTO ".data ++ (x ++ ("_domains VALUES (1);".data ++ ('\n' :: ("INSERT INTO ".data ++ (x ++ ("_areas VALUES (1);".data ++ ('\n' :: ("INSERT INTO ".data ++ (x ++ "_tasks VALUES (1);".data))))))))))))))))))))))))))))))))))))))
      = ["INSERT INTO `".data ++ (x ++ ("_".data ++ (x ++ "_profiles` VALUES (1)".data))),
         "\nINSERT INTO `".data ++ (x ++ ("_".data ++ (x ++ "_domains` VALUES (1)".data))),
         "\nINSERT INTO `".data ++ (x ++ ("_".data ++ (x ++ "_areas` VALUES (1)".data))),
         "\nINSERT INTO `".data ++ (x ++ ("_".data ++ (x ++ "_tasks` VALUES (1)".data))),
         "\nINSERT INTO ".data ++ (x ++ "_profiles VALUES (1)".data),
         "\nINSERT INTO ".data ++ (x ++ "_domains VALUES (1)".data),
         "\nINSERT INTO ".data ++ (x ++ "_areas VALUES (1)".data),
         "\nINSERT INTO ".data ++ (x ++ "_tasks VALUES (1)".data),
         []] := by
    show splitOnC ';' ("INSERT INTO `".data ++ (x ++ ("_".data ++ (x ++ ("_profiles` VALUES (1)".data ++ (';' :: ("\nINSERT INTO `".data ++ (x ++ ("_".data ++ (x ++ ("_domains` VALUES (1)".data ++ (';' :: ("\nINSERT INTO `".data ++ (x ++ ("_".data ++ (x ++ ("_areas` VALUES (1)".data ++ (';' :: ("\nINSERT INTO `".data ++ (x ++ ("_".data ++ (x ++ ("_tasks` VALUES (1)".data ++ (';' :: ("\nINSERT INTO ".data ++ (x ++ ("_profiles VALUES (1)".data ++ (';' :: ("\nINSERT INTO ".data ++ (x ++ ("_domains VALUES (1)".data ++ (';' :: ("\nINSERT INTO ".data ++ (x ++ ("_areas VALUES (1)".data ++ (';' :: ("\nINSERT INTO ".data ++ (x ++ ("_tasks VALUES (1)".data ++ (';' :: (([] : List Char)))))))))))))))))))))))))))))))))))))))))) = _
    rw [splitOnC_line_x2 ';' "INSERT INTO `".data x "_".data "_profiles` VALUES (1)".data _ (by decide) hsemi (by decide) (by decide)]
    rw [splitOnC_line_x2 ';' "\nINSERT INTO `".data x "_".data "_domains` VALUES (1)".data _ (by decide) hsemi (by decide) (by decide)]
    rw [splitOnC_line_x2 ';' "\nINSERT INTO `".data x "_".data "_areas` VALUES (1)".data _ (by decide) hsemi (by decide) (by decide)]
    rw [splitOnC_line_x2 ';' "\nINSERT INTO `".data x "_".data "_tasks` VALUES (1)".data _ (by decide) hsemi (by decide) (by decide)]
    rw [splitOnC_line_x ';' "\nINSERT INTO ".data x "_profiles VALUES (1)".data _ (by decide) hsemi (by decide)]
    rw [splitOnC_line_x ';' "\nINSERT INTO ".data x "_domains VALUES (1)".data _ (by decide) hsemi (by decide)]
    rw [splitOnC_line_x ';' "\nINSERT INTO ".data x "_areas VALUES (1)".data _ (by decide) hsemi (by decide)]
    rw [splitOnC_line_x ';' "\nINSERT INTO ".data x "_tasks VALUES (1)".data _ (by decide) hsemi (by decide)]
    rfl
  rw [hfrag]
  have htr1 : trimL ("INSERT INTO `".data ++ (x ++ ("_".data ++ (x ++ "_profiles` VALUES (1)".data))))
      = "INSERT INTO `".data ++ (x ++ ("_".data ++ (x ++ "_profiles` VALUES (1)".data))) :=
    trimL_frag_x2 "INSERT INTO `".data "INSERT INTO `".data x "_".data "_profiles` VALUES (1)".data hx (by decide) (by decide) (by decide) rfl
  have htr2 : trimL ("\nINSERT INTO `".data ++ (x ++ ("_".data ++ (x ++ "_domains` VALUES (1)".data))))
      = "INSERT INTO `".data ++ (x ++ ("_".data ++ (x ++ "_domains` VALUES (1)".data))) :=
    trimL_frag_x2 "\nINSERT INTO `".data "INSERT INTO `".data x "_".data "_domains` VALUES (1)".data hx (by decide) (by decide) (by decide) rfl
  have htr3 : trimL ("\nINSERT INTO `".data ++ (x ++ ("_".data ++ (x ++ "_areas` VALUES (1)".data))))
      = "INSERT INTO `".data ++ (x ++ ("_".data ++ (x ++ "_areas` VALUES (1)".data))) :=
    trimL_frag_x2 "\nINSERT INTO `".data "INSERT INTO `".data x "_".data "_areas` VALUES (1)".data hx (by decide) (by decide) (by decide) rfl
  have htr4 : trimL ("\nINSERT INTO `".data ++ (x ++ ("_".data ++ (x ++ "_tasks` VALUES (1)".data))))
      = "INSERT INTO `".data ++ (x ++ ("_".data ++ (x ++ "_tasks` VALUES (1)".data))) :=
    trimL_frag_x2 "\nINSERT INTO `".data "INSERT INTO `".data x "_".data "_tasks` VALUES (1)".data hx (by decide) (by decide) (by decide) rfl
  have htr5 : trimL ("\nINSERT INTO ".data ++ (x ++ "_profiles VALUES (1)".data))
      = "INSERT INTO ".data ++ (x ++ "_profiles VALUES (1)".data) :=
    trimL_frag_x "\nINSERT INTO ".data "INSERT INTO ".data x "_profiles VALUES (1)".data hx (by decide) (by decide) rfl
  have htr6 : trimL ("\nINSERT INTO ".data ++ (x ++ "_domains VALUES (1)".data))
      = "INSERT INTO ".data ++ (x ++ "_domains VALUES (1)".data) :=
    trimL_frag_x "\nINSERT INTO ".data "INSERT INTO ".data x "_domains VALUES (1)".data hx (by decide) (by decide) rfl
  have htr7 : trimL ("\nINSERT INTO ".data ++ (x ++ "_areas VALUES (1)".data))
      = "INSERT INTO ".data ++ (x ++ "_areas VALUES (1)".data) :=
    trimL_frag_x "\nINSERT INTO ".data "INSERT INTO ".data x "_areas VALUES (1)".data hx (by decide) (by decide) rfl
  have htr8 : trimL ("\nINSERT INTO ".data ++ (x ++ "_tasks VALUES (1)".data))
      = "INSERT INTO ".data ++ (x ++ "_tasks VALUES (1)".data) :=
    trimL_frag_x "\nINSERT INTO ".data "INSERT INTO ".data x "_tasks VALUES (1)".data hx (by decide) (by decide) rfl
  have htrn : trimL ([] : List Char) = [] := by decide
  simp only [List.map_cons, List.map_nil, htr1, htr2, htr3, htr4, htr5, htr6,
    htr7, htr8, htrn]
  have hne1 : ("INSERT INTO `".data ++ (x ++ ("_".data ++ (x ++ "_profiles` VALUES (1)".data)))) ≠ [] := append_ne_nil_l _ _ (by decide)
  have hb1 : (decide (("INSERT INTO `".data ++ (x ++ ("_".data ++ (x ++ "_profiles` VALUES (1)".data)))) ≠ [])) = true := decide_eq_true hne1
  have hne2 : ("INSERT INTO `".data ++ (x ++ ("_".data ++ (x ++ "_domains` VALUES (1)".data)))) ≠ [] := append_ne_nil_l _ _ (by decide)
  have hb2 : (decide (("INSERT INTO `".data ++ (x ++ ("_".data ++ (x ++ "_domains` VALUES (1)".data)))) ≠ [])) = true := decide_eq_true hne2
  have hne3 : ("INSERT INTO `".data ++ (x ++ ("_".data ++ (x ++ "_areas` VALUES (1)".data)))) ≠ [] := append_ne_nil_l _ _ (by decide)
  have hb3 : (decide (("INSERT INTO `".data ++ (x ++ ("_".data ++ (x ++ "_areas` VALUES (1)".data)))) ≠ [])) = true := decide_eq_true hne3
  have hne4 : ("INSERT INTO `".data ++ (x ++ ("_".data ++ (x ++ "_tasks` VALUES (1)".data)))) ≠ [] := append_ne_nil_l _ _ (by decide)
  have hb4 : (decide (("INSERT INTO `".data ++ (x ++ ("_".data ++ (x ++ "_tasks` VALUES (1)".data)))) ≠ [])) = true := decide_eq_true hne4
  have hne5 : ("INSERT INTO ".data ++ (x ++ "_profiles VALUES (1)".data)) ≠ [] := append_ne_nil_l _ _ (by decide)
  have hb5 : (decide (("INSERT INTO ".data ++ (x ++ "_profiles VALUES (1)".data)) ≠ [])) = true := decide_eq_true hne5
  have hne6 : ("INSERT INTO ".data ++ (x ++ "_domains VALUES (1)".data)) ≠ [] := append_ne_nil_l _ _ (by decide)
  have hb6 : (decide (("INSERT INTO ".data ++ (x ++ "_domains VALUES (1)".data)) ≠ [])) = true := decide_eq_true hne6
  have hne7 : ("INSERT INTO ".data ++ (x ++ "_areas VALUES (1)".data)) ≠ [] := append_ne_nil_l _ _ (by decide)
  have hb7 : (decide (("INSERT INTO ".data ++ (x ++ "_areas VALUES (1)".data)) ≠ [])) = true := decide_eq_true hne7
  have hne8 : ("INSERT INTO ".data ++ (x ++ "_tasks VALUES (1)".data)) ≠ [] := append_ne_nil_l _ _ (by decide)
  have hb8 : (decide (("INSERT INTO ".data ++ (x ++ "_tasks VALUES (1)".data)) ≠ [])) = true := decide_eq_true hne8
  have hbnil : (decide (([] : List Char) ≠ [])) = false := by decide
  unfold filterDirectives
  simp only [List.filter_cons, List.filter_nil, hb1, hb2, hb3, hb4, hb5, hb6,
    hb7, hb8, hbnil, Bool.not_true, Bool.not_false]
  show List.filter (fun u => ! isDirective u)
      ["INSERT INTO `".data ++ (x ++ ("_".data ++ (x ++ "_profiles` VALUES (1)".data))),
       "INSERT INTO `".data ++ (x ++ ("_".data ++ (x ++ "_domains` VALUES (1)".data))),
       "INSERT INTO `".data ++ (x ++ ("_".data ++ (x ++ "_areas` VALUES (1)".data))),
       "INSERT INTO `".data ++ (x ++ ("_".data ++ (x ++ "_tasks` VALUES (1)".data))),
       "INSERT INTO ".data ++ (x ++ "_profiles VALUES (1)".data),
       "INSERT INTO ".data ++ (x ++ "_domains VALUES (1)".data),
       "INSERT INTO ".data ++ (x ++ "_areas VALUES (1)".data),
       "INSERT INTO ".data ++ (x ++ "_tasks VALUES (1)".data)] = _
  rw [filter_dir_cons_keep _ _ (dir_ins_bt (x ++ ("_".data ++ (x ++ "_profiles` VALUES (1)".data))))]
  rw [filter_dir_cons_keep _ _ (dir_ins_bt (x ++ ("_".data ++ (x ++ "_domains` VALUES (1)".data))))]
  rw [filter_dir_cons_keep _ _ (dir_ins_bt (x ++ ("_".data ++ (x ++ "_areas` VALUES (1)".data))))]
  rw [filter_dir_cons_keep _ _ (dir_ins_bt (x ++ ("_".data ++ (x ++ "_tasks` VALUES (1)".data))))]
  rw [filter_dir_cons_keep _ _ (dir_ins (x ++ "_profiles VALUES (1)".data))]
  rw [filter_dir_cons_keep _ _ (dir_ins (x ++ "_domains VALUES (1)".data))]
  rw [filter_dir_cons_keep _ _ (dir_ins (x ++ "_areas VALUES (1)".data))]
  rw [filter_dir_cons_keep _ _ (dir_ins (x ++ "_tasks VALUES (1)".data))]
  rw [List.filter_nil]


/-- Witness for `rewriter_backtick_double_prefix` at the concrete prefix
`xyz_12`. -/
theorem rewriter_backtick_double_prefix_witness :
    safeX "xyz_12".data ∧
    migrationStatements "xyz_12".data rewriterDemoSql
      = ["INSERT INTO `".data ++ ("xyz_12".data ++ ("_".data ++ ("xyz_12".data ++ "_profiles` VALUES (1)".data))),
         "INSERT INTO `".data ++ ("xyz_12".data ++ ("_".data ++ ("xyz_12".data ++ "_domains` VALUES (1)".data))),
         "INSERT INTO `".data ++ ("xyz_12".data ++ ("_".data ++ ("xyz_12".data ++ "_areas` VALUES (1)".data))),
         "INSERT INTO `".data ++ ("xyz_12".data ++ ("_".data ++ ("xyz_12".data ++ "_tasks` VALUES (1)".data))),
         "INSERT INTO ".data ++ ("xyz_12".data ++ "_profiles VALUES (1)".data),
         "INSERT INTO ".data ++ ("xyz_12".data ++ "_domains VALUES (1)".data),
         "INSERT INTO ".data ++ ("xyz_12".data ++ "_areas VALUES (1)".data),
         "INSERT INTO ".data ++ ("xyz_12".data ++ "_tasks VALUES (1)".data)] :=
  ⟨⟨by decide, by decide⟩,
   rewriter_backtick_double_prefix "xyz_12".data ⟨by decide, by decide⟩⟩
